import Mathlib

/-!
# LocatorGen: locator resolution and code emission (`contentScript.js`)

A shallow embedding of the engine functions of `src/contentScript.js`
(`isInteractable`, `toFieldName`, `buildRelativeXPath`, `buildLocatorInfo`,
`buildCssFallback`, `buildAllLocators`, the emitters and `generatePageObject`)
together with the properties stated about them.

Modelling conventions.

* A JavaScript string is a `List Char`.  Every regular expression of the source
  is free of the `u` flag and only ever tests for ASCII characters or for white
  space (all in the basic plane), so working with code points instead of UTF-16
  code units does not change any result.
* `null` / `undefined` is `none`; a falsy string is `none` or `some []`.
* `String.prototype.toLowerCase` / `toUpperCase` are the default case conversion
  of Unicode, with the tables of Unicode 14.0 (section "Case conversion"); on
  ASCII strings they are `lowerChar` / `upperChar` on every character.
* An element is given with its position in the tree: its own data and, for each
  ancestor, the ancestor's data and the ancestor's element children split
  around the child on the path (`Element.ancestors`).
* The properties `el.id` and `el.className` are not always strings.  On a `form`
  that owns a control named `id` (or `className`) the property is that control, and
  on an SVG element `className` is an `SVGAnimatedString`.  `ElementData.id` and
  `ElementData.className` are therefore values of `PropertyValue`: a string, or an
  object given by its conversion to a string.  Attributes are read with
  `getAttribute` and are always strings.
* A function that can raise returns an `Option`: `none` is the raised `TypeError`
  (`replace` or `split` called on an object).  `buildRelativeXPath`,
  `buildLocatorInfo` and `buildAllLocators` are of this kind; the loop of
  `generatePageObject` catches the error and skips the element.
* The other properties and methods read by the source (`nodeType`, `tagName`,
  `parentElement`, `children`, `previousElementSibling`, `getAttribute`,
  `hasAttribute`, `closest`, `disabled`, `isContentEditable`, `innerText`,
  `textContent`, `getBoundingClientRect`) are the ones the DOM defines for the
  element, and `ElementData` gives their values: a `form` whose controls are named
  after one of them, and so shadow it, is not described by this model.
-/

namespace LocatorGen

/-- A JavaScript string value. -/
abbrev JSString := List Char

/-! ## String primitives -/

/-- The character class `[a-zA-Z0-9_]`. -/
def isWordChar (c : Char) : Bool :=
  (97 ≤ c.toNat && c.toNat ≤ 122) || (65 ≤ c.toNat && c.toNat ≤ 90) ||
    (48 ≤ c.toNat && c.toNat ≤ 57) || c.toNat == 95

/-- The character class `[A-Za-z_]`. -/
def isIdentStart (c : Char) : Bool :=
  (65 ≤ c.toNat && c.toNat ≤ 90) || (97 ≤ c.toNat && c.toNat ≤ 122) || c.toNat == 95

/-- The class `\s` of JavaScript regular expressions, which is also the set of
code units removed by `String.prototype.trim` (WhiteSpace and LineTerminator). -/
def isWhiteSpace (c : Char) : Bool :=
  let n := c.toNat
  (9 ≤ n && n ≤ 13) || n == 32 || n == 160 || n == 5760 || (8192 ≤ n && n ≤ 8202) ||
    n == 8232 || n == 8233 || n == 8239 || n == 8287 || n == 12288 || n == 65279

/-! ## Case conversion

`String.prototype.toLowerCase` and `toUpperCase` follow the default case conversion
of the Unicode standard, without a locale.  The tables below are those of Unicode
14.0: the simple mappings of `UnicodeData.txt`, the unconditional mappings of
`SpecialCasing.txt`, the condition `Final_Sigma` and the properties `Cased` and
`Case_Ignorable` of `DerivedCoreProperties.txt`. -/

/-- ASCII action of `toLowerCase` on one character. -/
def lowerChar (c : Char) : Char :=
  if 65 ≤ c.toNat ∧ c.toNat ≤ 90 then Char.ofNat (c.toNat + 32) else c

/-- ASCII action of `toUpperCase` on one character. -/
def upperChar (c : Char) : Char :=
  if 97 ≤ c.toNat ∧ c.toNat ≤ 122 then Char.ofNat (c.toNat - 32) else c

/-- The image of the code point `n` in a table of runs.  A run
`(first, last, step, image)` maps the code points `first`, `first + step`, ... up to
`last` to `image`, `image + step`, ... -/
def lookupRun : List (Nat × Nat × Nat × Nat) → Nat → Option Nat
  | [], _ => none
  | (first, last, step, image) :: rest, n =>
    if first ≤ n ∧ n ≤ last ∧ (n - first) % step = 0 then some (image + (n - first))
    else lookupRun rest n

/-- Whether the code point `n` lies in one of the ranges `(first, last)`. -/
def inRanges : List (Nat × Nat) → Nat → Bool
  | [], _ => false
  | (first, last) :: rest, n => (decide (first ≤ n) && decide (n ≤ last)) || inRanges rest n

/-- The simple lower-case mappings of the code points above U+007F. -/
def lowerRuns : List (Nat × Nat × Nat × Nat) :=
  [
    (192, 214, 1, 224), (216, 222, 1, 248), (256, 302, 2, 257), (306, 310, 2, 307),
    (313, 327, 2, 314), (330, 374, 2, 331), (376, 376, 1, 255), (377, 381, 2, 378),
    (385, 385, 1, 595), (386, 388, 2, 387), (390, 390, 1, 596), (391, 391, 1, 392),
    (393, 394, 1, 598), (395, 395, 1, 396), (398, 398, 1, 477), (399, 399, 1, 601),
    (400, 400, 1, 603), (401, 401, 1, 402), (403, 403, 1, 608), (404, 404, 1, 611),
    (406, 406, 1, 617), (407, 407, 1, 616), (408, 408, 1, 409), (412, 412, 1, 623),
    (413, 413, 1, 626), (415, 415, 1, 629), (416, 420, 2, 417), (422, 422, 1, 640),
    (423, 423, 1, 424), (425, 425, 1, 643), (428, 428, 1, 429), (430, 430, 1, 648),
    (431, 431, 1, 432), (433, 434, 1, 650), (435, 437, 2, 436), (439, 439, 1, 658),
    (440, 440, 1, 441), (444, 444, 1, 445), (452, 452, 1, 454), (453, 453, 1, 454),
    (455, 455, 1, 457), (456, 456, 1, 457), (458, 458, 1, 460), (459, 475, 2, 460),
    (478, 494, 2, 479), (497, 497, 1, 499), (498, 500, 2, 499), (502, 502, 1, 405),
    (503, 503, 1, 447), (504, 542, 2, 505), (544, 544, 1, 414), (546, 562, 2, 547),
    (570, 570, 1, 11365), (571, 571, 1, 572), (573, 573, 1, 410), (574, 574, 1, 11366),
    (577, 577, 1, 578), (579, 579, 1, 384), (580, 580, 1, 649), (581, 581, 1, 652),
    (582, 590, 2, 583), (880, 882, 2, 881), (886, 886, 1, 887), (895, 895, 1, 1011),
    (902, 902, 1, 940), (904, 906, 1, 941), (908, 908, 1, 972), (910, 911, 1, 973),
    (913, 929, 1, 945), (932, 939, 1, 964), (975, 975, 1, 983), (984, 1006, 2, 985),
    (1012, 1012, 1, 952), (1015, 1015, 1, 1016), (1017, 1017, 1, 1010), (1018, 1018, 1, 1019),
    (1021, 1023, 1, 891), (1024, 1039, 1, 1104), (1040, 1071, 1, 1072), (1120, 1152, 2, 1121),
    (1162, 1214, 2, 1163), (1216, 1216, 1, 1231), (1217, 1229, 2, 1218), (1232, 1326, 2, 1233),
    (1329, 1366, 1, 1377), (4256, 4293, 1, 11520), (4295, 4295, 1, 11559),
    (4301, 4301, 1, 11565), (5024, 5103, 1, 43888), (5104, 5109, 1, 5112),
    (7312, 7354, 1, 4304), (7357, 7359, 1, 4349), (7680, 7828, 2, 7681), (7838, 7838, 1, 223),
    (7840, 7934, 2, 7841), (7944, 7951, 1, 7936), (7960, 7965, 1, 7952), (7976, 7983, 1, 7968),
    (7992, 7999, 1, 7984), (8008, 8013, 1, 8000), (8025, 8031, 2, 8017), (8040, 8047, 1, 8032),
    (8072, 8079, 1, 8064), (8088, 8095, 1, 8080), (8104, 8111, 1, 8096), (8120, 8121, 1, 8112),
    (8122, 8123, 1, 8048), (8124, 8124, 1, 8115), (8136, 8139, 1, 8050), (8140, 8140, 1, 8131),
    (8152, 8153, 1, 8144), (8154, 8155, 1, 8054), (8168, 8169, 1, 8160), (8170, 8171, 1, 8058),
    (8172, 8172, 1, 8165), (8184, 8185, 1, 8056), (8186, 8187, 1, 8060), (8188, 8188, 1, 8179),
    (8486, 8486, 1, 969), (8490, 8490, 1, 107), (8491, 8491, 1, 229), (8498, 8498, 1, 8526),
    (8544, 8559, 1, 8560), (8579, 8579, 1, 8580), (9398, 9423, 1, 9424),
    (11264, 11311, 1, 11312), (11360, 11360, 1, 11361), (11362, 11362, 1, 619),
    (11363, 11363, 1, 7549), (11364, 11364, 1, 637), (11367, 11371, 2, 11368),
    (11373, 11373, 1, 593), (11374, 11374, 1, 625), (11375, 11375, 1, 592),
    (11376, 11376, 1, 594), (11378, 11378, 1, 11379), (11381, 11381, 1, 11382),
    (11390, 11391, 1, 575), (11392, 11490, 2, 11393), (11499, 11501, 2, 11500),
    (11506, 11506, 1, 11507), (42560, 42604, 2, 42561), (42624, 42650, 2, 42625),
    (42786, 42798, 2, 42787), (42802, 42862, 2, 42803), (42873, 42875, 2, 42874),
    (42877, 42877, 1, 7545), (42878, 42886, 2, 42879), (42891, 42891, 1, 42892),
    (42893, 42893, 1, 613), (42896, 42898, 2, 42897), (42902, 42920, 2, 42903),
    (42922, 42922, 1, 614), (42923, 42923, 1, 604), (42924, 42924, 1, 609),
    (42925, 42925, 1, 620), (42926, 42926, 1, 618), (42928, 42928, 1, 670),
    (42929, 42929, 1, 647), (42930, 42930, 1, 669), (42931, 42931, 1, 43859),
    (42932, 42946, 2, 42933), (42948, 42948, 1, 42900), (42949, 42949, 1, 642),
    (42950, 42950, 1, 7566), (42951, 42953, 2, 42952), (42960, 42960, 1, 42961),
    (42966, 42968, 2, 42967), (42997, 42997, 1, 42998), (65313, 65338, 1, 65345),
    (66560, 66599, 1, 66600), (66736, 66771, 1, 66776), (66928, 66964, 2, 66967),
    (66929, 66937, 2, 66968), (66941, 66953, 2, 66980), (66957, 66961, 2, 66996),
    (66965, 66965, 1, 67004), (68736, 68786, 1, 68800), (71840, 71871, 1, 71872),
    (93760, 93791, 1, 93792), (125184, 125217, 1, 125218)]

/-- The simple upper-case mappings of the code points above U+007F. -/
def upperRuns : List (Nat × Nat × Nat × Nat) :=
  [
    (181, 181, 1, 924), (224, 246, 1, 192), (248, 254, 1, 216), (255, 255, 1, 376),
    (257, 303, 2, 256), (305, 305, 1, 73), (307, 311, 2, 306), (314, 328, 2, 313),
    (331, 375, 2, 330), (378, 382, 2, 377), (383, 383, 1, 83), (384, 384, 1, 579),
    (387, 389, 2, 386), (392, 392, 1, 391), (396, 396, 1, 395), (402, 402, 1, 401),
    (405, 405, 1, 502), (409, 409, 1, 408), (410, 410, 1, 573), (414, 414, 1, 544),
    (417, 421, 2, 416), (424, 424, 1, 423), (429, 429, 1, 428), (432, 432, 1, 431),
    (436, 438, 2, 435), (441, 441, 1, 440), (445, 445, 1, 444), (447, 447, 1, 503),
    (453, 453, 1, 452), (454, 454, 1, 452), (456, 456, 1, 455), (457, 457, 1, 455),
    (459, 459, 1, 458), (460, 460, 1, 458), (462, 476, 2, 461), (477, 477, 1, 398),
    (479, 495, 2, 478), (498, 498, 1, 497), (499, 499, 1, 497), (501, 501, 1, 500),
    (505, 543, 2, 504), (547, 563, 2, 546), (572, 572, 1, 571), (575, 576, 1, 11390),
    (578, 578, 1, 577), (583, 591, 2, 582), (592, 592, 1, 11375), (593, 593, 1, 11373),
    (594, 594, 1, 11376), (595, 595, 1, 385), (596, 596, 1, 390), (598, 599, 1, 393),
    (601, 601, 1, 399), (603, 603, 1, 400), (604, 604, 1, 42923), (608, 608, 1, 403),
    (609, 609, 1, 42924), (611, 611, 1, 404), (613, 613, 1, 42893), (614, 614, 1, 42922),
    (616, 616, 1, 407), (617, 617, 1, 406), (618, 618, 1, 42926), (619, 619, 1, 11362),
    (620, 620, 1, 42925), (623, 623, 1, 412), (625, 625, 1, 11374), (626, 626, 1, 413),
    (629, 629, 1, 415), (637, 637, 1, 11364), (640, 640, 1, 422), (642, 642, 1, 42949),
    (643, 643, 1, 425), (647, 647, 1, 42929), (648, 648, 1, 430), (649, 649, 1, 580),
    (650, 651, 1, 433), (652, 652, 1, 581), (658, 658, 1, 439), (669, 669, 1, 42930),
    (670, 670, 1, 42928), (837, 837, 1, 921), (881, 883, 2, 880), (887, 887, 1, 886),
    (891, 893, 1, 1021), (940, 940, 1, 902), (941, 943, 1, 904), (945, 961, 1, 913),
    (962, 962, 1, 931), (963, 971, 1, 931), (972, 972, 1, 908), (973, 974, 1, 910),
    (976, 976, 1, 914), (977, 977, 1, 920), (981, 981, 1, 934), (982, 982, 1, 928),
    (983, 983, 1, 975), (985, 1007, 2, 984), (1008, 1008, 1, 922), (1009, 1009, 1, 929),
    (1010, 1010, 1, 1017), (1011, 1011, 1, 895), (1013, 1013, 1, 917), (1016, 1016, 1, 1015),
    (1019, 1019, 1, 1018), (1072, 1103, 1, 1040), (1104, 1119, 1, 1024), (1121, 1153, 2, 1120),
    (1163, 1215, 2, 1162), (1218, 1230, 2, 1217), (1231, 1231, 1, 1216), (1233, 1327, 2, 1232),
    (1377, 1414, 1, 1329), (4304, 4346, 1, 7312), (4349, 4351, 1, 7357), (5112, 5117, 1, 5104),
    (7296, 7296, 1, 1042), (7297, 7297, 1, 1044), (7298, 7298, 1, 1054), (7299, 7300, 1, 1057),
    (7301, 7301, 1, 1058), (7302, 7302, 1, 1066), (7303, 7303, 1, 1122), (7304, 7304, 1, 42570),
    (7545, 7545, 1, 42877), (7549, 7549, 1, 11363), (7566, 7566, 1, 42950),
    (7681, 7829, 2, 7680), (7835, 7835, 1, 7776), (7841, 7935, 2, 7840), (7936, 7943, 1, 7944),
    (7952, 7957, 1, 7960), (7968, 7975, 1, 7976), (7984, 7991, 1, 7992), (8000, 8005, 1, 8008),
    (8017, 8023, 2, 8025), (8032, 8039, 1, 8040), (8048, 8049, 1, 8122), (8050, 8053, 1, 8136),
    (8054, 8055, 1, 8154), (8056, 8057, 1, 8184), (8058, 8059, 1, 8170), (8060, 8061, 1, 8186),
    (8112, 8113, 1, 8120), (8126, 8126, 1, 921), (8144, 8145, 1, 8152), (8160, 8161, 1, 8168),
    (8165, 8165, 1, 8172), (8526, 8526, 1, 8498), (8560, 8575, 1, 8544), (8580, 8580, 1, 8579),
    (9424, 9449, 1, 9398), (11312, 11359, 1, 11264), (11361, 11361, 1, 11360),
    (11365, 11365, 1, 570), (11366, 11366, 1, 574), (11368, 11372, 2, 11367),
    (11379, 11379, 1, 11378), (11382, 11382, 1, 11381), (11393, 11491, 2, 11392),
    (11500, 11502, 2, 11499), (11507, 11507, 1, 11506), (11520, 11557, 1, 4256),
    (11559, 11559, 1, 4295), (11565, 11565, 1, 4301), (42561, 42605, 2, 42560),
    (42625, 42651, 2, 42624), (42787, 42799, 2, 42786), (42803, 42863, 2, 42802),
    (42874, 42876, 2, 42873), (42879, 42887, 2, 42878), (42892, 42892, 1, 42891),
    (42897, 42899, 2, 42896), (42900, 42900, 1, 42948), (42903, 42921, 2, 42902),
    (42933, 42947, 2, 42932), (42952, 42954, 2, 42951), (42961, 42961, 1, 42960),
    (42967, 42969, 2, 42966), (42998, 42998, 1, 42997), (43859, 43859, 1, 42931),
    (43888, 43967, 1, 5024), (65345, 65370, 1, 65313), (66600, 66639, 1, 66560),
    (66776, 66811, 1, 66736), (66967, 67003, 2, 66928), (66968, 66976, 2, 66929),
    (66980, 66992, 2, 66941), (66996, 67000, 2, 66957), (67004, 67004, 1, 66965),
    (68800, 68850, 1, 68736), (71872, 71903, 1, 71840), (93792, 93823, 1, 93760),
    (125218, 125251, 1, 125184)]

/-- The code points whose upper-case mapping has more than one code point, with
that mapping. -/
def upperSpecial : List (Nat × List Nat) :=
  [
    (223, [83, 83]), (329, [700, 78]), (496, [74, 780]), (912, [921, 776, 769]),
    (944, [933, 776, 769]), (1415, [1333, 1362]), (7830, [72, 817]), (7831, [84, 776]),
    (7832, [87, 778]), (7833, [89, 778]), (7834, [65, 702]), (8016, [933, 787]),
    (8018, [933, 787, 768]), (8020, [933, 787, 769]), (8022, [933, 787, 834]),
    (8064, [7944, 921]), (8065, [7945, 921]), (8066, [7946, 921]), (8067, [7947, 921]),
    (8068, [7948, 921]), (8069, [7949, 921]), (8070, [7950, 921]), (8071, [7951, 921]),
    (8072, [7944, 921]), (8073, [7945, 921]), (8074, [7946, 921]), (8075, [7947, 921]),
    (8076, [7948, 921]), (8077, [7949, 921]), (8078, [7950, 921]), (8079, [7951, 921]),
    (8080, [7976, 921]), (8081, [7977, 921]), (8082, [7978, 921]), (8083, [7979, 921]),
    (8084, [7980, 921]), (8085, [7981, 921]), (8086, [7982, 921]), (8087, [7983, 921]),
    (8088, [7976, 921]), (8089, [7977, 921]), (8090, [7978, 921]), (8091, [7979, 921]),
    (8092, [7980, 921]), (8093, [7981, 921]), (8094, [7982, 921]), (8095, [7983, 921]),
    (8096, [8040, 921]), (8097, [8041, 921]), (8098, [8042, 921]), (8099, [8043, 921]),
    (8100, [8044, 921]), (8101, [8045, 921]), (8102, [8046, 921]), (8103, [8047, 921]),
    (8104, [8040, 921]), (8105, [8041, 921]), (8106, [8042, 921]), (8107, [8043, 921]),
    (8108, [8044, 921]), (8109, [8045, 921]), (8110, [8046, 921]), (8111, [8047, 921]),
    (8114, [8122, 921]), (8115, [913, 921]), (8116, [902, 921]), (8118, [913, 834]),
    (8119, [913, 834, 921]), (8124, [913, 921]), (8130, [8138, 921]), (8131, [919, 921]),
    (8132, [905, 921]), (8134, [919, 834]), (8135, [919, 834, 921]), (8140, [919, 921]),
    (8146, [921, 776, 768]), (8147, [921, 776, 769]), (8150, [921, 834]),
    (8151, [921, 776, 834]), (8162, [933, 776, 768]), (8163, [933, 776, 769]),
    (8164, [929, 787]), (8166, [933, 834]), (8167, [933, 776, 834]), (8178, [8186, 921]),
    (8179, [937, 921]), (8180, [911, 921]), (8182, [937, 834]), (8183, [937, 834, 921]),
    (8188, [937, 921]), (64256, [70, 70]), (64257, [70, 73]), (64258, [70, 76]),
    (64259, [70, 70, 73]), (64260, [70, 70, 76]), (64261, [83, 84]), (64262, [83, 84]),
    (64275, [1348, 1350]), (64276, [1348, 1333]), (64277, [1348, 1339]), (64278, [1358, 1350]),
    (64279, [1348, 1341])]

/-- The code points with the property `Case_Ignorable`. -/
def caseIgnorableRanges : List (Nat × Nat) :=
  [
    (39, 39), (46, 46), (58, 58), (94, 94), (96, 96), (168, 168), (173, 173), (175, 175),
    (180, 180), (183, 184), (688, 879), (884, 885), (890, 890), (900, 901), (903, 903),
    (1155, 1161), (1369, 1369), (1375, 1375), (1425, 1469), (1471, 1471), (1473, 1474),
    (1476, 1477), (1479, 1479), (1524, 1524), (1536, 1541), (1552, 1562), (1564, 1564),
    (1600, 1600), (1611, 1631), (1648, 1648), (1750, 1757), (1759, 1768), (1770, 1773),
    (1807, 1807), (1809, 1809), (1840, 1866), (1958, 1968), (2027, 2037), (2042, 2042),
    (2045, 2045), (2070, 2093), (2137, 2139), (2184, 2184), (2192, 2193), (2200, 2207),
    (2249, 2306), (2362, 2362), (2364, 2364), (2369, 2376), (2381, 2381), (2385, 2391),
    (2402, 2403), (2417, 2417), (2433, 2433), (2492, 2492), (2497, 2500), (2509, 2509),
    (2530, 2531), (2558, 2558), (2561, 2562), (2620, 2620), (2625, 2626), (2631, 2632),
    (2635, 2637), (2641, 2641), (2672, 2673), (2677, 2677), (2689, 2690), (2748, 2748),
    (2753, 2757), (2759, 2760), (2765, 2765), (2786, 2787), (2810, 2815), (2817, 2817),
    (2876, 2876), (2879, 2879), (2881, 2884), (2893, 2893), (2901, 2902), (2914, 2915),
    (2946, 2946), (3008, 3008), (3021, 3021), (3072, 3072), (3076, 3076), (3132, 3132),
    (3134, 3136), (3142, 3144), (3146, 3149), (3157, 3158), (3170, 3171), (3201, 3201),
    (3260, 3260), (3263, 3263), (3270, 3270), (3276, 3277), (3298, 3299), (3328, 3329),
    (3387, 3388), (3393, 3396), (3405, 3405), (3426, 3427), (3457, 3457), (3530, 3530),
    (3538, 3540), (3542, 3542), (3633, 3633), (3636, 3642), (3654, 3662), (3761, 3761),
    (3764, 3772), (3782, 3782), (3784, 3789), (3864, 3865), (3893, 3893), (3895, 3895),
    (3897, 3897), (3953, 3966), (3968, 3972), (3974, 3975), (3981, 3991), (3993, 4028),
    (4038, 4038), (4141, 4144), (4146, 4151), (4153, 4154), (4157, 4158), (4184, 4185),
    (4190, 4192), (4209, 4212), (4226, 4226), (4229, 4230), (4237, 4237), (4253, 4253),
    (4348, 4348), (4957, 4959), (5906, 5908), (5938, 5939), (5970, 5971), (6002, 6003),
    (6068, 6069), (6071, 6077), (6086, 6086), (6089, 6099), (6103, 6103), (6109, 6109),
    (6155, 6159), (6211, 6211), (6277, 6278), (6313, 6313), (6432, 6434), (6439, 6440),
    (6450, 6450), (6457, 6459), (6679, 6680), (6683, 6683), (6742, 6742), (6744, 6750),
    (6752, 6752), (6754, 6754), (6757, 6764), (6771, 6780), (6783, 6783), (6823, 6823),
    (6832, 6862), (6912, 6915), (6964, 6964), (6966, 6970), (6972, 6972), (6978, 6978),
    (7019, 7027), (7040, 7041), (7074, 7077), (7080, 7081), (7083, 7085), (7142, 7142),
    (7144, 7145), (7149, 7149), (7151, 7153), (7212, 7219), (7222, 7223), (7288, 7293),
    (7376, 7378), (7380, 7392), (7394, 7400), (7405, 7405), (7412, 7412), (7416, 7417),
    (7468, 7530), (7544, 7544), (7579, 7679), (8125, 8125), (8127, 8129), (8141, 8143),
    (8157, 8159), (8173, 8175), (8189, 8190), (8203, 8207), (8216, 8217), (8228, 8228),
    (8231, 8231), (8234, 8238), (8288, 8292), (8294, 8303), (8305, 8305), (8319, 8319),
    (8336, 8348), (8400, 8432), (11388, 11389), (11503, 11505), (11631, 11631), (11647, 11647),
    (11744, 11775), (11823, 11823), (12293, 12293), (12330, 12333), (12337, 12341),
    (12347, 12347), (12441, 12446), (12540, 12542), (40981, 40981), (42232, 42237),
    (42508, 42508), (42607, 42610), (42612, 42621), (42623, 42623), (42652, 42655),
    (42736, 42737), (42752, 42785), (42864, 42864), (42888, 42890), (42994, 42996),
    (43000, 43001), (43010, 43010), (43014, 43014), (43019, 43019), (43045, 43046),
    (43052, 43052), (43204, 43205), (43232, 43249), (43263, 43263), (43302, 43309),
    (43335, 43345), (43392, 43394), (43443, 43443), (43446, 43449), (43452, 43453),
    (43471, 43471), (43493, 43494), (43561, 43566), (43569, 43570), (43573, 43574),
    (43587, 43587), (43596, 43596), (43632, 43632), (43644, 43644), (43696, 43696),
    (43698, 43700), (43703, 43704), (43710, 43711), (43713, 43713), (43741, 43741),
    (43756, 43757), (43763, 43764), (43766, 43766), (43867, 43871), (43881, 43883),
    (44005, 44005), (44008, 44008), (44013, 44013), (64286, 64286), (64434, 64450),
    (65024, 65039), (65043, 65043), (65056, 65071), (65106, 65106), (65109, 65109),
    (65279, 65279), (65287, 65287), (65294, 65294), (65306, 65306), (65342, 65342),
    (65344, 65344), (65392, 65392), (65438, 65439), (65507, 65507), (65529, 65531),
    (66045, 66045), (66272, 66272), (66422, 66426), (67456, 67461), (67463, 67504),
    (67506, 67514), (68097, 68099), (68101, 68102), (68108, 68111), (68152, 68154),
    (68159, 68159), (68325, 68326), (68900, 68903), (69291, 69292), (69446, 69456),
    (69506, 69509), (69633, 69633), (69688, 69702), (69744, 69744), (69747, 69748),
    (69759, 69761), (69811, 69814), (69817, 69818), (69821, 69821), (69826, 69826),
    (69837, 69837), (69888, 69890), (69927, 69931), (69933, 69940), (70003, 70003),
    (70016, 70017), (70070, 70078), (70089, 70092), (70095, 70095), (70191, 70193),
    (70196, 70196), (70198, 70199), (70206, 70206), (70367, 70367), (70371, 70378),
    (70400, 70401), (70459, 70460), (70464, 70464), (70502, 70508), (70512, 70516),
    (70712, 70719), (70722, 70724), (70726, 70726), (70750, 70750), (70835, 70840),
    (70842, 70842), (70847, 70848), (70850, 70851), (71090, 71093), (71100, 71101),
    (71103, 71104), (71132, 71133), (71219, 71226), (71229, 71229), (71231, 71232),
    (71339, 71339), (71341, 71341), (71344, 71349), (71351, 71351), (71453, 71455),
    (71458, 71461), (71463, 71467), (71727, 71735), (71737, 71738), (71995, 71996),
    (71998, 71998), (72003, 72003), (72148, 72151), (72154, 72155), (72160, 72160),
    (72193, 72202), (72243, 72248), (72251, 72254), (72263, 72263), (72273, 72278),
    (72281, 72283), (72330, 72342), (72344, 72345), (72752, 72758), (72760, 72765),
    (72767, 72767), (72850, 72871), (72874, 72880), (72882, 72883), (72885, 72886),
    (73009, 73014), (73018, 73018), (73020, 73021), (73023, 73029), (73031, 73031),
    (73104, 73105), (73109, 73109), (73111, 73111), (73459, 73460), (78896, 78904),
    (92912, 92916), (92976, 92982), (92992, 92995), (94031, 94031), (94095, 94111),
    (94176, 94177), (94179, 94180), (110576, 110579), (110581, 110587), (110589, 110590),
    (113821, 113822), (113824, 113827), (118528, 118573), (118576, 118598), (119143, 119145),
    (119155, 119170), (119173, 119179), (119210, 119213), (119362, 119364), (121344, 121398),
    (121403, 121452), (121461, 121461), (121476, 121476), (121499, 121503), (121505, 121519),
    (122880, 122886), (122888, 122904), (122907, 122913), (122915, 122916), (122918, 122922),
    (123184, 123197), (123566, 123566), (123628, 123631), (125136, 125142), (125252, 125259),
    (127995, 127999), (917505, 917505), (917536, 917631), (917760, 917999)]

/-- The code points with the property `Cased` and without the property
`Case_Ignorable`. -/
def casedRanges : List (Nat × Nat) :=
  [
    (65, 90), (97, 122), (170, 170), (181, 181), (186, 186), (192, 214), (216, 246), (248, 442),
    (444, 447), (452, 659), (661, 687), (880, 883), (886, 887), (891, 893), (895, 895),
    (902, 902), (904, 906), (908, 908), (910, 929), (931, 1013), (1015, 1153), (1162, 1327),
    (1329, 1366), (1376, 1416), (4256, 4293), (4295, 4295), (4301, 4301), (4304, 4346),
    (4349, 4351), (5024, 5109), (5112, 5117), (7296, 7304), (7312, 7354), (7357, 7359),
    (7424, 7467), (7531, 7543), (7545, 7578), (7680, 7957), (7960, 7965), (7968, 8005),
    (8008, 8013), (8016, 8023), (8025, 8025), (8027, 8027), (8029, 8029), (8031, 8061),
    (8064, 8116), (8118, 8124), (8126, 8126), (8130, 8132), (8134, 8140), (8144, 8147),
    (8150, 8155), (8160, 8172), (8178, 8180), (8182, 8188), (8450, 8450), (8455, 8455),
    (8458, 8467), (8469, 8469), (8473, 8477), (8484, 8484), (8486, 8486), (8488, 8488),
    (8490, 8493), (8495, 8500), (8505, 8505), (8508, 8511), (8517, 8521), (8526, 8526),
    (8544, 8575), (8579, 8580), (9398, 9449), (11264, 11387), (11390, 11492), (11499, 11502),
    (11506, 11507), (11520, 11557), (11559, 11559), (11565, 11565), (42560, 42605),
    (42624, 42651), (42786, 42863), (42865, 42887), (42891, 42894), (42896, 42954),
    (42960, 42961), (42963, 42963), (42965, 42969), (42997, 42998), (43002, 43002),
    (43824, 43866), (43872, 43880), (43888, 43967), (64256, 64262), (64275, 64279),
    (65313, 65338), (65345, 65370), (66560, 66639), (66736, 66771), (66776, 66811),
    (66928, 66938), (66940, 66954), (66956, 66962), (66964, 66965), (66967, 66977),
    (66979, 66993), (66995, 67001), (67003, 67004), (68736, 68786), (68800, 68850),
    (71840, 71903), (93760, 93823), (119808, 119892), (119894, 119964), (119966, 119967),
    (119970, 119970), (119973, 119974), (119977, 119980), (119982, 119993), (119995, 119995),
    (119997, 120003), (120005, 120069), (120071, 120074), (120077, 120084), (120086, 120092),
    (120094, 120121), (120123, 120126), (120128, 120132), (120134, 120134), (120138, 120144),
    (120146, 120485), (120488, 120512), (120514, 120538), (120540, 120570), (120572, 120596),
    (120598, 120628), (120630, 120654), (120656, 120686), (120688, 120712), (120714, 120744),
    (120746, 120770), (120772, 120779), (122624, 122633), (122635, 122654), (125184, 125251),
    (127280, 127305), (127312, 127337), (127344, 127369)]

/-- Whether a character is skipped when the letters around a sigma are looked for. -/
def isCaseIgnorable (c : Char) : Bool := inRanges caseIgnorableRanges c.toNat

/-- Whether a character that is not skipped is a cased letter. -/
def isCasedLetter (c : Char) : Bool := inRanges casedRanges c.toNat

/-- Whether the first character of `s` that is not case-ignorable exists and is a
cased letter. -/
def startsWithCased : JSString → Bool
  | [] => false
  | c :: cs => if isCaseIgnorable c then startsWithCased cs else isCasedLetter c

/-- The lower-case mapping of the character `c` standing between the characters
`before` (nearest first) and `after`.  The capital sigma becomes the final sigma when
a cased letter stands before it and none after it (`Final_Sigma`); the capital I
with a dot above becomes `i` and a combining dot. -/
def lowerAt (before : JSString) (c : Char) (after : JSString) : JSString :=
  if c.toNat < 128 then [lowerChar c]
  else if c.toNat = 931 then
    if startsWithCased before && !startsWithCased after then [Char.ofNat 962]
    else [Char.ofNat 963]
  else if c.toNat = 304 then [Char.ofNat 105, Char.ofNat 775]
  else [Char.ofNat ((lookupRun lowerRuns c.toNat).getD c.toNat)]

/-- Worker of `toLowerCase`: `before` holds the characters already passed, nearest
first. -/
def toLowerCaseFrom : JSString → JSString → JSString
  | _, [] => []
  | before, c :: after => lowerAt before c after ++ toLowerCaseFrom (c :: before) after

/-- `s.toLowerCase()`. -/
def toLowerCase (s : JSString) : JSString := toLowerCaseFrom [] s

/-- The upper-case mapping of one character. -/
def upperAt (c : Char) : JSString :=
  if c.toNat < 128 then [upperChar c]
  else
    match upperSpecial.lookup c.toNat with
    | some image => image.map Char.ofNat
    | none => [Char.ofNat ((lookupRun upperRuns c.toNat).getD c.toNat)]

/-- `s.toUpperCase()`. -/
def toUpperCase (s : JSString) : JSString := s.flatMap upperAt

/-- `s.charAt(0).toUpperCase() + s.slice(1)`.  `charAt(0)` is one UTF-16 code unit:
of a first character outside the basic plane it is a lone surrogate, which
`toUpperCase` leaves alone, so such a string is unchanged. -/
def upperCaseFirstUnit : JSString → JSString
  | [] => []
  | c :: rest => (if c.toNat < 65536 then toUpperCase [c] else [c]) ++ rest

/-! ## Trimming, splitting and replacing -/

/-- `s.trim()`. -/
def trim (s : JSString) : JSString :=
  ((s.dropWhile isWhiteSpace).reverse.dropWhile isWhiteSpace).reverse

/-- Worker of `splitWhitespace`: `cur` is the current piece (reversed), `inSep`
tells whether the previous character belonged to a separator match. -/
def splitWhitespaceAux : JSString → Bool → JSString → List JSString
  | cur, _, [] => [cur.reverse]
  | cur, inSep, c :: cs =>
    if isWhiteSpace c then
      if inSep then splitWhitespaceAux [] true cs
      else cur.reverse :: splitWhitespaceAux [] true cs
    else splitWhitespaceAux (c :: cur) false cs

/-- `s.split(/\s+/)`: the pieces of `s` between maximal runs of white space.  The
empty string gives one empty piece; leading or trailing white space gives an
empty first or last piece. -/
def splitWhitespace (s : JSString) : List JSString := splitWhitespaceAux [] false s

/-- Worker of `replaceNonWordRuns`; `inRun` tells whether the previous character
was already part of the run being replaced. -/
def replaceNonWordRunsAux : Bool → JSString → JSString
  | _, [] => []
  | inRun, c :: cs =>
    if isWordChar c then c :: replaceNonWordRunsAux false cs
    else if inRun then replaceNonWordRunsAux true cs
    else ' ' :: replaceNonWordRunsAux true cs

/-- `s.replace(/[^a-zA-Z0-9_]+/g, ' ')`. -/
def replaceNonWordRuns (s : JSString) : JSString := replaceNonWordRunsAux false s

/-- `s.replace(/[^a-zA-Z0-9_]/g, '')`. -/
def stripNonWord (s : JSString) : JSString := s.filter isWordChar

/-- `/^[A-Za-z_]/.test(s)`. -/
def startsWithIdentStart : JSString → Bool
  | [] => false
  | c :: _ => isIdentStart c

/-- The single quote character. -/
def quoteChar : Char := Char.ofNat 39

/-- The double quote character. -/
def dquoteChar : Char := Char.ofNat 34

/-- The backslash character. -/
def backslashChar : Char := Char.ofNat 92

/-- `s.replace(/'/g, "\\'")`: a backslash is put before every single quote. -/
def escapeSingleQuotes (s : JSString) : JSString :=
  s.flatMap fun c => if c = quoteChar then [backslashChar, quoteChar] else [c]

/-- `xs.join(sep)`. -/
def join (sep : JSString) (xs : List JSString) : JSString := sep.intercalate xs

/-- Truthiness of a string-or-null value. -/
def truthy : Option JSString → Bool
  | none => false
  | some [] => false
  | some (_ :: _) => true

/-- The value of `a || b` on string-or-null values. -/
def orElse (a b : Option JSString) : Option JSString := if truthy a then a else b

/-! ## `toFieldName` -/

/-- The semantic prefix chosen from the lower-cased tag name. -/
def tagPrefix (tagName : JSString) : JSString :=
  if tagName = "button".toList then "btn ".toList
  else if tagName = "input".toList then "input ".toList
  else if tagName = "select".toList then "ddl ".toList
  else if tagName = "textarea".toList then "txt ".toList
  else if tagName = "a".toList then "lnk ".toList
  else []

/-- One step of the `parts.forEach` callback: `result` after the part `p` at
position `index`. -/
def appendPart (result : JSString) (p : JSString) (index : Nat) : JSString :=
  if p.isEmpty then result
  else
    let p := toLowerCase p
    if index = 0 then result ++ p
    else result ++ upperCaseFirstUnit p

/-- The `parts.forEach` loop, started at position `index` with accumulator `result`. -/
def camelJoinFrom : JSString → Nat → List JSString → JSString
  | result, _, [] => result
  | result, index, p :: ps => camelJoinFrom (appendPart result p index) (index + 1) ps

/-- The function `toFieldName(base, tagName)`; an absent argument is `none`. -/
def toFieldName (base : Option JSString) (tagName : Option JSString) : JSString :=
  let tagName := toLowerCase ((orElse tagName (some "element".toList)).getD [])
  let base : JSString :=
    if !truthy base || !truthy (base.map trim) then tagName ++ "_element".toList
    else base.getD []
  let base := tagPrefix tagName ++ base
  let cleaned := replaceNonWordRuns base
  let parts := splitWhitespace (trim cleaned)
  let parts := if parts.length = 0 then [tagName, "element".toList] else parts
  let result := camelJoinFrom [] 0 parts
  let result :=
    if !result.isEmpty && !startsWithIdentStart result then tagName ++ "_".toList ++ result
    else result
  let result := stripNonWord result
  if result.isEmpty then tagName ++ "Element".toList else result

/-- The pattern `^[A-Za-z_][A-Za-z0-9_]*$`. -/
def isIdentifier : JSString → Bool
  | [] => false
  | c :: cs => isIdentStart c && cs.all isWordChar

/-! ## The document tree -/

/-- Own data of an element node, as read by the source through DOM properties. -/
structure ElementData where
  /-- The property `el.tagName`. -/
  tagName : JSString
  /-- The attribute list: pairs of name and value. -/
  attributes : List (JSString × JSString)
  /-- The property `el.disabled`. -/
  disabled : Bool
  /-- The property `el.isContentEditable`. -/
  isContentEditable : Bool
  /-- The width of `el.getBoundingClientRect()`. -/
  rectWidth : ℚ
  /-- The height of `el.getBoundingClientRect()`. -/
  rectHeight : ℚ
  /-- The property `el.innerText` (absent on elements that are not HTML elements). -/
  innerText : Option JSString
  /-- The property `el.textContent`. -/
  textContent : Option JSString
  /-- Whether the element is `document.body`. -/
  isBody : Bool
  /-- Whether the element is `document.documentElement`. -/
  isDocumentElement : Bool
  /-- When reading the property `el.id` does not give the reflected attribute but an
  object, the conversion of that object to a string.  This happens on a `form`
  element owning a control whose name or id is `id`: the control (or the list of
  such controls) shadows the property. -/
  idObject : Option JSString
  /-- When reading the property `el.className` gives an object instead of a string,
  the conversion of that object to a string.  This happens on every SVG element
  (the property is an `SVGAnimatedString`) and on a `form` element owning a control
  whose name or id is `className`. -/
  classNameObject : Option JSString
deriving DecidableEq

/-- One step up the tree: the parent element and its element children around
the child on the path, both in document order. -/
structure Level where
  /-- The parent element. -/
  parent : ElementData
  /-- The element children of `parent` before the child. -/
  before : List ElementData
  /-- The element children of `parent` after the child. -/
  after : List ElementData
deriving DecidableEq

/-- An element node together with its position in the tree: `ancestors` lists the
levels above it, nearest first.  An element without `parentElement` has no level
and no element sibling (the root element of a document, or of a detached tree). -/
structure Element where
  /-- The element itself. -/
  self : ElementData
  /-- The levels above the element, nearest first. -/
  ancestors : List Level
deriving DecidableEq

/-- The kinds of node other than element nodes. -/
inductive OtherKind where
  | attribute | text | cdataSection | processingInstruction
  | comment | document | documentType | documentFragment
deriving DecidableEq

/-- A DOM node. -/
inductive Node where
  | element (e : Element)
  | other (k : OtherKind)
deriving DecidableEq

/-- The property `nodeType`. -/
def Node.nodeType : Node → Nat
  | .element _ => 1
  | .other .attribute => 2
  | .other .text => 3
  | .other .cdataSection => 4
  | .other .processingInstruction => 7
  | .other .comment => 8
  | .other .document => 9
  | .other .documentType => 10
  | .other .documentFragment => 11

/-- `el.getAttribute(name)`: the value of the first attribute of that name. -/
def ElementData.getAttribute (d : ElementData) (name : JSString) : Option JSString :=
  (d.attributes.find? fun a => a.1 = name).map Prod.snd

/-- `el.hasAttribute(name)`. -/
def ElementData.hasAttribute (d : ElementData) (name : JSString) : Bool :=
  (d.getAttribute name).isSome

/-- The value of a property that the source uses as a string: a string, or an
object given by its conversion to a string. -/
inductive PropertyValue where
  | string (s : JSString)
  | object (text : JSString)
deriving DecidableEq

/-- Truthiness of a property value: an object is truthy, a string is truthy when
it is not empty. -/
def PropertyValue.truthy : PropertyValue → Bool
  | .string s => !s.isEmpty
  | .object _ => true

/-- The conversion of a property value to a string, as in a template literal. -/
def PropertyValue.toText : PropertyValue → JSString
  | .string s => s
  | .object text => text

/-- The property `el.id`: the object that shadows it if there is one, otherwise
the value of the `id` attribute or the empty string. -/
def ElementData.id (d : ElementData) : PropertyValue :=
  match d.idObject with
  | some text => .object text
  | none => .string ((d.getAttribute "id".toList).getD [])

/-- The property `el.className`: an object on SVG elements and shadowed forms,
otherwise the value of the `class` attribute or the empty string. -/
def ElementData.className (d : ElementData) : PropertyValue :=
  match d.classNameObject with
  | some text => .object text
  | none => .string ((d.getAttribute "class".toList).getD [])

/-- `el.parentElement`. -/
def Element.parentElement (e : Element) : Option Element :=
  match e.ancestors with
  | [] => none
  | l :: ls => some ⟨l.parent, ls⟩

/-- Identity of two elements of one ancestor chain: they are the same node exactly
when they sit at the same depth. -/
def Element.sameNode (a b : Element) : Bool := a.ancestors.length == b.ancestors.length

/-- Worker of `closest`: the search started at `cur` with the levels `ancs` above it. -/
def closestWithIdFrom : ElementData → List Level → Option Element
  | cur, [] => if cur.hasAttribute "id".toList then some ⟨cur, []⟩ else none
  | cur, l :: ls =>
    if cur.hasAttribute "id".toList then some ⟨cur, l :: ls⟩ else closestWithIdFrom l.parent ls

/-- `el.closest('[id]')`: the nearest of the element and its ancestors that has an
`id` attribute. -/
def Element.closestWithId (e : Element) : Option Element := closestWithIdFrom e.self e.ancestors

/-- Decimal rendering of a number in a template literal. -/
def numberToString (n : Nat) : JSString := (Nat.toDigits 10 n)

/-! ## `isInteractable` -/

/-- The function `isInteractable(el)`; `none` is a null argument. -/
def isInteractable (el : Option Node) : Bool :=
  match el with
  | none => false
  | some (.other _) => false
  | some (.element e) =>
    let tag := toLowerCase e.self.tagName
    if ["input".toList, "button".toList, "select".toList, "textarea".toList].contains tag then
      if e.self.disabled then false else true
    else if tag = "a".toList && e.self.hasAttribute "href".toList then true
    else
      let role := e.self.getAttribute "role".toList
      if role = some "button".toList || role = some "link".toList then true
      else if e.self.isContentEditable then true
      else if e.self.hasAttribute "tabindex".toList then true
      else if e.self.rectWidth = 0 && e.self.rectHeight = 0 then false
      else false

/-! ## `buildRelativeXPath` -/

/-- The inner `while (sibling)` loop: starting from `index`, walk the preceding
siblings from the nearest one backwards and count those with the tag name of
`cur`. -/
def countSameTagBackwards (cur : ElementData) : List ElementData → Nat → Nat
  | [], index => index
  | sibling :: rest, index =>
    countSameTagBackwards cur rest (if sibling.tagName = cur.tagName then index + 1 else index)

/-- The 1-based index computed for `cur` whose preceding element siblings are
`before` (document order). -/
def siblingIndex (cur : ElementData) (before : List ElementData) : Nat :=
  countSameTagBackwards cur before.reverse 1

/-- The segment `tag[index]` of one element. -/
def xpathSegment (cur : ElementData) (before : List ElementData) : JSString :=
  toLowerCase cur.tagName ++ "[".toList ++ numberToString (siblingIndex cur before) ++ "]".toList

/-- The outer `while` loops of `buildRelativeXPath`: from `cur` upwards, stop as
soon as `stop` holds of the current element or there is no element left, and
`unshift` one segment per element visited. -/
def xpathParts (stop : Element → Bool) : ElementData → List Level → List JSString → List JSString
  | cur, [], parts => if stop ⟨cur, []⟩ then parts else xpathSegment cur [] :: parts
  | cur, l :: ls, parts =>
    if stop ⟨cur, l :: ls⟩ then parts
    else xpathParts stop l.parent ls (xpathSegment cur l.before :: parts)

/-- `value.replace(/'/g, "\\'")` on a property value: the escaped string, or
`none` when the call raises a `TypeError` because the value is an object without a
method `replace`. -/
def PropertyValue.escapeSingleQuotes : PropertyValue → Option JSString
  | .string s => some (LocatorGen.escapeSingleQuotes s)
  | .object _ => none

/-- The body of `buildRelativeXPath` for an element node; the result `none` is a
raised `TypeError`. -/
def elementXPath (el : Element) : Option JSString :=
  if el.self.id.truthy then
    match el.self.id.escapeSingleQuotes with
    | none => none
    | some escaped => some (".//*[@id='".toList ++ escaped ++ "']".toList)
  else
    match el.closestWithId with
    | some ancestorWithId =>
      match ancestorWithId.self.id.escapeSingleQuotes with
      | none => none
      | some containerId =>
        let parts :=
          xpathParts (fun current => current.sameNode ancestorWithId) el.self el.ancestors []
        if parts.length = 0 then some (".//*[@id='".toList ++ containerId ++ "']".toList)
        else some (".//*[@id='".toList ++ containerId ++ "']//".toList ++ join "/".toList parts)
    | none =>
      let parts := xpathParts (fun current => current.self.isBody || current.self.isDocumentElement)
        el.self el.ancestors []
      some ("//".toList ++ join "/".toList parts)

/-- The function `buildRelativeXPath(el)`; the result `none` is a raised
`TypeError`. -/
def buildRelativeXPath (el : Option Node) : Option JSString :=
  match el with
  | none => some []
  | some (.other _) => some []
  | some (.element e) => elementXPath e

/-! ## `buildCssFallback` -/

/-- The result of `siblings.indexOf(current)` where `siblings` are the children of
the parent with the tag name of `cur`: children are told apart by their place in
the child list, the flag marks the place of `cur`. -/
def sameTagIndex (cur : ElementData) (l : Level) : Option Nat :=
  let children : List (ElementData × Bool) :=
    l.before.map (fun c => (c, false)) ++ [(cur, true)] ++ l.after.map (fun c => (c, false))
  let siblings := children.filter fun c => c.1.tagName = cur.tagName
  siblings.findIdx? fun c => c.2

/-- The `while` loop of `buildCssFallback` from the element `cur`. -/
def cssFallbackLoop : ElementData → List Level → JSString → JSString
  | _, [], path => path
  | cur, l :: ls, path =>
    if cur.isBody || cur.isDocumentElement then path
    else
      let nth : JSString := match sameTagIndex cur l with
        | some index => ":nth-of-type(".toList ++ numberToString (index + 1) ++ ")".toList
        | none => []
      let path := toLowerCase cur.tagName ++ nth ++ " > ".toList ++ path
      if l.parent.id.truthy then "#".toList ++ l.parent.id.toText ++ " > ".toList ++ path
      else cssFallbackLoop l.parent ls path

/-- The function `buildCssFallback(el)`; the result `none` is `null`. -/
def buildCssFallback (el : Option Node) : Option JSString :=
  match el with
  | none => none
  | some (.other _) => none
  | some (.element e) => some (cssFallbackLoop e.self e.ancestors (toLowerCase e.self.tagName))

/-! ## `buildLocatorInfo` -/

/-- The record returned by `buildLocatorInfo`. -/
structure LocatorInfo where
  /-- The synthesized field name. -/
  name : JSString
  /-- The name of the strategy. -/
  strategy : JSString
  /-- The value of the locator. -/
  locatorValue : JSString
  /-- The lower-cased tag name. -/
  tagName : JSString
  /-- The relative XPath. -/
  xpath : JSString
deriving DecidableEq

/-- The constant `tagName` of `buildLocatorInfo`. -/
def elementTag (d : ElementData) : JSString :=
  if !d.tagName.isEmpty then toLowerCase d.tagName else "element".toList

/-- The constant `dataTestId` of `buildLocatorInfo`. -/
def dataTestIdOf (d : ElementData) : Option JSString :=
  orElse (orElse (d.getAttribute "data-testid".toList) (d.getAttribute "data-test".toList))
    (d.getAttribute "data-qa".toList)

/-- The constant `classes` of `buildLocatorInfo`:
`classAttr.split(/\s+/).map(c => c.trim()).filter(Boolean)`. -/
def classesOf (classAttr : JSString) : List JSString :=
  ((splitWhitespace classAttr).map trim).filter fun c => !c.isEmpty

/-- The function `buildLocatorInfo(el)` on an element node (the source reads
`el.getAttribute` first, so it does not return on any other argument).  The result
`none` is a raised `TypeError`: `buildRelativeXPath` is called before the first
branch, and `classAttr.split` is called when the first four branches are passed. -/
def buildLocatorInfo (el : Element) : Option LocatorInfo :=
  let tagName := elementTag el.self
  let id := el.self.getAttribute "id".toList
  let nameAttr := el.self.getAttribute "name".toList
  let dataAutomation := el.self.getAttribute "data-automation".toList
  let dataTestId := dataTestIdOf el.self
  let classAttr := el.self.className
  match buildRelativeXPath (some (.element el)) with
  | none => none
  | some relativeXPath =>
    if truthy dataAutomation then
      some
        { name := toFieldName dataAutomation (some tagName)
          strategy := "DATA_AUTOMATION".toList
          locatorValue :=
            "[data-automation='".toList ++ escapeSingleQuotes (dataAutomation.getD []) ++
              "']".toList
          tagName := tagName
          xpath := relativeXPath }
    else if truthy dataTestId then
      some
        { name := toFieldName dataTestId (some tagName)
          strategy := "DATA_TESTID".toList
          locatorValue :=
            "[data-testid='".toList ++ escapeSingleQuotes (dataTestId.getD []) ++ "']".toList
          tagName := tagName
          xpath := relativeXPath }
    else if truthy id then
      some
        { name := toFieldName id (some tagName)
          strategy := "ID".toList
          locatorValue := id.getD []
          tagName := tagName
          xpath := relativeXPath }
    else if truthy nameAttr then
      some
        { name := toFieldName nameAttr (some tagName)
          strategy := "NAME".toList
          locatorValue := nameAttr.getD []
          tagName := tagName
          xpath := relativeXPath }
    else
      match classAttr with
      | .object _ => none
      | .string classAttr =>
        let classes := classesOf classAttr
        if classes.length > 0 then
          some
            { name := toFieldName (some (join "_".toList classes)) (some tagName)
              strategy := "CLASS_NAME".toList
              locatorValue := tagName ++ ".".toList ++ join ".".toList classes
              tagName := tagName
              xpath := relativeXPath }
        else
          let cssFallback := buildCssFallback (some (.element el))
          if truthy cssFallback then
            some
              { name := toFieldName (some (tagName ++ "_element".toList)) (some tagName)
                strategy := "CSS".toList
                locatorValue := cssFallback.getD []
                tagName := tagName
                xpath := relativeXPath }
          else
            some
              { name := toFieldName (some (tagName ++ "_element".toList)) (some tagName)
                strategy := "XPATH".toList
                locatorValue := relativeXPath
                tagName := tagName
                xpath := relativeXPath }

/-! ## Emitters -/

/-- `s.replace(/\\/g, '\\\\')`: every backslash is doubled. -/
def doubleBackslashes (s : JSString) : JSString :=
  s.flatMap fun c => if c = backslashChar then [backslashChar, backslashChar] else [c]

/-- `s.replace(/"/g, '\\"')`: a backslash is put before every double quote. -/
def escapeDoubleQuotes (s : JSString) : JSString :=
  s.flatMap fun c => if c = dquoteChar then [backslashChar, dquoteChar] else [c]

/-- `s.replace(/ /g, '\\ ')`: a backslash is put before every space. -/
def escapeSpaces (s : JSString) : JSString :=
  s.flatMap fun c => if c = ' ' then [backslashChar, ' '] else [c]

/-- The value escaped for a double-quoted literal:
`.replace(/\\/g, '\\\\').replace(/"/g, '\\"')`. -/
def escapeForLiteral (s : JSString) : JSString := escapeDoubleQuotes (doubleBackslashes s)

/-- The text `open("value")`: `value` between double quotes and parentheses. -/
def quotedCall (before value after : JSString) : JSString :=
  before ++ [dquoteChar] ++ value ++ [dquoteChar] ++ after

/-- The function `buildFindByAnnotation(info)`. -/
def buildFindByAnnotation (info : LocatorInfo) : JSString :=
  let value := escapeForLiteral info.locatorValue
  if info.strategy = "ID".toList then quotedCall "@FindBy(id = ".toList value ")".toList
  else if info.strategy = "NAME".toList then quotedCall "@FindBy(name = ".toList value ")".toList
  else if info.strategy = "DATA_AUTOMATION".toList || info.strategy = "DATA_TESTID".toList ||
      info.strategy = "CLASS_NAME".toList || info.strategy = "CSS".toList then
    quotedCall "@FindBy(css = ".toList value ")".toList
  else quotedCall "@FindBy(xpath = ".toList value ")".toList

/-- The first line of every Groovy snippet, with its line break. -/
def groovyHeader : JSString := "// Groovy (Selenide)".toList ++ [Char.ofNat 10]

/-- The function `toGroovy(info)`. -/
def toGroovy (info : LocatorInfo) : JSString :=
  let val := escapeForLiteral info.locatorValue
  if info.strategy = "ID".toList then groovyHeader ++ quotedCall "$(By.id(".toList val "))".toList
  else if info.strategy = "NAME".toList then
    groovyHeader ++ quotedCall "$(By.name(".toList val "))".toList
  else if info.strategy = "DATA_AUTOMATION".toList || info.strategy = "DATA_TESTID".toList ||
      info.strategy = "CLASS_NAME".toList || info.strategy = "CSS".toList then
    groovyHeader ++ quotedCall "$(By.cssSelector(".toList val "))".toList
  else groovyHeader ++ quotedCall "$(By.xpath(".toList val "))".toList

/-- The first line of every Playwright snippet, with its line break. -/
def playwrightHeader : JSString := "// Playwright (TS/JS)".toList ++ [Char.ofNat 10]

/-- The constant `selector` of `toPlaywright(info)`: the text put between the
double quotes. -/
def playwrightSelector (info : LocatorInfo) : JSString :=
  if info.strategy = "ID".toList then
    "#".toList ++ escapeSpaces (escapeDoubleQuotes info.locatorValue)
  else if info.strategy = "NAME".toList then
    "[name='".toList ++ escapeSingleQuotes info.locatorValue ++ "']".toList
  else if info.strategy = "DATA_AUTOMATION".toList || info.strategy = "DATA_TESTID".toList ||
      info.strategy = "CLASS_NAME".toList || info.strategy = "CSS".toList then
    escapeForLiteral info.locatorValue
  else escapeForLiteral ("xpath=".toList ++ info.locatorValue)

/-- The function `toPlaywright(info)`. -/
def toPlaywright (info : LocatorInfo) : JSString :=
  playwrightHeader ++ quotedCall "page.locator(".toList (playwrightSelector info) ");".toList

/-! ## The dedup loop of `generatePageObject` -/

/-- The dedup key of a locator: the template `strategy:locatorValue`. -/
def dedupKey (info : LocatorInfo) : JSString :=
  info.strategy ++ ":".toList ++ info.locatorValue

/-- The `Map` named `unique`: its entries in insertion order. -/
abbrev UniqueMap := List (JSString × LocatorInfo)

/-- `unique.has(key)`. -/
def UniqueMap.has (m : UniqueMap) (key : JSString) : Bool := m.any fun entry => entry.1 = key

/-- `unique.set(key, info)`: the value of an existing key is replaced in place, a
new key is added at the end. -/
def UniqueMap.set (m : UniqueMap) (key : JSString) (info : LocatorInfo) : UniqueMap :=
  if m.has key then m.map fun entry => if entry.1 = key then (key, info) else entry
  else m ++ [(key, info)]

/-- The body of the `for (const el of elements)` loop: when `buildLocatorInfo`
raises, the `catch` block ignores the element. -/
def dedupStep (unique : UniqueMap) (el : Element) : UniqueMap :=
  match buildLocatorInfo el with
  | none => unique
  | some info =>
    let key := dedupKey info
    if !unique.has key then unique.set key info else unique

/-- The constant `locatorInfos` of `generatePageObject`, from the elements `raw`
selected by `document.querySelectorAll`: filter with `isInteractable`, run the
loop over an empty map, take the values in insertion order. -/
def locatorInfos (raw : List Element) : List LocatorInfo :=
  let elements := raw.filter fun el => isInteractable (some (.element el))
  (elements.foldl dedupStep []).map Prod.snd

/-! ## Sample elements -/

/-- An enabled, visible HTML element with the given tag name (as reported by the
DOM, in upper case) and attributes. -/
def htmlElement (tagName : JSString) (attributes : List (JSString × JSString)) : ElementData :=
  { tagName := tagName, attributes := attributes, disabled := false, isContentEditable := false,
    rectWidth := 80, rectHeight := 20, innerText := some [], textContent := some [],
    isBody := false, isDocumentElement := false, idObject := none, classNameObject := none }

/-- The `html` element of a document. -/
def htmlRoot : ElementData := { htmlElement "HTML".toList [] with isDocumentElement := true }

/-- The `body` element of a document. -/
def bodyData : ElementData := { htmlElement "BODY".toList [] with isBody := true }

/-- An element placed as the only child of the `body` of a document. -/
def underBody (d : ElementData) : Element :=
  ⟨d, [⟨bodyData, [], []⟩, ⟨htmlRoot, [], []⟩]⟩

/-- Scenario A: `<button data-automation="submit-btn">`. -/
def scenarioA : Element :=
  underBody (htmlElement "BUTTON".toList [("data-automation".toList, "submit-btn".toList)])

/-- Scenario B: `<div class="primary-btn">`. -/
def scenarioB : Element :=
  underBody (htmlElement "DIV".toList [("class".toList, "primary-btn".toList)])

/-- Scenario C: `<input id="loginEmail">`. -/
def scenarioC : Element :=
  underBody (htmlElement "INPUT".toList [("id".toList, "loginEmail".toList)])

/-- A `div` whose class attribute is one space: `<div class=" ">`. -/
def blankClassDiv : Element :=
  underBody (htmlElement "DIV".toList [("class".toList, " ".toList)])

/-- A custom element `<my-widget data-automation="-">`. -/
def customWidget : Element :=
  underBody (htmlElement "MY-WIDGET".toList [("data-automation".toList, "-".toList)])

/-! ## The priority rule, as stated -/

/-- The first strategy of a list of candidates whose candidate is available. -/
def firstAvailable (candidates : List (JSString × Bool)) : Option JSString :=
  (candidates.find? fun c => c.2).map Prod.fst

/-- The candidates of the priority rule in the words of the specification: the
strategies in their fixed order, each with whether its candidate is non-empty,
the candidate of `CLASS_NAME` being the `class` attribute. -/
def statedCandidates (el : Element) : List (JSString × Bool) :=
  [("DATA_AUTOMATION".toList, truthy (el.self.getAttribute "data-automation".toList)),
   ("DATA_TESTID".toList, truthy (el.self.getAttribute "data-testid".toList) ||
      truthy (el.self.getAttribute "data-test".toList) ||
      truthy (el.self.getAttribute "data-qa".toList)),
   ("ID".toList, truthy (el.self.getAttribute "id".toList)),
   ("NAME".toList, truthy (el.self.getAttribute "name".toList)),
   ("CLASS_NAME".toList, truthy (el.self.getAttribute "class".toList)),
   ("CSS".toList, truthy (buildCssFallback (some (.element el)))),
   ("XPATH".toList, true)]

/-- The candidates of the priority rule with the candidate of `CLASS_NAME` read as
the class list: it is available when the `class` attribute has a character that
is not white space. -/
def classListCandidates (el : Element) : List (JSString × Bool) :=
  [("DATA_AUTOMATION".toList, truthy (el.self.getAttribute "data-automation".toList)),
   ("DATA_TESTID".toList, truthy (el.self.getAttribute "data-testid".toList) ||
      truthy (el.self.getAttribute "data-test".toList) ||
      truthy (el.self.getAttribute "data-qa".toList)),
   ("ID".toList, truthy (el.self.getAttribute "id".toList)),
   ("NAME".toList, truthy (el.self.getAttribute "name".toList)),
   ("CLASS_NAME".toList,
      ((el.self.getAttribute "class".toList).getD []).any fun c => !isWhiteSpace c),
   ("CSS".toList, truthy (buildCssFallback (some (.element el)))),
   ("XPATH".toList, true)]

/-- The place of a strategy in the fixed priority order. -/
def strategyRank (strategy : JSString) : Nat :=
  ["DATA_AUTOMATION".toList, "DATA_TESTID".toList, "ID".toList, "NAME".toList,
    "CLASS_NAME".toList, "CSS".toList, "XPATH".toList].indexOf strategy

/-! ## The dedup property, as stated -/

/-- The resolved elements of `generatePageObject`: the records of the interactable
elements whose resolution does not raise, in input order. -/
def resolvedInfos (raw : List Element) : List LocatorInfo :=
  (raw.filter fun el => isInteractable (some (.element el))).filterMap buildLocatorInfo

/-- The subsequence of first occurrences of each dedup key: the record at position
`i` is kept exactly when no record before position `i` has its key. -/
def firstOccurrences (infos : List LocatorInfo) : List LocatorInfo :=
  (infos.enum.filter fun p =>
    (infos.take p.1).all fun q => decide (dedupKey q ≠ dedupKey p.2)).map Prod.snd

/-! ## Double-quoted literals -/

/-- Whether a text can stand between double quotes as it is: every backslash
starts one of the pairs backslash-backslash and backslash-quote, and no double
quote stands outside such a pair. -/
def wellEscaped : JSString → Bool
  | [] => true
  | c :: rest =>
    if c = backslashChar then
      match rest with
      | [] => false
      | d :: rest' => (d == backslashChar || d == dquoteChar) && wellEscaped rest'
    else c != dquoteChar && wellEscaped rest

/-- An input whose name holds a double quote: `<input name='a"b'>`. -/
def quotedNameInput : Element :=
  underBody (htmlElement "INPUT".toList [("name".toList, ['a', dquoteChar, 'b'])])

/-- An element whose id holds a backslash: `<div id="a\b">`. -/
def backslashIdDiv : Element :=
  underBody (htmlElement "DIV".toList [("id".toList, ['a', backslashChar, 'b'])])

/-! ## `buildAllLocators` -/

/-- The number of UTF-16 code units of one character. -/
def codeUnits (c : Char) : Nat := if c.toNat < 65536 then 1 else 2

/-- The property `length` of a string: its number of UTF-16 code units. -/
def jsLength (s : JSString) : Nat := (s.map codeUnits).sum

/-- The record returned by `buildAllLocators`. -/
structure AllLocators where
  /-- The `data-automation` attribute. -/
  dataAutomation : Option JSString
  /-- The first non-empty test-id attribute. -/
  dataTestId : Option JSString
  /-- The `id` attribute. -/
  id : Option JSString
  /-- The `name` attribute. -/
  nameAttr : Option JSString
  /-- The class attribute. -/
  classAttr : JSString
  /-- The selector on `data-automation`. -/
  cssDataAutomation : Option JSString
  /-- The selector on `data-testid`. -/
  cssDataTestId : Option JSString
  /-- The selector `tag.class1.class2`. -/
  cssByClass : Option JSString
  /-- The result of `buildCssFallback`. -/
  cssGeneric : Option JSString
  /-- The trimmed text of the element. -/
  text : JSString
  /-- The text-based path. -/
  textXPath : Option JSString
  /-- The result of `buildRelativeXPath`. -/
  relativeXPath : JSString
deriving DecidableEq

/-- The constant `text`: `(el.innerText || el.textContent || '').trim()`. -/
def visibleText (d : ElementData) : JSString :=
  trim ((orElse (orElse d.innerText d.textContent) (some [])).getD [])

/-- The function `buildAllLocators(el)` on an element node.  The result `none` is a
raised `TypeError`, from `buildRelativeXPath` or from `classAttr.split`. -/
def buildAllLocators (el : Element) : Option AllLocators :=
  let tagName := elementTag el.self
  let id := el.self.getAttribute "id".toList
  let nameAttr := el.self.getAttribute "name".toList
  let dataAutomation := el.self.getAttribute "data-automation".toList
  let dataTestId := dataTestIdOf el.self
  let classAttr := el.self.className
  let text := visibleText el.self
  match buildRelativeXPath (some (.element el)) with
  | none => none
  | some relativeXPath =>
    let cssDataAutomation : Option JSString :=
      if truthy dataAutomation then
        some ("[data-automation=".toList ++ [dquoteChar] ++
          escapeDoubleQuotes (dataAutomation.getD []) ++ [dquoteChar] ++ "]".toList)
      else none
    let cssDataTestId : Option JSString :=
      if truthy dataTestId then
        some ("[data-testid=".toList ++ [dquoteChar] ++
          escapeDoubleQuotes (dataTestId.getD []) ++ [dquoteChar] ++ "]".toList)
      else none
    match classAttr with
    | .object _ => none
    | .string classAttr =>
      let classes := classesOf classAttr
      let cssByClass : Option JSString :=
        if classes.length > 0 then some (tagName ++ ".".toList ++ join ".".toList classes)
        else none
      let cssGeneric := buildCssFallback (some (.element el))
      let textXPath : Option JSString :=
        if !text.isEmpty && jsLength text ≤ 40 then
          some (".//".toList ++ tagName ++ "[normalize-space()='".toList ++
            escapeSingleQuotes text ++ "']".toList)
        else none
      some
        { dataAutomation := dataAutomation, dataTestId := dataTestId, id := id,
          nameAttr := nameAttr, classAttr := classAttr, cssDataAutomation := cssDataAutomation,
          cssDataTestId := cssDataTestId, cssByClass := cssByClass, cssGeneric := cssGeneric,
          text := text, textXPath := textXPath, relativeXPath := relativeXPath }

/-! ## The class text of `generatePageObject` -/

/-- The line break. -/
def newline : JSString := [Char.ofNat 10]

/-- The first `forEach` callback: `sb` after the field declaration of `info`. -/
def appendField (sb : JSString) (info : LocatorInfo) : JSString :=
  let sb := sb ++ ("    ".toList ++ buildFindByAnnotation info ++ newline)
  sb ++ ("    private WebElement ".toList ++ info.name ++ ";".toList ++ newline ++ newline)

/-- The second `forEach` callback: `sb` after the accessor of `info`. -/
def appendAccessor (sb : JSString) (info : LocatorInfo) : JSString :=
  let methodName := "get".toList ++ upperCaseFirstUnit info.name
  let sb := sb ++ ("    public WebElement ".toList ++ methodName ++ "() \x7b".toList ++ newline)
  let sb := sb ++ ("        return ".toList ++ info.name ++ ";".toList ++ newline)
  sb ++ ("    \x7d".toList ++ newline ++ newline)

/-- The text `sb` built by `generatePageObject(packageName, className)` when
`document.querySelectorAll` selects the elements `raw`; this text is the content of
the file offered for download. -/
def generatePageObject (packageName : Option JSString) (className : JSString)
    (raw : List Element) : JSString :=
  let locatorInfos := locatorInfos raw
  let sb : JSString := []
  let sb :=
    if truthy packageName && truthy (packageName.map trim) then
      sb ++ ("package ".toList ++ packageName.getD [] ++ ";".toList ++ newline ++ newline)
    else sb
  let sb := sb ++ ("import org.openqa.selenium.WebDriver;".toList ++ newline)
  let sb := sb ++ ("import org.openqa.selenium.WebElement;".toList ++ newline)
  let sb := sb ++ ("import org.openqa.selenium.support.FindBy;".toList ++ newline)
  let sb := sb ++ ("import org.openqa.selenium.support.PageFactory;".toList ++ newline ++ newline)
  let sb := sb ++ ("public class ".toList ++ className ++ " \x7b".toList ++ newline ++ newline)
  let sb := sb ++ ("    private final WebDriver driver;".toList ++ newline ++ newline)
  let sb := sb ++ ("    public ".toList ++ className ++ "(WebDriver driver) \x7b".toList ++ newline)
  let sb := sb ++ ("        this.driver = driver;".toList ++ newline)
  let sb := sb ++ ("        PageFactory.initElements(driver, this);".toList ++ newline)
  let sb := sb ++ ("    \x7d".toList ++ newline ++ newline)
  let sb := locatorInfos.foldl appendField sb
  let sb := locatorInfos.foldl appendAccessor sb
  sb ++ ("\x7d".toList ++ newline)

/-- The number of places of `text` at which `pattern` occurs. -/
def countOccurrences (pattern text : JSString) : Nat :=
  (text.tails.filter fun t => pattern.isPrefixOf t).length

/-- Two buttons of one page: `<button id="x">` and `<button name="x">`. -/
def twoButtons : List Element :=
  [⟨htmlElement "BUTTON".toList [("id".toList, "x".toList)],
      [⟨bodyData, [], [htmlElement "BUTTON".toList [("name".toList, "x".toList)]]⟩,
        ⟨htmlRoot, [], []⟩]⟩,
   ⟨htmlElement "BUTTON".toList [("name".toList, "x".toList)],
      [⟨bodyData, [htmlElement "BUTTON".toList [("id".toList, "x".toList)]], []⟩,
        ⟨htmlRoot, [], []⟩]⟩]

/-! ## Statements about the emitters and the paths -/

/-- The selector of `toPlaywright` in the words of the specification: for ID the
value with its spaces escaped after a hash, for NAME the value between
`[name='` and `']`, for the CSS group the escaped value, otherwise the escaped
value after `xpath=`. -/
def statedPlaywrightSelector (info : LocatorInfo) : JSString :=
  if info.strategy = "ID".toList then "#".toList ++ escapeSpaces info.locatorValue
  else if info.strategy = "NAME".toList then
    "[name='".toList ++ info.locatorValue ++ "']".toList
  else if info.strategy = "DATA_AUTOMATION".toList || info.strategy = "DATA_TESTID".toList ||
      info.strategy = "CLASS_NAME".toList || info.strategy = "CSS".toList then
    escapeForLiteral info.locatorValue
  else "xpath=".toList ++ escapeForLiteral info.locatorValue

/-- Decoding of a double-quoted literal by the rules for the two escape pairs:
backslash-backslash gives a backslash, backslash-quote gives a double quote; every
other character stands for itself. -/
def unescapeLiteral : JSString → JSString
  | [] => []
  | [c] => [c]
  | c :: d :: rest =>
    if c = backslashChar ∧ (d = backslashChar ∨ d = dquoteChar) then d :: unescapeLiteral rest
    else c :: unescapeLiteral (d :: rest)

/-- The number of backslashes that end a text. -/
def trailingBackslashes (s : JSString) : Nat :=
  (s.reverse.takeWhile fun c => c = backslashChar).length

/-- The elements from `e` upwards, one for each of the given levels, each with its
preceding element siblings: `e` first, the child of the last level's parent last. -/
def chainBelow : ElementData → List Level → List (ElementData × List ElementData)
  | _, [] => []
  | e, l :: ls => (e, l.before) :: chainBelow l.parent ls

/-- The segment of an element in the words of the specification: the lower-cased
tag and, between brackets, one plus the number of preceding siblings with the tag
name of the element. -/
def statedSegment (n : ElementData × List ElementData) : JSString :=
  toLowerCase n.1.tagName ++ "[".toList ++
    numberToString (1 + n.2.countP fun sibling => sibling.tagName = n.1.tagName) ++ "]".toList

/-- The first non-empty value of a list of attribute values. -/
def firstNonEmpty (values : List (Option JSString)) : Option JSString :=
  (values.filterMap id).find? fun v => !v.isEmpty

/-- A `span` that is the third child, after a `p` and a `span`, of `<div id="main">`. -/
def spanInMain : Element :=
  ⟨htmlElement "SPAN".toList [],
    [⟨htmlElement "DIV".toList [("id".toList, "main".toList)],
        [htmlElement "P".toList [], htmlElement "SPAN".toList []], []⟩,
      ⟨bodyData, [], []⟩, ⟨htmlRoot, [], []⟩]⟩

/-- A `div` without attributes. -/
def plainDiv : Element := underBody (htmlElement "DIV".toList [])

/-- A button whose only test-id attribute is `data-qa`: `<button data-qa="save">`. -/
def qaButton : Element :=
  underBody (htmlElement "BUTTON".toList [("data-qa".toList, "save".toList)])

/-- An element whose id holds a double quote: `<div id='a"b'>`. -/
def quotedIdDiv : Element :=
  underBody (htmlElement "DIV".toList [("id".toList, ['a', dquoteChar, 'b'])])

/-- An input whose name holds a single quote: `<input name="a'b">`. -/
def apostropheNameInput : Element :=
  underBody (htmlElement "INPUT".toList [("name".toList, ['a', quoteChar, 'b'])])

/-- A button with the text ` Save ` (with surrounding spaces). -/
def saveButton : Element :=
  underBody { htmlElement "BUTTON".toList [] with
    innerText := some " Save ".toList, textContent := some " Save ".toList }

/-- A link in the second item of a list inside `<div id="main">`:
`<div id="main"><ul><li></li><li><a href="#"></a></li></ul></div>`. -/
def linkInMain : Element :=
  ⟨htmlElement "A".toList [("href".toList, "#".toList)],
    [⟨htmlElement "LI".toList [], [], []⟩,
      ⟨htmlElement "UL".toList [], [htmlElement "LI".toList []], []⟩,
      ⟨htmlElement "DIV".toList [("id".toList, "main".toList)], [], []⟩,
      ⟨bodyData, [], []⟩, ⟨htmlRoot, [], []⟩]⟩

/-- The names of the closed enumeration of strategies, in priority order. -/
def strategyNames : List JSString :=
  ["DATA_AUTOMATION".toList, "DATA_TESTID".toList, "ID".toList, "NAME".toList,
    "CLASS_NAME".toList, "CSS".toList, "XPATH".toList]

/-! ## Elements whose properties are objects -/

/-- The data of an SVG element: the tag name is reported as written, `className` is
an `SVGAnimatedString` and there is no `innerText`. -/
def svgElement (tagName : JSString) (attributes : List (JSString × JSString)) : ElementData :=
  { htmlElement tagName attributes with
    innerText := none, classNameObject := some "[object SVGAnimatedString]".toList }

/-- The element `<svg class="icon" tabindex="0">`. -/
def svgIcon : Element :=
  underBody (svgElement "svg".toList
    [("class".toList, "icon".toList), ("tabindex".toList, "0".toList)])

/-- The element `<svg>` without attributes. -/
def plainSvg : Element := underBody (svgElement "svg".toList [])

/-- The data of `<form id="login">` when the form owns the control `<input name="id">`:
the property `id` of the form is that control. -/
def loginFormData : ElementData :=
  { htmlElement "FORM".toList [("id".toList, "login".toList)] with
    idObject := some "[object HTMLInputElement]".toList }

/-- The control `<input name="id">`. -/
def idControl : ElementData := htmlElement "INPUT".toList [("name".toList, "id".toList)]

/-- The control `<input name="q">`. -/
def queryControl : ElementData := htmlElement "INPUT".toList [("name".toList, "q".toList)]

/-- The control `<button data-automation="go">`. -/
def goControl : ElementData :=
  htmlElement "BUTTON".toList [("data-automation".toList, "go".toList)]

/-- The form of
`<form id="login"><input name="id"><input name="q"><button data-automation="go"></form>`. -/
def loginForm : Element := underBody loginFormData

/-- The second control, `<input name="q">`, of the form `loginForm`. -/
def loginQuery : Element :=
  ⟨queryControl, [⟨loginFormData, [idControl], [goControl]⟩, ⟨bodyData, [], []⟩,
    ⟨htmlRoot, [], []⟩]⟩

/-- The third control, `<button data-automation="go">`, of the form `loginForm`. -/
def loginGo : Element :=
  ⟨goControl, [⟨loginFormData, [idControl, queryControl], []⟩, ⟨bodyData, [], []⟩,
    ⟨htmlRoot, [], []⟩]⟩

/-- The button of `<form id="f"><button></button></form>`. -/
def formButton : Element :=
  ⟨htmlElement "BUTTON".toList [],
    [⟨htmlElement "FORM".toList [("id".toList, "f".toList)], [], []⟩, ⟨bodyData, [], []⟩,
      ⟨htmlRoot, [], []⟩]⟩

/-- The same button after the sibling `<input name="id">` is inserted behind it:
`<form id="f"><button></button><input name="id"></form>`.  The new control shadows
the property `id` of the form. -/
def formButtonWithControl : Element :=
  ⟨htmlElement "BUTTON".toList [],
    [⟨{ htmlElement "FORM".toList [("id".toList, "f".toList)] with
          idObject := some "[object HTMLInputElement]".toList },
        [], [idControl]⟩,
      ⟨bodyData, [], []⟩, ⟨htmlRoot, [], []⟩]⟩

/-! ## The records of the scenarios -/

/-- The record of Scenario A. -/
def scenarioAInfo : LocatorInfo :=
  { name := "btnSubmitBtn".toList
    strategy := "DATA_AUTOMATION".toList
    locatorValue := "[data-automation='submit-btn']".toList
    tagName := "button".toList
    xpath := "//button[1]".toList }

/-- The record of Scenario B. -/
def scenarioBInfo : LocatorInfo :=
  { name := "primaryBtn".toList
    strategy := "CLASS_NAME".toList
    locatorValue := "div.primary-btn".toList
    tagName := "div".toList
    xpath := "//div[1]".toList }

/-- The record of Scenario C. -/
def scenarioCInfo : LocatorInfo :=
  { name := "inputLoginemail".toList
    strategy := "ID".toList
    locatorValue := "loginEmail".toList
    tagName := "input".toList
    xpath := ".//*[@id='loginEmail']".toList }

/-- The record of `qaButton`. -/
def qaButtonInfo : LocatorInfo :=
  { name := "btnSave".toList
    strategy := "DATA_TESTID".toList
    locatorValue := "[data-testid='save']".toList
    tagName := "button".toList
    xpath := "//button[1]".toList }

/-! ## Properties of `toFieldName` -/

/-- C1 (evaluation at the failing input): for the custom element tag `my-widget` and
the base `-`, which has no letter, digit or underscore, `toFieldName` returns
`my-widgetElement`; the hyphen of the tag name survives in the fallback
`tagName + 'Element'`, so the result does not match `^[A-Za-z_][A-Za-z0-9_]*$`.  The
same name is given by `buildLocatorInfo` to `<my-widget data-automation="-">`. -/
theorem toFieldName_customTag_not_identifier :
    toFieldName (some "-".toList) (some "my-widget".toList) = "my-widgetElement".toList ∧
      isIdentifier (toFieldName (some "-".toList) (some "my-widget".toList)) = false ∧
      (buildLocatorInfo customWidget).map (fun info => info.name) =
        some "my-widgetElement".toList := by
  decide

/-- C2: `toFieldName` is a total function and its result is never the empty string:
whatever `base` and `tagName` are (absent, empty, blank or not), the result has
length at least 1; an absent or empty `tagName` stands for `element`. -/
theorem toFieldName_length_pos (base tagName : Option JSString) :
    1 ≤ (toFieldName base tagName).length ∧
      toFieldName base none = toFieldName base (some "element".toList) ∧
      toFieldName base (some []) = toFieldName base (some "element".toList) := by
  refine ⟨?_, rfl, rfl⟩
  have key : ∀ t r : JSString,
      1 ≤ (if (stripNonWord r).isEmpty then t ++ "Element".toList else stripNonWord r).length := by
    intro t r
    split
    · simp
    · rename_i h
      rw [List.isEmpty_iff] at h
      exact List.length_pos.mpr h
  unfold toFieldName
  dsimp only
  exact key _ _

/-! ## Case conversion -/

set_option maxRecDepth 100000 in
/-- The case conversion at some characters outside ASCII: the Kelvin sign becomes
`k` and `É` becomes `é`; the capital sigma becomes the final sigma after a cased
letter at the end of the string and the small sigma elsewhere; the capital I with a
dot above becomes two characters; `ß` is upper-cased to `SS`; a first character
outside the basic plane, such as the Deseret letter U+10428, is left alone by
`charAt(0).toUpperCase()`. -/
theorem caseConversion_examples :
    toLowerCase [Char.ofNat 0x212A] = ['k'] ∧
      toLowerCase [Char.ofNat 0xC9] = [Char.ofNat 0xE9] ∧
      toLowerCase [Char.ofNat 0x391, Char.ofNat 0x3A3] =
        [Char.ofNat 0x3B1, Char.ofNat 0x3C2] ∧
      toLowerCase [Char.ofNat 0x3A3, Char.ofNat 0x391] =
        [Char.ofNat 0x3C3, Char.ofNat 0x3B1] ∧
      toLowerCase [Char.ofNat 0x130] = ['i', Char.ofNat 0x307] ∧
      toUpperCase [Char.ofNat 0xDF] = ['S', 'S'] ∧
      toUpperCase [Char.ofNat 0x10428] = [Char.ofNat 0x10400] ∧
      upperCaseFirstUnit [Char.ofNat 0x10428, 'a'] = [Char.ofNat 0x10428, 'a'] ∧
      upperCaseFirstUnit [Char.ofNat 0xE9, 'a'] = [Char.ofNat 0xC9, 'a'] := by
  decide

/-! ## Identifiers produced by `toFieldName` -/

theorem isWordChar_of_isIdentStart (c : Char) (h : isIdentStart c = true) : isWordChar c = true := by
  unfold isIdentStart at h
  unfold isWordChar
  simp only [Bool.or_eq_true, Bool.and_eq_true, decide_eq_true_eq, beq_iff_eq] at h ⊢
  omega

theorem isWordChar_lowerChar (c : Char) (h : isWordChar c = true) :
    isWordChar (lowerChar c) = true := by
  unfold lowerChar
  split
  · rename_i hr
    obtain ⟨n, hn⟩ : ∃ n, c.toNat = n := ⟨_, rfl⟩
    rw [hn] at hr ⊢
    obtain ⟨h1, h2⟩ := hr
    interval_cases n <;> decide
  · exact h

theorem isWordChar_upperChar (c : Char) (h : isWordChar c = true) :
    isWordChar (upperChar c) = true := by
  unfold upperChar
  split
  · rename_i hr
    obtain ⟨n, hn⟩ : ∃ n, c.toNat = n := ⟨_, rfl⟩
    rw [hn] at hr ⊢
    obtain ⟨h1, h2⟩ := hr
    interval_cases n <;> decide
  · exact h

theorem toNat_lt_of_isWordChar (c : Char) (h : isWordChar c = true) : c.toNat < 128 := by
  unfold isWordChar at h
  simp only [Bool.or_eq_true, Bool.and_eq_true, decide_eq_true_eq, beq_iff_eq] at h
  omega

theorem toLowerCaseFrom_ascii (s : JSString) :
    ∀ before : JSString, (∀ c ∈ s, c.toNat < 128) →
      toLowerCaseFrom before s = s.map lowerChar := by
  induction s with
  | nil => intro _ _; rfl
  | cons a t ih =>
    intro before h
    have ha : a.toNat < 128 := h a (List.mem_cons_self a t)
    simp only [toLowerCaseFrom, lowerAt, ha, if_true, List.map_cons, List.singleton_append]
    rw [ih (a :: before) (fun c hc => h c (List.mem_cons_of_mem a hc))]

/-- On an ASCII string `toLowerCase` is `lowerChar` on every character. -/
theorem toLowerCase_ascii (s : JSString) (h : ∀ c ∈ s, c.toNat < 128) :
    toLowerCase s = s.map lowerChar :=
  toLowerCaseFrom_ascii s [] h

/-- On an ASCII string `toUpperCase` is `upperChar` on every character. -/
theorem toUpperCase_ascii (s : JSString) (h : ∀ c ∈ s, c.toNat < 128) :
    toUpperCase s = s.map upperChar := by
  induction s with
  | nil => rfl
  | cons a t ih =>
    have ha : a.toNat < 128 := h a (List.mem_cons_self a t)
    have iht := ih (fun c hc => h c (List.mem_cons_of_mem a hc))
    unfold toUpperCase at iht ⊢
    rw [List.flatMap_cons, iht]
    simp only [upperAt, ha, if_true, List.map_cons, List.singleton_append]

/-- Lower-casing keeps a non-empty string non-empty. -/
theorem toLowerCase_ne_nil (s : JSString) (h : s ≠ []) : toLowerCase s ≠ [] := by
  cases s with
  | nil => exact absurd rfl h
  | cons a t =>
    unfold toLowerCase toLowerCaseFrom
    intro hnil
    have hfirst := (List.append_eq_nil.mp hnil).1
    unfold lowerAt at hfirst
    split_ifs at hfirst

theorem upperCaseFirstUnit_chars (p : JSString) (hp : ∀ c ∈ p, isWordChar c = true) :
    ∀ c ∈ upperCaseFirstUnit p, isWordChar c = true := by
  cases p with
  | nil => intro c hc; cases hc
  | cons a t =>
    have ha := hp a (List.mem_cons_self a t)
    have ha128 := toNat_lt_of_isWordChar a ha
    have hunit : a.toNat < 65536 := by omega
    intro c hc
    simp only [upperCaseFirstUnit, hunit, if_true, toUpperCase, List.flatMap_cons,
      List.flatMap_nil, upperAt, ha128, List.append_nil, List.singleton_append,
      List.mem_cons] at hc
    rcases hc with hc | hc
    · subst hc; exact isWordChar_upperChar a ha
    · exact hp c (List.mem_cons_of_mem a hc)

theorem replaceNonWordRunsAux_chars (s : JSString) :
    ∀ (b : Bool), ∀ c ∈ replaceNonWordRunsAux b s, isWordChar c = true ∨ c = ' ' := by
  induction s with
  | nil => intro b c hc; simp [replaceNonWordRunsAux] at hc
  | cons a t ih =>
    intro b c hc
    simp only [replaceNonWordRunsAux] at hc
    by_cases ha : isWordChar a = true
    · simp only [ha, if_true, List.mem_cons] at hc
      rcases hc with hc | hc
      · subst hc; exact Or.inl ha
      · exact ih false c hc
    · simp only [ha, if_false, Bool.false_eq_true] at hc
      cases b with
      | true =>
        simp only [if_true] at hc
        exact ih true c hc
      | false =>
        simp only [Bool.false_eq_true, if_false, List.mem_cons] at hc
        rcases hc with hc | hc
        · exact Or.inr hc
        · exact ih true c hc

theorem mem_of_mem_trim (s : JSString) (c : Char) (h : c ∈ trim s) : c ∈ s := by
  unfold trim at h
  rw [List.mem_reverse] at h
  have h1 := List.dropWhile_subset isWhiteSpace h
  rw [List.mem_reverse] at h1
  exact List.dropWhile_subset isWhiteSpace h1

theorem splitWhitespaceAux_chars (Q : Char → Prop) (s : JSString) :
    ∀ (cur : JSString) (b : Bool), (∀ c ∈ cur, Q c) →
      (∀ c ∈ s, isWhiteSpace c = false → Q c) →
      ∀ p ∈ splitWhitespaceAux cur b s, ∀ c ∈ p, Q c := by
  induction s with
  | nil =>
    intro cur b hcur _ p hp c hc
    simp only [splitWhitespaceAux, List.mem_singleton] at hp
    subst hp
    exact hcur c (List.mem_reverse.mp hc)
  | cons a t ih =>
    intro cur b hcur hs p hp
    have ht : ∀ c ∈ t, isWhiteSpace c = false → Q c :=
      fun c hc => hs c (List.mem_cons_of_mem a hc)
    simp only [splitWhitespaceAux] at hp
    by_cases ha : isWhiteSpace a = true
    · simp only [ha, if_true] at hp
      cases b with
      | true =>
        simp only [if_true] at hp
        exact ih [] true (by simp) ht p hp
      | false =>
        simp only [Bool.false_eq_true, if_false, List.mem_cons] at hp
        rcases hp with hp | hp
        · subst hp
          exact fun c hc => hcur c (List.mem_reverse.mp hc)
        · exact ih [] true (by simp) ht p hp
    · simp only [ha, if_false, Bool.false_eq_true] at hp
      refine ih (a :: cur) false ?_ ht p hp
      intro c hc
      rcases List.mem_cons.mp hc with hc | hc
      · subst hc
        exact hs c (List.mem_cons_self c t) (by simpa using ha)
      · exact hcur c hc

theorem appendPart_chars (result p : JSString) (index : Nat)
    (hr : ∀ c ∈ result, isWordChar c = true) (hp : ∀ c ∈ p, isWordChar c = true) :
    ∀ c ∈ appendPart result p index, isWordChar c = true := by
  have hlow : ∀ c ∈ toLowerCase p, isWordChar c = true := by
    intro c hc
    rw [toLowerCase_ascii p (fun d hd => toNat_lt_of_isWordChar d (hp d hd))] at hc
    obtain ⟨d, hd, rfl⟩ := List.mem_map.mp hc
    exact isWordChar_lowerChar d (hp d hd)
  intro c hc
  unfold appendPart at hc
  split at hc
  · exact hr c hc
  · dsimp only at hc
    split at hc
    · rcases List.mem_append.mp hc with hc | hc
      · exact hr c hc
      · exact hlow c hc
    · rcases List.mem_append.mp hc with hc | hc
      · exact hr c hc
      · exact upperCaseFirstUnit_chars _ hlow c hc

theorem camelJoinFrom_chars (parts : List JSString) :
    ∀ (result : JSString) (index : Nat), (∀ c ∈ result, isWordChar c = true) →
      (∀ p ∈ parts, ∀ c ∈ p, isWordChar c = true) →
      ∀ c ∈ camelJoinFrom result index parts, isWordChar c = true := by
  induction parts with
  | nil => intro result index hr _ c hc; exact hr c hc
  | cons p ps ih =>
    intro result index hr hps
    exact ih (appendPart result p index) (index + 1)
      (appendPart_chars result p index hr (hps p (List.mem_cons_self p ps)))
      (fun q hq => hps q (List.mem_cons_of_mem p hq))


theorem isIdentifier_iff (t : JSString) :
    isIdentifier t = true ↔
      ∃ a t', t = a :: t' ∧ isIdentStart a = true ∧ ∀ c ∈ t', isWordChar c = true := by
  cases t with
  | nil => simp [isIdentifier]
  | cons a t' =>
    simp only [isIdentifier, Bool.and_eq_true, List.all_eq_true]
    constructor
    · rintro ⟨h1, h2⟩
      exact ⟨a, t', rfl, h1, h2⟩
    · rintro ⟨b, u, hcons, h1, h2⟩
      cases hcons
      exact ⟨h1, h2⟩

theorem stripNonWord_eq_self (r : JSString) (h : ∀ c ∈ r, isWordChar c = true) :
    stripNonWord r = r :=
  List.filter_eq_self.mpr h

theorem fieldName_finish_isIdentifier (t r : JSString) (ht : isIdentifier t = true)
    (hr : ∀ c ∈ r, isWordChar c = true) :
    isIdentifier
      (if (stripNonWord (if !r.isEmpty && !startsWithIdentStart r then t ++ "_".toList ++ r
          else r)).isEmpty then t ++ "Element".toList
        else stripNonWord (if !r.isEmpty && !startsWithIdentStart r then t ++ "_".toList ++ r
          else r)) = true := by
  obtain ⟨a, t', rfl, ha, ht'⟩ := (isIdentifier_iff t).mp ht
  have hE : ∀ c ∈ "Element".toList, isWordChar c = true := by decide
  have hU : ∀ c ∈ "_".toList, isWordChar c = true := by decide
  have hsuffix : ∀ (x : JSString), (∀ c ∈ x, isWordChar c = true) →
      isIdentifier (a :: t' ++ x) = true := by
    intro x hx
    rw [isIdentifier_iff]
    refine ⟨a, t' ++ x, rfl, ha, ?_⟩
    intro c hc
    rcases List.mem_append.mp hc with hc | hc
    · exact ht' c hc
    · exact hx c hc
  by_cases hcond : (!r.isEmpty && !startsWithIdentStart r) = true
  · rw [if_pos hcond]
    have hall : ∀ c ∈ a :: t' ++ "_".toList ++ r, isWordChar c = true := by
      intro c hc
      rcases List.mem_append.mp hc with hc | hc
      · rcases List.mem_append.mp hc with hc | hc
        · rcases List.mem_cons.mp hc with hc | hc
          · subst hc; exact isWordChar_of_isIdentStart c ha
          · exact ht' c hc
        · exact hU c hc
      · exact hr c hc
    rw [stripNonWord_eq_self _ hall]
    have hne : (a :: t' ++ "_".toList ++ r).isEmpty = false := rfl
    rw [hne]
    simp only [Bool.false_eq_true, if_false]
    rw [List.append_assoc]
    apply hsuffix
    intro c hc
    rcases List.mem_append.mp hc with hc | hc
    · exact hU c hc
    · exact hr c hc
  · rw [if_neg hcond, stripNonWord_eq_self _ hr]
    cases r with
    | nil => exact hsuffix _ hE
    | cons b r' =>
      have hb : isIdentStart b = true := by
        simpa [startsWithIdentStart] using hcond
      have hne : (b :: r').isEmpty = false := rfl
      rw [hne]
      simp only [Bool.false_eq_true, if_false]
      rw [isIdentifier_iff]
      exact ⟨b, r', rfl, hb, fun c hc => hr c (List.mem_cons_of_mem b hc)⟩

theorem fieldName_parts_chars (tag cleaned : JSString)
    (htag : ∀ c ∈ tag, isWordChar c = true)
    (hcl : ∀ c ∈ cleaned, isWhiteSpace c = false → isWordChar c = true) :
    ∀ p ∈ (if (splitWhitespace cleaned).length = 0 then [tag, "element".toList]
        else splitWhitespace cleaned), ∀ c ∈ p, isWordChar c = true := by
  intro p hp
  split at hp
  · rcases List.mem_cons.mp hp with hp | hp
    · subst hp; exact htag
    · rw [List.mem_singleton] at hp
      subst hp; decide
  · exact splitWhitespaceAux_chars (fun c => isWordChar c = true) _ [] false
      (fun c hc => absurd hc (List.not_mem_nil c)) hcl p hp

theorem trim_replaceNonWordRuns_chars (base : JSString) :
    ∀ c ∈ trim (replaceNonWordRuns base), isWhiteSpace c = false → isWordChar c = true := by
  intro c hc hws
  rcases replaceNonWordRunsAux_chars _ false c (mem_of_mem_trim _ c hc) with h | h
  · exact h
  · subst h
    exact absurd hws (by decide)

/-- For a tag name that is itself an identifier once lower-cased (such as the names
of the HTML elements), the result of `toFieldName` matches
`^[A-Za-z_][A-Za-z0-9_]*$`, whatever the base is. -/
theorem toFieldName_isIdentifier_of_tag (base tagName : Option JSString)
    (htag : isIdentifier
      (toLowerCase ((orElse tagName (some "element".toList)).getD [])) = true) :
    isIdentifier (toFieldName base tagName) = true := by
  obtain ⟨a, t', htq, ha, ht'⟩ := (isIdentifier_iff _).mp htag
  have htagw : ∀ c ∈ toLowerCase ((orElse tagName (some "element".toList)).getD []),
      isWordChar c = true := by
    intro c hc
    rw [htq] at hc
    rcases List.mem_cons.mp hc with hc | hc
    · subst hc; exact isWordChar_of_isIdentStart c ha
    · exact ht' c hc
  unfold toFieldName
  dsimp only
  exact fieldName_finish_isIdentifier _ _ htag
    (camelJoinFrom_chars _ [] 0 (fun c hc => absurd hc (List.not_mem_nil c))
      (fieldName_parts_chars _ _ htagw (trim_replaceNonWordRuns_chars _)))

/-! ## Properties of `isInteractable` -/

/-- C6: `isInteractable(el)` is true exactly when `el` is an element node and either its
tag is one of `input`, `button`, `select`, `textarea` and it is not disabled, or its
tag is none of these and it is an anchor with an `href` attribute, or has role
`button` or `link`, or is content-editable, or has a `tabindex` attribute.  A
disabled form control is never interactable, and the rendered width and height have
no influence on the result. -/
theorem isInteractable_iff (el : Option Node) :
    (isInteractable el = true ↔
      ∃ e : Element, el = some (.element e) ∧
        ((toLowerCase e.self.tagName ∈
              ["input".toList, "button".toList, "select".toList, "textarea".toList] ∧
            e.self.disabled = false) ∨
          (toLowerCase e.self.tagName ∉
              ["input".toList, "button".toList, "select".toList, "textarea".toList] ∧
            ((toLowerCase e.self.tagName = "a".toList ∧
                e.self.hasAttribute "href".toList = true) ∨
              e.self.getAttribute "role".toList = some "button".toList ∨
              e.self.getAttribute "role".toList = some "link".toList ∨
              e.self.isContentEditable = true ∨
              e.self.hasAttribute "tabindex".toList = true)))) ∧
    (∀ e : Element,
      toLowerCase e.self.tagName ∈
          ["input".toList, "button".toList, "select".toList, "textarea".toList] →
        e.self.disabled = true → isInteractable (some (.element e)) = false) ∧
    (∀ (e : Element) (w h : ℚ),
      isInteractable
          (some (.element ⟨{ e.self with rectWidth := w, rectHeight := h }, e.ancestors⟩)) =
        isInteractable (some (.element e))) := by
  have hmem : ∀ t : JSString,
      (t ∈ ["input".toList, "button".toList, "select".toList, "textarea".toList]) ↔
        (["input".toList, "button".toList, "select".toList, "textarea".toList].contains t) =
          true := fun t => List.elem_iff.symm
  refine ⟨?_, ?_, ?_⟩
  · rcases el with _ | ⟨e⟩ | k
    · simp [isInteractable]
    · simp only [isInteractable, Option.some.injEq, Node.element.injEq, exists_eq_left', hmem]
      generalize (["input".toList, "button".toList, "select".toList,
        "textarea".toList].contains (toLowerCase e.self.tagName)) = b1
      by_cases ha : toLowerCase e.self.tagName = "a".toList <;>
      by_cases hr1 : e.self.getAttribute "role".toList = some "button".toList <;>
      by_cases hr2 : e.self.getAttribute "role".toList = some "link".toList <;>
      simp only [ha, hr1, hr2, decide_True, decide_False, Bool.true_and, Bool.false_and,
        Bool.or_true, Bool.true_or, Bool.or_false, true_and, false_and, true_or, false_or,
        or_true, or_false, if_true] <;>
      cases b1 <;> cases e.self.disabled <;> cases e.self.isContentEditable <;>
      cases e.self.hasAttribute "tabindex".toList <;>
      cases e.self.hasAttribute "href".toList <;>
      simp
    · simp [isInteractable]
  · intro e htag hd
    rw [hmem] at htag
    simp only [isInteractable, htag, hd, if_true]
  · intro e w h
    simp only [isInteractable, ElementData.hasAttribute, ElementData.getAttribute]
    split_ifs <;> rfl

/-! ## The branches of `buildLocatorInfo` -/

theorem truthy_eq_true_iff (v : Option JSString) :
    truthy v = true ↔ ∃ s, v = some s ∧ s ≠ [] := by
  rcases v with _ | _ | ⟨c, cs⟩ <;> simp [truthy]

theorem truthy_some (s : JSString) : truthy (some s) = !s.isEmpty := by
  cases s <;> rfl

theorem branch_dataAutomation (el : Element) (x : JSString)
    (hx : buildRelativeXPath (some (.element el)) = some x)
    (h : truthy (el.self.getAttribute "data-automation".toList) = true) :
    buildLocatorInfo el =
      some
        { name := toFieldName (el.self.getAttribute "data-automation".toList)
            (some (elementTag el.self))
          strategy := "DATA_AUTOMATION".toList
          locatorValue := "[data-automation='".toList ++
            escapeSingleQuotes ((el.self.getAttribute "data-automation".toList).getD []) ++
            "']".toList
          tagName := elementTag el.self
          xpath := x } := by
  simp only [buildLocatorInfo, hx, h, if_true]

theorem branch_dataTestId (el : Element) (x : JSString)
    (hx : buildRelativeXPath (some (.element el)) = some x)
    (h1 : truthy (el.self.getAttribute "data-automation".toList) = false)
    (h2 : truthy (dataTestIdOf el.self) = true) :
    buildLocatorInfo el =
      some
        { name := toFieldName (dataTestIdOf el.self) (some (elementTag el.self))
          strategy := "DATA_TESTID".toList
          locatorValue := "[data-testid='".toList ++
            escapeSingleQuotes ((dataTestIdOf el.self).getD []) ++ "']".toList
          tagName := elementTag el.self
          xpath := x } := by
  simp only [buildLocatorInfo, hx, h1, h2, if_true, Bool.false_eq_true, if_false]

theorem branch_id (el : Element) (x : JSString)
    (hx : buildRelativeXPath (some (.element el)) = some x)
    (h1 : truthy (el.self.getAttribute "data-automation".toList) = false)
    (h2 : truthy (dataTestIdOf el.self) = false)
    (h3 : truthy (el.self.getAttribute "id".toList) = true) :
    buildLocatorInfo el =
      some
        { name := toFieldName (el.self.getAttribute "id".toList) (some (elementTag el.self))
          strategy := "ID".toList
          locatorValue := (el.self.getAttribute "id".toList).getD []
          tagName := elementTag el.self
          xpath := x } := by
  simp only [buildLocatorInfo, hx, h1, h2, h3, if_true, Bool.false_eq_true, if_false]

theorem branch_name (el : Element) (x : JSString)
    (hx : buildRelativeXPath (some (.element el)) = some x)
    (h1 : truthy (el.self.getAttribute "data-automation".toList) = false)
    (h2 : truthy (dataTestIdOf el.self) = false)
    (h3 : truthy (el.self.getAttribute "id".toList) = false)
    (h4 : truthy (el.self.getAttribute "name".toList) = true) :
    buildLocatorInfo el =
      some
        { name := toFieldName (el.self.getAttribute "name".toList) (some (elementTag el.self))
          strategy := "NAME".toList
          locatorValue := (el.self.getAttribute "name".toList).getD []
          tagName := elementTag el.self
          xpath := x } := by
  simp only [buildLocatorInfo, hx, h1, h2, h3, h4, if_true, Bool.false_eq_true, if_false]

theorem branch_className (el : Element) (x classAttr : JSString)
    (hx : buildRelativeXPath (some (.element el)) = some x)
    (h1 : truthy (el.self.getAttribute "data-automation".toList) = false)
    (h2 : truthy (dataTestIdOf el.self) = false)
    (h3 : truthy (el.self.getAttribute "id".toList) = false)
    (h4 : truthy (el.self.getAttribute "name".toList) = false)
    (hc : el.self.className = .string classAttr)
    (h5 : classesOf classAttr ≠ []) :
    buildLocatorInfo el =
      some
        { name := toFieldName (some (join "_".toList (classesOf classAttr)))
            (some (elementTag el.self))
          strategy := "CLASS_NAME".toList
          locatorValue := elementTag el.self ++ ".".toList ++
            join ".".toList (classesOf classAttr)
          tagName := elementTag el.self
          xpath := x } := by
  have h5' : (classesOf classAttr).length > 0 := List.length_pos.mpr h5
  simp only [buildLocatorInfo, hx, hc, h1, h2, h3, h4, h5', if_true, Bool.false_eq_true,
    if_false]

theorem branch_css (el : Element) (x classAttr : JSString)
    (hx : buildRelativeXPath (some (.element el)) = some x)
    (h1 : truthy (el.self.getAttribute "data-automation".toList) = false)
    (h2 : truthy (dataTestIdOf el.self) = false)
    (h3 : truthy (el.self.getAttribute "id".toList) = false)
    (h4 : truthy (el.self.getAttribute "name".toList) = false)
    (hc : el.self.className = .string classAttr)
    (h5 : classesOf classAttr = [])
    (h6 : truthy (buildCssFallback (some (.element el))) = true) :
    buildLocatorInfo el =
      some
        { name := toFieldName (some (elementTag el.self ++ "_element".toList))
            (some (elementTag el.self))
          strategy := "CSS".toList
          locatorValue := (buildCssFallback (some (.element el))).getD []
          tagName := elementTag el.self
          xpath := x } := by
  simp only [buildLocatorInfo, hx, hc, h1, h2, h3, h4, h5, h6, if_true, Bool.false_eq_true,
    if_false, List.length_nil, gt_iff_lt, lt_self_iff_false]

theorem branch_xpath (el : Element) (x classAttr : JSString)
    (hx : buildRelativeXPath (some (.element el)) = some x)
    (h1 : truthy (el.self.getAttribute "data-automation".toList) = false)
    (h2 : truthy (dataTestIdOf el.self) = false)
    (h3 : truthy (el.self.getAttribute "id".toList) = false)
    (h4 : truthy (el.self.getAttribute "name".toList) = false)
    (hc : el.self.className = .string classAttr)
    (h5 : classesOf classAttr = [])
    (h6 : truthy (buildCssFallback (some (.element el))) = false) :
    buildLocatorInfo el =
      some
        { name := toFieldName (some (elementTag el.self ++ "_element".toList))
            (some (elementTag el.self))
          strategy := "XPATH".toList
          locatorValue := x
          tagName := elementTag el.self
          xpath := x } := by
  simp only [buildLocatorInfo, hx, hc, h1, h2, h3, h4, h5, h6, if_true, Bool.false_eq_true,
    if_false, List.length_nil, gt_iff_lt, lt_self_iff_false]

/-- When `buildRelativeXPath` raises, so does `buildLocatorInfo`: the call of line 155
comes before the first branch. -/
theorem raises_of_relativeXPath (el : Element)
    (hx : buildRelativeXPath (some (.element el)) = none) : buildLocatorInfo el = none := by
  simp only [buildLocatorInfo, hx]

/-- When none of the first four branches is taken and `el.className` is an object,
`classAttr.split` raises. -/
theorem raises_of_className (el : Element) (text : JSString)
    (h1 : truthy (el.self.getAttribute "data-automation".toList) = false)
    (h2 : truthy (dataTestIdOf el.self) = false)
    (h3 : truthy (el.self.getAttribute "id".toList) = false)
    (h4 : truthy (el.self.getAttribute "name".toList) = false)
    (hc : el.self.className = .object text) : buildLocatorInfo el = none := by
  cases hx : buildRelativeXPath (some (.element el)) with
  | none => exact raises_of_relativeXPath el hx
  | some x =>
    simp only [buildLocatorInfo, hx, hc, h1, h2, h3, h4, Bool.false_eq_true, if_false]

/-- The property `className` is the `class` attribute whenever it is a string. -/
theorem className_eq_attribute (d : ElementData) (classAttr : JSString)
    (hc : d.className = .string classAttr) :
    classAttr = (d.getAttribute "class".toList).getD [] := by
  unfold ElementData.className at hc
  split at hc
  · cases hc
  · injection hc with hc
    exact hc.symm

/-- The property `id` is the `id` attribute whenever it is a string. -/
theorem id_eq_attribute (d : ElementData) (v : JSString) (hv : d.id = .string v) :
    v = (d.getAttribute "id".toList).getD [] := by
  unfold ElementData.id at hv
  split at hv
  · cases hv
  · injection hv with hv
    exact hv.symm

/-- A returned record means that `buildRelativeXPath` returned. -/
theorem relativeXPath_of_returns (el : Element) (info : LocatorInfo)
    (h : buildLocatorInfo el = some info) :
    ∃ x, buildRelativeXPath (some (.element el)) = some x := by
  cases hx : buildRelativeXPath (some (.element el)) with
  | none => rw [raises_of_relativeXPath el hx] at h; cases h
  | some x => exact ⟨x, rfl⟩

/-- Whatever branch is taken, the `xpath` field is the result of `buildRelativeXPath`
and the `tagName` field is the lower-cased tag name. -/
theorem xpath_tagName_of_returns (el : Element) (info : LocatorInfo)
    (h : buildLocatorInfo el = some info) :
    buildRelativeXPath (some (.element el)) = some info.xpath ∧
      info.tagName = elementTag el.self := by
  obtain ⟨x, hx⟩ := relativeXPath_of_returns el info h
  rw [hx]
  cases hc : el.self.className with
  | object text =>
    simp only [buildLocatorInfo, hx, hc] at h
    split_ifs at h <;> (injection h with h; subst h; exact ⟨rfl, rfl⟩)
  | string classAttr =>
    simp only [buildLocatorInfo, hx, hc] at h
    split_ifs at h <;> (injection h with h; subst h; exact ⟨rfl, rfl⟩)

/-- Whatever branch is taken, the `xpath` field is the result of `buildRelativeXPath`. -/
theorem xpath_eq_buildRelativeXPath (el : Element) (info : LocatorInfo)
    (h : buildLocatorInfo el = some info) :
    buildRelativeXPath (some (.element el)) = some info.xpath :=
  (xpath_tagName_of_returns el info h).1

/-- Whatever branch is taken, the `tagName` field is the lower-cased tag name. -/
theorem tagName_eq_elementTag (el : Element) (info : LocatorInfo)
    (h : buildLocatorInfo el = some info) : info.tagName = elementTag el.self :=
  (xpath_tagName_of_returns el info h).2

/-! ## The class list -/

theorem dropWhile_eq_self_of_forall_false {f : Char → Bool} (l : JSString)
    (h : ∀ c ∈ l, f c = false) : l.dropWhile f = l := by
  cases l with
  | nil => rfl
  | cons a t => simp [List.dropWhile_cons, h a (List.mem_cons_self a t)]

/-- A string without white space is left as it is by `trim`. -/
theorem trim_eq_self (p : JSString) (h : ∀ c ∈ p, isWhiteSpace c = false) : trim p = p := by
  unfold trim
  rw [dropWhile_eq_self_of_forall_false p h,
    dropWhile_eq_self_of_forall_false p.reverse (fun c hc => h c (List.mem_reverse.mp hc)),
    List.reverse_reverse]

/-- The pieces produced by `split(/\s+/)` contain no white space. -/
theorem splitWhitespaceAux_no_whiteSpace (s : JSString) :
    ∀ (cur : JSString) (b : Bool), (∀ c ∈ cur, isWhiteSpace c = false) →
      ∀ p ∈ splitWhitespaceAux cur b s, ∀ c ∈ p, isWhiteSpace c = false := by
  induction s with
  | nil =>
    intro cur b hcur p hp c hc
    simp only [splitWhitespaceAux, List.mem_singleton] at hp
    subst hp
    exact hcur c (List.mem_reverse.mp hc)
  | cons a t ih =>
    intro cur b hcur p hp
    simp only [splitWhitespaceAux] at hp
    by_cases ha : isWhiteSpace a = true
    · simp only [ha, if_true] at hp
      cases b with
      | true =>
        simp only [if_true] at hp
        exact ih [] true (by simp) p hp
      | false =>
        simp only [Bool.false_eq_true, if_false, List.mem_cons] at hp
        rcases hp with hp | hp
        · subst hp
          exact fun c hc => hcur c (List.mem_reverse.mp hc)
        · exact ih [] true (by simp) p hp
    · simp only [ha, if_false] at hp
      refine ih (a :: cur) false ?_ p hp
      intro c hc
      rcases List.mem_cons.mp hc with hc | hc
      · subst hc
        simpa using ha
      · exact hcur c hc

/-- The non-empty pieces of `split(/\s+/)` are the non-empty pieces obtained by
splitting at every single white space character. -/
theorem splitWhitespaceAux_filter (s : JSString) :
    ∀ (cur : JSString) (b : Bool), (b = true → cur = []) →
      (splitWhitespaceAux cur b s).filter (fun c => !c.isEmpty) =
        (List.splitOnP.go isWhiteSpace s cur).filter (fun c => !c.isEmpty) := by
  induction s with
  | nil => intro cur b _; rfl
  | cons a t ih =>
    intro cur b hb
    simp only [splitWhitespaceAux, List.splitOnP.go]
    by_cases ha : isWhiteSpace a = true
    · simp only [ha, if_true]
      cases b with
      | true =>
        simp only [if_true, hb rfl, List.reverse_nil, List.filter_cons, List.isEmpty_nil,
          Bool.not_true, Bool.false_eq_true, if_false]
        exact ih [] true (fun _ => rfl)
      | false =>
        simp only [Bool.false_eq_true, if_false, List.filter_cons]
        rw [ih [] true (fun _ => rfl)]
    · simp only [ha, if_false]
      exact ih (a :: cur) false (fun h => by cases h)

/-- The class list of the source is the list of non-empty pieces of the class
attribute between white space characters. -/
theorem classesOf_eq_splitOnP (classAttr : JSString) :
    classesOf classAttr = (classAttr.splitOnP isWhiteSpace).filter (fun c => !c.isEmpty) := by
  unfold classesOf splitWhitespace
  have hmap : (splitWhitespaceAux [] false classAttr).map trim =
      splitWhitespaceAux [] false classAttr := by
    conv_rhs => rw [← List.map_id (splitWhitespaceAux [] false classAttr)]
    apply List.map_congr_left
    intro p hp
    exact trim_eq_self p (splitWhitespaceAux_no_whiteSpace classAttr [] false (by simp) p hp)
  rw [hmap, splitWhitespaceAux_filter classAttr [] false (fun h => by cases h)]
  rfl

theorem splitOnP_go_filter_ne_nil (s : JSString) :
    ∀ cur : JSString,
      (List.splitOnP.go isWhiteSpace s cur).filter (fun c => !c.isEmpty) ≠ [] ↔
        cur ≠ [] ∨ ∃ c ∈ s, isWhiteSpace c = false := by
  induction s with
  | nil =>
    intro cur
    cases cur <;> simp [List.splitOnP.go, List.filter_cons]
  | cons a t ih =>
    intro cur
    simp only [List.splitOnP.go]
    by_cases ha : isWhiteSpace a = true
    · simp only [ha, if_true, List.filter_cons]
      have iht := ih []
      cases cur with
      | nil =>
        simp only [List.reverse_nil, List.isEmpty_nil, Bool.not_true, Bool.false_eq_true,
          if_false, iht, ne_eq, not_true_eq_false, false_or, List.mem_cons, exists_eq_or_imp, ha,
          Bool.true_eq_false]
      | cons x xs => simp
    · simp only [ha, if_false, Bool.false_eq_true]
      rw [ih (a :: cur)]
      have ha' : isWhiteSpace a = false := by simpa using ha
      simp only [ne_eq, reduceCtorEq, not_false_eq_true, true_or, true_iff]
      exact Or.inr ⟨a, List.mem_cons_self a t, ha'⟩

/-- The class list is non-empty exactly when the class attribute has a character
that is not white space. -/
theorem classesOf_ne_nil_iff (classAttr : JSString) :
    classesOf classAttr ≠ [] ↔ ∃ c ∈ classAttr, isWhiteSpace c = false := by
  rw [classesOf_eq_splitOnP]
  have h := splitOnP_go_filter_ne_nil classAttr []
  simpa [List.splitOnP] using h

/-! ## Properties of `buildLocatorInfo` -/

theorem truthy_orElse (a b : Option JSString) :
    truthy (orElse a b) = (truthy a || truthy b) := by
  unfold orElse
  cases h : truthy a <;> simp [h]

theorem truthy_dataTestIdOf (d : ElementData) :
    truthy (dataTestIdOf d) =
      (truthy (d.getAttribute "data-testid".toList) ||
        truthy (d.getAttribute "data-test".toList) ||
        truthy (d.getAttribute "data-qa".toList)) := by
  unfold dataTestIdOf
  rw [truthy_orElse, truthy_orElse]

theorem classesOf_eq_nil_iff (classAttr : JSString) :
    classesOf classAttr = [] ↔ (classAttr.any fun c => !isWhiteSpace c) = false := by
  have h := classesOf_ne_nil_iff classAttr
  constructor
  · intro hnil
    by_contra hany
    have : ∃ c ∈ classAttr, isWhiteSpace c = false := by
      simpa using hany
    exact (h.mpr this) hnil
  · intro hany
    by_contra hne
    obtain ⟨c, hc, hw⟩ := h.mp hne
    have : (classAttr.any fun c => !isWhiteSpace c) = true :=
      List.any_eq_true.mpr ⟨c, hc, by simp [hw]⟩
    rw [hany] at this
    cases this

/-- Case analysis on a returned record: it is the record of one of the seven
branches, and `buildRelativeXPath` returned its `xpath`. -/
theorem returns_elim {motive : LocatorInfo → Prop} (el : Element) (info : LocatorInfo)
    (h : buildLocatorInfo el = some info)
    (hDataAutomation : ∀ x, buildRelativeXPath (some (.element el)) = some x →
      truthy (el.self.getAttribute "data-automation".toList) = true →
      motive
        { name := toFieldName (el.self.getAttribute "data-automation".toList)
            (some (elementTag el.self))
          strategy := "DATA_AUTOMATION".toList
          locatorValue := "[data-automation='".toList ++
            escapeSingleQuotes ((el.self.getAttribute "data-automation".toList).getD []) ++
            "']".toList
          tagName := elementTag el.self
          xpath := x })
    (hDataTestId : ∀ x, buildRelativeXPath (some (.element el)) = some x →
      truthy (el.self.getAttribute "data-automation".toList) = false →
      truthy (dataTestIdOf el.self) = true →
      motive
        { name := toFieldName (dataTestIdOf el.self) (some (elementTag el.self))
          strategy := "DATA_TESTID".toList
          locatorValue := "[data-testid='".toList ++
            escapeSingleQuotes ((dataTestIdOf el.self).getD []) ++ "']".toList
          tagName := elementTag el.self
          xpath := x })
    (hId : ∀ x, buildRelativeXPath (some (.element el)) = some x →
      truthy (el.self.getAttribute "data-automation".toList) = false →
      truthy (dataTestIdOf el.self) = false →
      truthy (el.self.getAttribute "id".toList) = true →
      motive
        { name := toFieldName (el.self.getAttribute "id".toList) (some (elementTag el.self))
          strategy := "ID".toList
          locatorValue := (el.self.getAttribute "id".toList).getD []
          tagName := elementTag el.self
          xpath := x })
    (hName : ∀ x, buildRelativeXPath (some (.element el)) = some x →
      truthy (el.self.getAttribute "data-automation".toList) = false →
      truthy (dataTestIdOf el.self) = false →
      truthy (el.self.getAttribute "id".toList) = false →
      truthy (el.self.getAttribute "name".toList) = true →
      motive
        { name := toFieldName (el.self.getAttribute "name".toList) (some (elementTag el.self))
          strategy := "NAME".toList
          locatorValue := (el.self.getAttribute "name".toList).getD []
          tagName := elementTag el.self
          xpath := x })
    (hClassName : ∀ x classAttr, buildRelativeXPath (some (.element el)) = some x →
      truthy (el.self.getAttribute "data-automation".toList) = false →
      truthy (dataTestIdOf el.self) = false →
      truthy (el.self.getAttribute "id".toList) = false →
      truthy (el.self.getAttribute "name".toList) = false →
      el.self.className = .string classAttr →
      classesOf classAttr ≠ [] →
      motive
        { name := toFieldName (some (join "_".toList (classesOf classAttr)))
            (some (elementTag el.self))
          strategy := "CLASS_NAME".toList
          locatorValue := elementTag el.self ++ ".".toList ++
            join ".".toList (classesOf classAttr)
          tagName := elementTag el.self
          xpath := x })
    (hCss : ∀ x classAttr, buildRelativeXPath (some (.element el)) = some x →
      truthy (el.self.getAttribute "data-automation".toList) = false →
      truthy (dataTestIdOf el.self) = false →
      truthy (el.self.getAttribute "id".toList) = false →
      truthy (el.self.getAttribute "name".toList) = false →
      el.self.className = .string classAttr →
      classesOf classAttr = [] →
      truthy (buildCssFallback (some (.element el))) = true →
      motive
        { name := toFieldName (some (elementTag el.self ++ "_element".toList))
            (some (elementTag el.self))
          strategy := "CSS".toList
          locatorValue := (buildCssFallback (some (.element el))).getD []
          tagName := elementTag el.self
          xpath := x })
    (hXPath : ∀ x classAttr, buildRelativeXPath (some (.element el)) = some x →
      truthy (el.self.getAttribute "data-automation".toList) = false →
      truthy (dataTestIdOf el.self) = false →
      truthy (el.self.getAttribute "id".toList) = false →
      truthy (el.self.getAttribute "name".toList) = false →
      el.self.className = .string classAttr →
      classesOf classAttr = [] →
      truthy (buildCssFallback (some (.element el))) = false →
      motive
        { name := toFieldName (some (elementTag el.self ++ "_element".toList))
            (some (elementTag el.self))
          strategy := "XPATH".toList
          locatorValue := x
          tagName := elementTag el.self
          xpath := x }) :
    motive info := by
  obtain ⟨x, hx⟩ := relativeXPath_of_returns el info h
  cases h1 : truthy (el.self.getAttribute "data-automation".toList) with
  | true =>
    rw [branch_dataAutomation el x hx h1] at h
    injection h with h
    subst h
    exact hDataAutomation x hx h1
  | false =>
    cases h2 : truthy (dataTestIdOf el.self) with
    | true =>
      rw [branch_dataTestId el x hx h1 h2] at h
      injection h with h
      subst h
      exact hDataTestId x hx h1 h2
    | false =>
      cases h3 : truthy (el.self.getAttribute "id".toList) with
      | true =>
        rw [branch_id el x hx h1 h2 h3] at h
        injection h with h
        subst h
        exact hId x hx h1 h2 h3
      | false =>
        cases h4 : truthy (el.self.getAttribute "name".toList) with
        | true =>
          rw [branch_name el x hx h1 h2 h3 h4] at h
          injection h with h
          subst h
          exact hName x hx h1 h2 h3 h4
        | false =>
          cases hc : el.self.className with
          | object text =>
            rw [raises_of_className el text h1 h2 h3 h4 hc] at h
            cases h
          | string classAttr =>
            by_cases h5 : classesOf classAttr = []
            · cases h6 : truthy (buildCssFallback (some (.element el))) with
              | true =>
                rw [branch_css el x classAttr hx h1 h2 h3 h4 hc h5 h6] at h
                injection h with h
                subst h
                exact hCss x classAttr hx h1 h2 h3 h4 hc h5 h6
              | false =>
                rw [branch_xpath el x classAttr hx h1 h2 h3 h4 hc h5 h6] at h
                injection h with h
                subst h
                exact hXPath x classAttr hx h1 h2 h3 h4 hc h5 h6
            · rw [branch_className el x classAttr hx h1 h2 h3 h4 hc h5] at h
              injection h with h
              subst h
              exact hClassName x classAttr hx h1 h2 h3 h4 hc h5

/-- The strategy of a record returned by `buildLocatorInfo` is the first available
one of `classListCandidates`. -/
theorem strategy_eq_firstAvailable (el : Element) (info : LocatorInfo)
    (h : buildLocatorInfo el = some info) :
    firstAvailable (classListCandidates el) = some info.strategy := by
  refine returns_elim
    (motive := fun i => firstAvailable (classListCandidates el) = some i.strategy)
    el info h ?_ ?_ ?_ ?_ ?_ ?_ ?_ <;>
    unfold firstAvailable classListCandidates <;> rw [← truthy_dataTestIdOf]
  · intro x _ h1
    rw [h1]; rfl
  · intro x _ h1 h2
    rw [h1, h2]; rfl
  · intro x _ h1 h2 h3
    rw [h1, h2, h3]; rfl
  · intro x _ h1 h2 h3 h4
    rw [h1, h2, h3, h4]; rfl
  · intro x classAttr _ h1 h2 h3 h4 hc h5
    rw [← className_eq_attribute _ _ hc]
    have hany : (classAttr.any fun c => !isWhiteSpace c) = true := by
      cases hb : (classAttr.any fun c => !isWhiteSpace c) with
      | true => rfl
      | false => exact absurd ((classesOf_eq_nil_iff _).mpr hb) h5
    rw [h1, h2, h3, h4, hany]; rfl
  · intro x classAttr _ h1 h2 h3 h4 hc h5 h6
    rw [← className_eq_attribute _ _ hc]
    rw [h1, h2, h3, h4, (classesOf_eq_nil_iff _).mp h5, h6]; rfl
  · intro x classAttr _ h1 h2 h3 h4 hc h5 h6
    rw [← className_eq_attribute _ _ hc]
    rw [h1, h2, h3, h4, (classesOf_eq_nil_iff _).mp h5, h6]; rfl

/-- C3 (amended): for every element node for which `buildLocatorInfo` returns a
record, the strategy of the record is the first one, in the fixed order
DATA_AUTOMATION, DATA_TESTID, ID, NAME, CLASS_NAME, CSS, XPATH, whose candidate is
available, where the candidate of CLASS_NAME is available when the `class` attribute
names at least one class (has a character that is not white space); no strategy of
lower priority is returned when a candidate of higher priority is available. -/
theorem buildLocatorInfo_priority (el : Element) (info : LocatorInfo)
    (hinfo : buildLocatorInfo el = some info) :
    firstAvailable (classListCandidates el) = some info.strategy ∧
      ∀ c ∈ classListCandidates el, c.2 = true →
        strategyRank info.strategy ≤ strategyRank c.1 := by
  have h := strategy_eq_firstAvailable el info hinfo
  refine ⟨h, ?_⟩
  generalize info.strategy = s at h ⊢
  unfold classListCandidates at h ⊢
  generalize truthy (el.self.getAttribute "data-automation".toList) = b1 at h ⊢
  generalize (truthy (el.self.getAttribute "data-testid".toList) ||
      truthy (el.self.getAttribute "data-test".toList) ||
      truthy (el.self.getAttribute "data-qa".toList)) = b2 at h ⊢
  generalize truthy (el.self.getAttribute "id".toList) = b3 at h ⊢
  generalize truthy (el.self.getAttribute "name".toList) = b4 at h ⊢
  generalize (((el.self.getAttribute "class".toList).getD []).any
    fun c => !isWhiteSpace c) = b5 at h ⊢
  generalize truthy (buildCssFallback (some (.element el))) = b6 at h ⊢
  cases b1 <;> cases b2 <;> cases b3 <;> cases b4 <;> cases b5 <;> cases b6 <;>
    simp only [firstAvailable, List.find?, Option.map, Option.some.injEq] at h <;>
    subst h <;> decide

/-- Witness of C3: the `div` of Scenario B, whose record has strategy CLASS_NAME. -/
theorem buildLocatorInfo_priority_witness :
    buildLocatorInfo scenarioB = some scenarioBInfo ∧
      firstAvailable (classListCandidates scenarioB) = some scenarioBInfo.strategy :=
  ⟨by decide, (buildLocatorInfo_priority scenarioB scenarioBInfo (by decide)).1⟩

/-- C3 (as stated, refuted): `<div class=" ">` has a non-empty `class` attribute, so the
first strategy with a non-empty candidate is CLASS_NAME, but `buildLocatorInfo`
returns a record with the lower-priority strategy CSS. -/
theorem buildLocatorInfo_blankClass_not_first :
    truthy (blankClassDiv.self.getAttribute "class".toList) = true ∧
      firstAvailable (statedCandidates blankClassDiv) = some "CLASS_NAME".toList ∧
      (buildLocatorInfo blankClassDiv).map (fun info => info.strategy) = some "CSS".toList ∧
      ¬ (∀ (el : Element) (info : LocatorInfo), buildLocatorInfo el = some info →
          firstAvailable (statedCandidates el) = some info.strategy) := by
  refine ⟨by decide, by decide, by decide, fun h => ?_⟩
  cases hb : buildLocatorInfo blankClassDiv with
  | none => exact absurd hb (by decide)
  | some info =>
    have hs : (buildLocatorInfo blankClassDiv).map (fun info => info.strategy) =
        some "CSS".toList := by decide
    rw [hb] at hs
    have hfirst := h blankClassDiv info hb
    have hstated : firstAvailable (statedCandidates blankClassDiv) =
        some "CLASS_NAME".toList := by decide
    rw [hstated] at hfirst
    injection hs with hs
    injection hfirst with hfirst
    have hs2 : info.strategy = "CSS".toList := hs
    rw [hs2] at hfirst
    exact absurd hfirst (by decide)

theorem getD_ne_nil_of_truthy (v : Option JSString) (h : truthy v = true) : v.getD [] ≠ [] := by
  obtain ⟨s, hs, hne⟩ := (truthy_eq_true_iff v).mp h
  subst hs
  exact hne

/-- A path returned for an element node is never the empty string. -/
theorem elementXPath_ne_nil (el : Element) (x : JSString) (h : elementXPath el = some x) :
    x ≠ [] := by
  unfold elementXPath at h
  split at h
  · split at h
    · cases h
    · injection h with h
      subst h
      simp
  · split at h
    · split at h
      · cases h
      · dsimp only at h
        split at h <;> (injection h with h; subst h; simp)
    · injection h with h
      subst h
      simp

/-- Every record returned by `buildLocatorInfo` has a non-empty `locatorValue` and a
non-empty `xpath`, and `xpath` is the result of `buildRelativeXPath` whatever strategy
was chosen. -/
theorem values_nonempty_of_returns (el : Element) (info : LocatorInfo)
    (h : buildLocatorInfo el = some info) :
    info.locatorValue ≠ [] ∧ info.xpath ≠ [] ∧
      buildRelativeXPath (some (.element el)) = some info.xpath := by
  have hx := xpath_eq_buildRelativeXPath el info h
  have hxne : info.xpath ≠ [] := elementXPath_ne_nil el info.xpath hx
  refine ⟨?_, hxne, hx⟩
  refine returns_elim (motive := fun i => i.locatorValue ≠ []) el info h ?_ ?_ ?_ ?_ ?_ ?_ ?_
  · intro x _ _
    simp
  · intro x _ _ _
    simp
  · intro x _ _ _ h3
    exact getD_ne_nil_of_truthy _ h3
  · intro x _ _ _ _ h4
    exact getD_ne_nil_of_truthy _ h4
  · intro x classAttr _ _ _ _ _ _ _
    simp
  · intro x classAttr _ _ _ _ _ _ _ h6
    exact getD_ne_nil_of_truthy _ h6
  · intro x classAttr hx2 _ _ _ _ _ _ _
    exact elementXPath_ne_nil el x hx2

/-- C4 (evaluation at the failing inputs): the attached, interactable element
`<svg class="icon" tabindex="0">` has a `className` that is an object, so
`classAttr.split` raises and `buildLocatorInfo` returns no record, although
`buildRelativeXPath` returns `//svg[1]`; the attached control `<input name="q">` of a
form with id `login` that owns a control named `id` gets no record either, because
`buildRelativeXPath` raises on the `id` of the form. -/
theorem attached_element_without_record :
    isInteractable (some (.element svgIcon)) = true ∧
      svgIcon.self.className = .object "[object SVGAnimatedString]".toList ∧
      buildRelativeXPath (some (.element svgIcon)) = some "//svg[1]".toList ∧
      buildLocatorInfo svgIcon = none ∧
      isInteractable (some (.element loginQuery)) = true ∧
      buildRelativeXPath (some (.element loginQuery)) = none ∧
      buildLocatorInfo loginQuery = none := by
  decide

/-- What the `data-automation` branch returns: for every element with a non-empty
`data-automation` value `v`, a record returned by `buildLocatorInfo` has strategy
DATA_AUTOMATION, the locator value `[data-automation='v']` with every single quote of
`v` preceded by a backslash, and the name `toFieldName(v, tag)`. -/
theorem dataAutomation_of_returns (el : Element) (info : LocatorInfo) (v : JSString)
    (h : buildLocatorInfo el = some info)
    (hattr : el.self.getAttribute "data-automation".toList = some v) (hv : v ≠ []) :
    info.strategy = "DATA_AUTOMATION".toList ∧
      info.locatorValue = "[data-automation='".toList ++ escapeSingleQuotes v ++ "']".toList ∧
      info.name = toFieldName (some v) (some (elementTag el.self)) := by
  have h1 : truthy (el.self.getAttribute "data-automation".toList) = true :=
    (truthy_eq_true_iff _).mpr ⟨v, hattr, hv⟩
  obtain ⟨x, hx⟩ := relativeXPath_of_returns el info h
  rw [branch_dataAutomation el x hx h1, hattr] at h
  injection h with h
  subst h
  dsimp only
  exact ⟨rfl, rfl, rfl⟩

/-- C7 (evaluation at the failing input): the button `<button data-automation="go">`
stands in a form with id `login` that owns a control named `id`.  The nearest
ancestor with an `id` attribute is the form, whose property `id` is that control, so
`buildRelativeXPath`, called before the first branch, raises and `buildLocatorInfo`
returns no record instead of strategy DATA_AUTOMATION.  The button of Scenario A gets
the record of the claim. -/
theorem dataAutomation_under_shadowed_form :
    loginGo.self.getAttribute "data-automation".toList = some "go".toList ∧
      loginGo.closestWithId.map (fun a => a.self) = some loginFormData ∧
      loginFormData.id = .object "[object HTMLInputElement]".toList ∧
      buildRelativeXPath (some (.element loginGo)) = none ∧
      buildLocatorInfo loginGo = none ∧
      buildLocatorInfo scenarioA = some scenarioAInfo := by
  decide

/-- What the class branch returns: for every element without data-automation,
test-id, id or name value whose `class` attribute splits on white space into the
non-empty list `c1 .. cn`, a record returned by `buildLocatorInfo` has strategy
CLASS_NAME, the locator value `tag.c1. ... .cn` and the name
`toFieldName(c1_ ... _cn, tag)`. -/
theorem className_of_returns (el : Element) (info : LocatorInfo) (classes : List JSString)
    (h : buildLocatorInfo el = some info)
    (h1 : truthy (el.self.getAttribute "data-automation".toList) = false)
    (h2a : truthy (el.self.getAttribute "data-testid".toList) = false)
    (h2b : truthy (el.self.getAttribute "data-test".toList) = false)
    (h2c : truthy (el.self.getAttribute "data-qa".toList) = false)
    (h3 : truthy (el.self.getAttribute "id".toList) = false)
    (h4 : truthy (el.self.getAttribute "name".toList) = false)
    (hsplit : (((el.self.getAttribute "class".toList).getD []).splitOnP isWhiteSpace).filter
      (fun c => !c.isEmpty) = classes)
    (hne : classes ≠ []) :
    info.strategy = "CLASS_NAME".toList ∧
      info.locatorValue = elementTag el.self ++ ".".toList ++ ".".toList.intercalate classes ∧
      info.name =
        toFieldName (some ("_".toList.intercalate classes)) (some (elementTag el.self)) := by
  have h2 : truthy (dataTestIdOf el.self) = false := by
    rw [truthy_dataTestIdOf, h2a, h2b, h2c]; rfl
  obtain ⟨x, hx⟩ := relativeXPath_of_returns el info h
  cases hc : el.self.className with
  | object text =>
    rw [raises_of_className el text h1 h2 h3 h4 hc] at h
    cases h
  | string classAttr =>
    have hcls : classesOf classAttr = classes := by
      rw [classesOf_eq_splitOnP, className_eq_attribute _ _ hc]; exact hsplit
    have h5 : classesOf classAttr ≠ [] := by rw [hcls]; exact hne
    rw [branch_className el x classAttr hx h1 h2 h3 h4 hc h5, hcls] at h
    injection h with h
    subst h
    dsimp only
    exact ⟨rfl, rfl, rfl⟩

/-- C8 (evaluation at the failing input): `<svg class="icon" tabindex="0">` has no
data-automation, test-id, id or name value and its `class` attribute splits into the
list `icon`, but its `className` is an object, `classAttr.split` raises, and
`buildLocatorInfo` returns no record instead of strategy CLASS_NAME with `svg.icon`.
The `div` of Scenario B gets the record of the claim. -/
theorem className_object_on_svg :
    truthy (svgIcon.self.getAttribute "data-automation".toList) = false ∧
      truthy (dataTestIdOf svgIcon.self) = false ∧
      truthy (svgIcon.self.getAttribute "id".toList) = false ∧
      truthy (svgIcon.self.getAttribute "name".toList) = false ∧
      (((svgIcon.self.getAttribute "class".toList).getD []).splitOnP isWhiteSpace).filter
        (fun c => !c.isEmpty) = ["icon".toList] ∧
      svgIcon.self.className = .object "[object SVGAnimatedString]".toList ∧
      buildLocatorInfo svgIcon = none ∧
      buildLocatorInfo scenarioB = some scenarioBInfo := by
  decide

/-- What holds of an element whose property `id` is a non-empty string `v`:
`buildRelativeXPath` returns `.//*[@id='v']` with every single quote of `v` preceded
by a backslash, whatever the ancestors and siblings of the element are. -/
theorem relativeXPath_of_string_id (el : Element) (v : JSString)
    (hid : el.self.id = .string v) (hv : v ≠ []) :
    buildRelativeXPath (some (.element el)) =
      some (".//*[@id='".toList ++ escapeSingleQuotes v ++ "']".toList) := by
  have hne : (!v.isEmpty) = true := by
    cases v with
    | nil => exact absurd rfl hv
    | cons a t => rfl
  simp only [buildRelativeXPath, elementXPath, hid, PropertyValue.truthy,
    PropertyValue.escapeSingleQuotes, hne, if_true]

/-- C9 (evaluation at the failing input): the element `<form id="login">` owns a
control named `id`, so its property `id` is that control and not the string `login`;
`el.id.replace` raises, and `buildRelativeXPath` and `buildLocatorInfo` return
nothing where the claim gives `.//*[@id='login']`.  The input of Scenario C gets the
record and the path of the claim. -/
theorem relativeXPath_raises_on_shadowed_id :
    loginForm.self.getAttribute "id".toList = some "login".toList ∧
      loginForm.self.id = .object "[object HTMLInputElement]".toList ∧
      buildRelativeXPath (some (.element loginForm)) = none ∧
      buildLocatorInfo loginForm = none ∧
      buildRelativeXPath (some (.element scenarioC)) = some ".//*[@id='loginEmail']".toList ∧
      buildLocatorInfo scenarioC = some scenarioCInfo := by
  decide

/-! ## The dedup loop -/

theorem firstOccurrences_append_singleton (infos : List LocatorInfo) (x : LocatorInfo) :
    firstOccurrences (infos ++ [x]) =
      firstOccurrences infos ++
        (if infos.all (fun q => decide (dedupKey q ≠ dedupKey x)) then [x] else []) := by
  unfold firstOccurrences
  rw [List.enum_append, List.filter_append, List.map_append, List.enumFrom_singleton]
  congr 1
  · congr 1
    apply List.filter_congr
    intro p hp
    have hle : p.1 ≤ infos.length := Nat.le_of_lt (List.fst_lt_of_mem_enum hp)
    rw [List.take_append_of_le_length hle]
  · simp only [List.filter_cons, List.take_left, List.filter_nil]
    split <;> rfl

theorem all_key_ne_iff (infos : List LocatorInfo) (k : JSString) :
    infos.all (fun q => decide (dedupKey q ≠ k)) = true ↔ k ∉ infos.map dedupKey := by
  simp only [List.all_eq_true, decide_eq_true_eq, List.mem_map, not_exists, not_and]

theorem mem_keys_firstOccurrences (infos : List LocatorInfo) (k : JSString) :
    k ∈ (firstOccurrences infos).map dedupKey ↔ k ∈ infos.map dedupKey := by
  induction infos using List.reverseRecOn with
  | nil => simp [firstOccurrences]
  | append_singleton l x ih =>
    rw [firstOccurrences_append_singleton, List.map_append, List.mem_append, ih,
      List.map_append, List.mem_append]
    by_cases hall : l.all (fun q => decide (dedupKey q ≠ dedupKey x)) = true
    · rw [if_pos hall]
    · rw [if_neg hall]
      have hmem : dedupKey x ∈ l.map dedupKey := by
        by_contra hc
        exact hall ((all_key_ne_iff l (dedupKey x)).mpr hc)
      constructor
      · intro h
        rcases h with h | h
        · exact Or.inl h
        · simp at h
      · intro h
        rcases h with h | h
        · exact Or.inl h
        · simp only [List.map_cons, List.map_nil, List.mem_singleton] at h
          rw [h]
          exact Or.inl hmem

theorem nodup_keys_firstOccurrences (infos : List LocatorInfo) :
    ((firstOccurrences infos).map dedupKey).Nodup := by
  induction infos using List.reverseRecOn with
  | nil => simp [firstOccurrences]
  | append_singleton l x ih =>
    rw [firstOccurrences_append_singleton, List.map_append]
    by_cases hall : l.all (fun q => decide (dedupKey q ≠ dedupKey x)) = true
    · rw [if_pos hall]
      have hnot : dedupKey x ∉ (firstOccurrences l).map dedupKey := by
        rw [mem_keys_firstOccurrences]
        exact (all_key_ne_iff l (dedupKey x)).mp hall
      rw [List.nodup_append]
      refine ⟨ih, by simp, ?_⟩
      intro k hk hk'
      simp only [List.map_cons, List.map_nil, List.mem_singleton] at hk'
      rw [hk'] at hk
      exact hnot hk
    · rw [if_neg hall]
      simpa using ih

theorem uniqueMap_has_iff (m : UniqueMap) (k : JSString) :
    m.has k = true ↔ k ∈ m.map Prod.fst := by
  unfold UniqueMap.has
  simp only [List.any_eq_true, decide_eq_true_eq, List.mem_map]

/-- The map built by the loop holds the first occurrences among the records of the
elements whose resolution returns, in order, each under its key. -/
theorem dedupLoop_eq (els : List Element) :
    els.foldl dedupStep [] =
      (firstOccurrences (els.filterMap buildLocatorInfo)).map fun i => (dedupKey i, i) := by
  induction els using List.reverseRecOn with
  | nil => rfl
  | append_singleton l x ih =>
    rw [List.foldl_append, List.foldl_cons, List.foldl_nil, ih, List.filterMap_append]
    cases hx : buildLocatorInfo x with
    | none =>
      have hskip : [x].filterMap buildLocatorInfo = [] := by
        simp only [List.filterMap_cons, hx, List.filterMap_nil]
      rw [hskip, List.append_nil]
      simp only [dedupStep, hx]
    | some info =>
      have hkeep : [x].filterMap buildLocatorInfo = [info] := by
        simp only [List.filterMap_cons, hx, List.filterMap_nil]
      rw [hkeep, firstOccurrences_append_singleton]
      have hkeys : ((firstOccurrences (l.filterMap buildLocatorInfo)).map
          fun i => (dedupKey i, i)).map Prod.fst =
          (firstOccurrences (l.filterMap buildLocatorInfo)).map dedupKey := by
        rw [List.map_map]
        rfl
      by_cases hall : (l.filterMap buildLocatorInfo).all
          (fun q => decide (dedupKey q ≠ dedupKey info)) = true
      · have hhas : UniqueMap.has ((firstOccurrences (l.filterMap buildLocatorInfo)).map
            fun i => (dedupKey i, i)) (dedupKey info) = false := by
          rw [← Bool.not_eq_true, uniqueMap_has_iff, hkeys, mem_keys_firstOccurrences]
          exact (all_key_ne_iff _ _).mp hall
        rw [if_pos hall]
        simp only [dedupStep, hx, UniqueMap.set, hhas, Bool.not_false, if_true,
          Bool.false_eq_true, if_false, List.map_append, List.map_cons, List.map_nil]
      · have hhas : UniqueMap.has ((firstOccurrences (l.filterMap buildLocatorInfo)).map
            fun i => (dedupKey i, i)) (dedupKey info) = true := by
          rw [uniqueMap_has_iff, hkeys, mem_keys_firstOccurrences]
          by_contra hc
          exact hall ((all_key_ne_iff _ _).mpr hc)
        rw [if_neg hall]
        simp only [dedupStep, hx, hhas, Bool.not_true, Bool.false_eq_true, if_false,
          List.append_nil]

/-- C5: in `generatePageObject` the records that become fields have pairwise distinct
dedup keys, their number is the number of distinct dedup keys among the resolved
elements (the interactable elements whose resolution does not raise; the others are
skipped by the `catch` block), and they are exactly the first occurrences of each key
in input order: a later element with a key already seen is dropped and never replaces
the first. -/
theorem locatorInfos_first_occurrences (raw : List Element) :
    ((locatorInfos raw).map dedupKey).Nodup ∧
      (locatorInfos raw).length = ((resolvedInfos raw).map dedupKey).toFinset.card ∧
      locatorInfos raw = firstOccurrences (resolvedInfos raw) := by
  have heq : locatorInfos raw = firstOccurrences (resolvedInfos raw) := by
    unfold locatorInfos resolvedInfos
    simp only [dedupLoop_eq, List.map_map]
    exact List.map_id _
  have hnodup := nodup_keys_firstOccurrences (resolvedInfos raw)
  refine ⟨by rw [heq]; exact hnodup, ?_, heq⟩
  rw [heq, ← List.length_map (firstOccurrences (resolvedInfos raw)) dedupKey,
    ← List.toFinset_card_of_nodup hnodup]
  congr 1
  apply List.toFinset.ext
  intro k
  exact mem_keys_firstOccurrences _ k

/-- The loop skips the elements whose resolution raises: of the interactable elements
`<svg class="icon" tabindex="0">`, the button of Scenario A and the same button
again, one record becomes a field. -/
theorem locatorInfos_skips_raising :
    locatorInfos [svgIcon] = [] ∧ resolvedInfos [svgIcon] = [] ∧
      locatorInfos [svgIcon, scenarioA, loginQuery, scenarioA] = [scenarioAInfo] ∧
      resolvedInfos [svgIcon, scenarioA, loginQuery, scenarioA] =
        [scenarioAInfo, scenarioAInfo] := by
  decide
/-! ## Escaping in the emitters -/

theorem escapeForLiteral_cons (c : Char) (s : JSString) :
    escapeForLiteral (c :: s) =
      (if c = backslashChar then [backslashChar, backslashChar]
        else if c = dquoteChar then [backslashChar, dquoteChar] else [c]) ++
        escapeForLiteral s := by
  unfold escapeForLiteral doubleBackslashes escapeDoubleQuotes
  by_cases hb : c = backslashChar
  · subst hb
    simp [List.flatMap_cons, backslashChar, dquoteChar]
  · by_cases hq : c = dquoteChar
    · subst hq
      simp [List.flatMap_cons, backslashChar, dquoteChar]
    · simp [List.flatMap_cons, hb, hq]

theorem wellEscaped_cons_of_ne (c : Char) (rest : JSString) (hb : c ≠ backslashChar) :
    wellEscaped (c :: rest) = (c != dquoteChar && wellEscaped rest) := by
  cases rest <;> simp [wellEscaped, hb]

/-- The value escaped by `buildFindByAnnotation` and `toGroovy` can stand between
double quotes: it has no double quote outside an escape pair and no lone backslash. -/
theorem escapeForLiteral_wellEscaped (s : JSString) : wellEscaped (escapeForLiteral s) = true := by
  induction s with
  | nil => rfl
  | cons c t ih =>
    rw [escapeForLiteral_cons]
    by_cases hb : c = backslashChar
    · simp [hb, wellEscaped, ih]
    · by_cases hq : c = dquoteChar
      · simp [hb, hq, wellEscaped, ih]
      · simp [hb, hq, wellEscaped_cons_of_ne, ih]

/-- C10 (evaluation at the failing inputs): for `<input name='a"b'>` the record has
strategy NAME and value `a"b`; `buildFindByAnnotation` and `toGroovy` put `a\"b`
between the double quotes, but `toPlaywright` emits
`page.locator("[name='a"b']");`, where the double quote of the value is not escaped.
For `<div id="a\b">` (strategy ID) `toPlaywright` puts `#a\b` between the quotes,
with the backslash not doubled. -/
theorem toPlaywright_not_escaped :
    (buildLocatorInfo quotedNameInput).map (fun info => info.strategy) = some "NAME".toList ∧
      (buildLocatorInfo quotedNameInput).map (fun info => info.locatorValue) =
        some ['a', dquoteChar, 'b'] ∧
      (buildLocatorInfo quotedNameInput).map buildFindByAnnotation =
        some ("@FindBy(name = ".toList ++ [dquoteChar] ++
          ['a', backslashChar, dquoteChar, 'b'] ++ [dquoteChar] ++ ")".toList) ∧
      (buildLocatorInfo quotedNameInput).map toGroovy =
        some (groovyHeader ++ "$(By.name(".toList ++ [dquoteChar] ++
          ['a', backslashChar, dquoteChar, 'b'] ++ [dquoteChar] ++ "))".toList) ∧
      (buildLocatorInfo quotedNameInput).map toPlaywright =
        some (playwrightHeader ++ "page.locator(".toList ++ [dquoteChar] ++
          ("[name='a".toList ++ [dquoteChar] ++ "b']".toList) ++ [dquoteChar] ++
          ");".toList) ∧
      (buildLocatorInfo quotedNameInput).map (fun info => wellEscaped (playwrightSelector info)) =
        some false ∧
      (buildLocatorInfo backslashIdDiv).map (fun info => info.strategy) = some "ID".toList ∧
      (buildLocatorInfo backslashIdDiv).map playwrightSelector =
        some ['#', 'a', backslashChar, 'b'] ∧
      (buildLocatorInfo backslashIdDiv).map (fun info => wellEscaped (playwrightSelector info)) =
        some false := by
  decide

/-! ## The snippets of the emitters -/

/-- C11: `buildFindByAnnotation` and `toGroovy` group the strategies in the same way and
embed the same value `v`, the locator value with backslashes doubled and then double
quotes escaped: ID gives `@FindBy(id = "v")` and `$(By.id("v"))`, NAME gives
`@FindBy(name = "v")` and `$(By.name("v"))`, each of DATA_AUTOMATION, DATA_TESTID,
CLASS_NAME, CSS gives `@FindBy(css = "v")` and `$(By.cssSelector("v"))`, and XPATH or
any other strategy gives `@FindBy(xpath = "v")` and `$(By.xpath("v"))`; the Groovy
call follows the comment line `// Groovy (Selenide)`. -/
theorem annotation_groovy_same_grouping (info : LocatorInfo) :
    (info.strategy = "ID".toList →
      buildFindByAnnotation info =
          "@FindBy(id = ".toList ++ [dquoteChar] ++ escapeForLiteral info.locatorValue ++
            [dquoteChar] ++ ")".toList ∧
        toGroovy info =
          "// Groovy (Selenide)".toList ++ [Char.ofNat 10] ++
            ("$(By.id(".toList ++ [dquoteChar] ++ escapeForLiteral info.locatorValue ++
              [dquoteChar] ++ "))".toList)) ∧
    (info.strategy = "NAME".toList →
      buildFindByAnnotation info =
          "@FindBy(name = ".toList ++ [dquoteChar] ++ escapeForLiteral info.locatorValue ++
            [dquoteChar] ++ ")".toList ∧
        toGroovy info =
          "// Groovy (Selenide)".toList ++ [Char.ofNat 10] ++
            ("$(By.name(".toList ++ [dquoteChar] ++ escapeForLiteral info.locatorValue ++
              [dquoteChar] ++ "))".toList)) ∧
    (info.strategy ∈ ["DATA_AUTOMATION".toList, "DATA_TESTID".toList, "CLASS_NAME".toList,
        "CSS".toList] →
      buildFindByAnnotation info =
          "@FindBy(css = ".toList ++ [dquoteChar] ++ escapeForLiteral info.locatorValue ++
            [dquoteChar] ++ ")".toList ∧
        toGroovy info =
          "// Groovy (Selenide)".toList ++ [Char.ofNat 10] ++
            ("$(By.cssSelector(".toList ++ [dquoteChar] ++ escapeForLiteral info.locatorValue ++
              [dquoteChar] ++ "))".toList)) ∧
    (info.strategy ∉ ["ID".toList, "NAME".toList, "DATA_AUTOMATION".toList,
        "DATA_TESTID".toList, "CLASS_NAME".toList, "CSS".toList] →
      buildFindByAnnotation info =
          "@FindBy(xpath = ".toList ++ [dquoteChar] ++ escapeForLiteral info.locatorValue ++
            [dquoteChar] ++ ")".toList ∧
        toGroovy info =
          "// Groovy (Selenide)".toList ++ [Char.ofNat 10] ++
            ("$(By.xpath(".toList ++ [dquoteChar] ++ escapeForLiteral info.locatorValue ++
              [dquoteChar] ++ "))".toList)) := by
  obtain ⟨name, strategy, locatorValue, tagName, xpath⟩ := info
  dsimp only
  refine ⟨?_, ?_, ?_, ?_⟩
  · intro h
    subst h
    exact ⟨rfl, rfl⟩
  · intro h
    subst h
    exact ⟨rfl, rfl⟩
  · intro h
    simp only [List.mem_cons, List.mem_singleton, List.not_mem_nil, or_false] at h
    rcases h with h | h | h | h <;> subst h <;> exact ⟨rfl, rfl⟩
  · intro h
    simp only [List.mem_cons, List.mem_singleton, List.not_mem_nil, or_false, not_or] at h
    obtain ⟨h1, h2, h3, h4, h5, h6⟩ := h
    simp only [toGroovy, buildFindByAnnotation, quotedCall, groovyHeader, h1, h2, h3, h4, h5, h6,
      if_false, decide_False, Bool.or_false, Bool.false_eq_true, and_self]

theorem escapeForLiteral_xpath_marker (v : JSString) :
    escapeForLiteral ("xpath=".toList ++ v) = "xpath=".toList ++ escapeForLiteral v := by
  simp [escapeForLiteral, doubleBackslashes, escapeDoubleQuotes, List.flatMap_cons,
    backslashChar, dquoteChar]

/-- C12 (amended): `toPlaywright` chooses its selector by strategy: ID gives `#` followed
by the locator value with a backslash put before every double quote and then before
every space; NAME gives `[name='value']` with a backslash put before every single
quote of the value; each of DATA_AUTOMATION, DATA_TESTID, CLASS_NAME, CSS gives the
value with backslashes doubled and double quotes escaped; XPATH or any other strategy
gives `xpath=` followed by the value escaped in that way.  In every case the output
is the comment line `// Playwright (TS/JS)` followed by the single statement
`page.locator("<selector>");`. -/
theorem playwright_selector_by_strategy (info : LocatorInfo) :
    (info.strategy = "ID".toList →
      playwrightSelector info =
        "#".toList ++ escapeSpaces (escapeDoubleQuotes info.locatorValue)) ∧
    (info.strategy = "NAME".toList →
      playwrightSelector info =
        "[name='".toList ++ escapeSingleQuotes info.locatorValue ++ "']".toList) ∧
    (info.strategy ∈ ["DATA_AUTOMATION".toList, "DATA_TESTID".toList, "CLASS_NAME".toList,
        "CSS".toList] →
      playwrightSelector info = escapeForLiteral info.locatorValue) ∧
    (info.strategy ∉ ["ID".toList, "NAME".toList, "DATA_AUTOMATION".toList,
        "DATA_TESTID".toList, "CLASS_NAME".toList, "CSS".toList] →
      playwrightSelector info = "xpath=".toList ++ escapeForLiteral info.locatorValue) ∧
    toPlaywright info =
      "// Playwright (TS/JS)".toList ++ [Char.ofNat 10] ++
        ("page.locator(".toList ++ [dquoteChar] ++ playwrightSelector info ++ [dquoteChar] ++
          ");".toList) := by
  obtain ⟨name, strategy, locatorValue, tagName, xpath⟩ := info
  dsimp only
  refine ⟨?_, ?_, ?_, ?_, rfl⟩
  · intro h
    subst h
    rfl
  · intro h
    subst h
    rfl
  · intro h
    simp only [List.mem_cons, List.mem_singleton, List.not_mem_nil, or_false] at h
    rcases h with h | h | h | h <;> subst h <;> rfl
  · intro h
    simp only [List.mem_cons, List.mem_singleton, List.not_mem_nil, or_false, not_or] at h
    obtain ⟨h1, h2, h3, h4, h5, h6⟩ := h
    simp only [playwrightSelector, h1, h2, h3, h4, h5, h6, if_false, decide_False,
      Bool.or_false, Bool.false_eq_true, escapeForLiteral_xpath_marker]

/-- C12 (as stated, refuted): for `<div id='a"b'>` (strategy ID) the selector is
`#a\"b`, not the value with only its spaces escaped, `#a"b`; for `<input name="a'b">`
(strategy NAME) the selector is `[name='a\'b']`, not `[name='a'b']`. -/
theorem playwright_selector_not_as_stated :
    (buildLocatorInfo quotedIdDiv).map (fun info => info.strategy) = some "ID".toList ∧
      (buildLocatorInfo quotedIdDiv).map playwrightSelector =
        some ['#', 'a', backslashChar, dquoteChar, 'b'] ∧
      (buildLocatorInfo quotedIdDiv).map statedPlaywrightSelector =
        some ['#', 'a', dquoteChar, 'b'] ∧
      (buildLocatorInfo apostropheNameInput).map (fun info => info.strategy) =
        some "NAME".toList ∧
      (buildLocatorInfo apostropheNameInput).map playwrightSelector =
        some ("[name='a".toList ++ [backslashChar, quoteChar] ++ "b']".toList) ∧
      (buildLocatorInfo apostropheNameInput).map statedPlaywrightSelector =
        some ("[name='a".toList ++ [quoteChar] ++ "b']".toList) ∧
      ¬ (∀ info : LocatorInfo, playwrightSelector info = statedPlaywrightSelector info) := by
  refine ⟨by decide, by decide, by decide, by decide, by decide, by decide, fun h => ?_⟩
  cases hb : buildLocatorInfo quotedIdDiv with
  | none => exact absurd hb (by decide)
  | some info =>
    have h1 : (buildLocatorInfo quotedIdDiv).map playwrightSelector =
        some ['#', 'a', backslashChar, dquoteChar, 'b'] := by decide
    have h2 : (buildLocatorInfo quotedIdDiv).map statedPlaywrightSelector =
        some ['#', 'a', dquoteChar, 'b'] := by decide
    rw [hb] at h1 h2
    injection h1 with h1
    injection h2 with h2
    have h3 : playwrightSelector info = ['#', 'a', backslashChar, dquoteChar, 'b'] := h1
    have h4 : statedPlaywrightSelector info = ['#', 'a', dquoteChar, 'b'] := h2
    rw [h info, h4] at h3
    exact absurd h3 (by decide)

/-! ## Escaping is lossless -/

theorem unescapeLiteral_cons_of_ne (c : Char) (rest : JSString) (hb : c ≠ backslashChar) :
    unescapeLiteral (c :: rest) = c :: unescapeLiteral rest := by
  cases rest with
  | nil => rfl
  | cons d t => simp [unescapeLiteral, hb]

theorem unescapeLiteral_escapeForLiteral (v : JSString) :
    unescapeLiteral (escapeForLiteral v) = v := by
  induction v with
  | nil => rfl
  | cons c t ih =>
    rw [escapeForLiteral_cons]
    by_cases hb : c = backslashChar
    · simp [hb, unescapeLiteral, ih]
    · by_cases hq : c = dquoteChar
      · have hbq : dquoteChar ≠ backslashChar := by decide
        simp [hq, hbq, unescapeLiteral, ih]
      · simp [hb, hq, unescapeLiteral_cons_of_ne, ih]

theorem escapeForLiteral_append (u v : JSString) :
    escapeForLiteral (u ++ v) = escapeForLiteral u ++ escapeForLiteral v := by
  simp [escapeForLiteral, doubleBackslashes, escapeDoubleQuotes, List.flatMap_append]

theorem trailingBackslashes_append_backslash (s : JSString) :
    trailingBackslashes (s ++ [backslashChar]) = trailingBackslashes s + 1 := by
  simp [trailingBackslashes, List.takeWhile_cons]

theorem trailingBackslashes_append_other (s : JSString) (c : Char) (hc : c ≠ backslashChar) :
    trailingBackslashes (s ++ [c]) = 0 := by
  simp [trailingBackslashes, List.takeWhile_cons, hc]

theorem append_singleton_eq_split (s pre post : JSString) (c q : Char)
    (h : s ++ [c] = pre ++ q :: post) :
    (post = [] ∧ c = q ∧ pre = s) ∨ ∃ post', post = post' ++ [c] ∧ s = pre ++ q :: post' := by
  rcases List.eq_nil_or_concat post with hp | ⟨post', d, hp⟩
  · subst hp
    left
    have h' : s ++ [c] = pre ++ [q] := h
    have := List.append_inj' h' rfl
    exact ⟨rfl, by simpa using this.2, this.1.symm⟩
  · rw [List.concat_eq_append] at hp
    subst hp
    right
    have h' : s ++ [c] = (pre ++ q :: post') ++ [d] := by
      rw [h]; simp
    have := List.append_inj' h' rfl
    have hd : c = d := by simpa using this.2
    exact ⟨post', by rw [hd], this.1⟩

/-- In the escaped text the backslashes at the end are even in number and every
double quote follows an odd number of backslashes. -/
theorem escapeForLiteral_quotes_guarded (v : JSString) :
    Even (trailingBackslashes (escapeForLiteral v)) ∧
      ∀ pre post, escapeForLiteral v = pre ++ dquoteChar :: post →
        Odd (trailingBackslashes pre) := by
  have hbq : dquoteChar ≠ backslashChar := by decide
  induction v using List.reverseRecOn with
  | nil =>
    refine ⟨by decide, ?_⟩
    intro pre post h
    have : ([] : JSString) = pre ++ dquoteChar :: post := h
    simp at this
  | append_singleton t c ih =>
    obtain ⟨heven, hq⟩ := ih
    rw [escapeForLiteral_append]
    have hone : escapeForLiteral [c] =
        if c = backslashChar then [backslashChar, backslashChar]
        else if c = dquoteChar then [backslashChar, dquoteChar] else [c] := by
      rw [escapeForLiteral_cons]
      simp [escapeForLiteral, doubleBackslashes, escapeDoubleQuotes]
    rw [hone]
    by_cases hb : c = backslashChar
    · rw [if_pos hb]
      have happ : escapeForLiteral t ++ [backslashChar, backslashChar] =
          (escapeForLiteral t ++ [backslashChar]) ++ [backslashChar] := by simp
      rw [happ]
      refine ⟨?_, ?_⟩
      · rw [trailingBackslashes_append_backslash, trailingBackslashes_append_backslash]
        exact Even.add heven (by decide : Even 2) |> fun h => by simpa [Nat.add_assoc] using h
      · intro pre post h
        rcases append_singleton_eq_split _ pre post _ _ h with ⟨_, h1, _⟩ | ⟨post', _, h2⟩
        · exact absurd h1.symm hbq
        · rcases append_singleton_eq_split _ pre post' _ _ h2 with ⟨_, h1, _⟩ | ⟨post'', _, h3⟩
          · exact absurd h1.symm hbq
          · exact hq pre post'' h3
    · rw [if_neg hb]
      by_cases hd : c = dquoteChar
      · rw [if_pos hd]
        have happ : escapeForLiteral t ++ [backslashChar, dquoteChar] =
            (escapeForLiteral t ++ [backslashChar]) ++ [dquoteChar] := by simp
        rw [happ]
        refine ⟨?_, ?_⟩
        · rw [trailingBackslashes_append_other _ _ hbq]
          decide
        · intro pre post h
          rcases append_singleton_eq_split _ pre post _ _ h with ⟨_, _, h1⟩ | ⟨post', _, h2⟩
          · rw [h1, trailingBackslashes_append_backslash]
            exact Even.add_one heven
          · rcases append_singleton_eq_split _ pre post' _ _ h2 with ⟨_, h1, _⟩ | ⟨post'', _, h3⟩
            · exact absurd h1.symm hbq
            · exact hq pre post'' h3
      · rw [if_neg hd]
        refine ⟨?_, ?_⟩
        · rw [trailingBackslashes_append_other _ _ hb]
          decide
        · intro pre post h
          rcases append_singleton_eq_split _ pre post _ _ h with ⟨_, h1, _⟩ | ⟨post', _, h2⟩
          · exact absurd h1 hd
          · exact hq pre post' h2

/-- C17: the escaping of `buildFindByAnnotation` and `toGroovy` is lossless: decoding
the escaped value by the rules backslash-backslash to backslash and backslash-quote
to quote gives the value back, so the escaping is injective; and no double quote
of the escaped text follows an even number of backslashes. -/
theorem escapeForLiteral_lossless :
    (∀ v : JSString, unescapeLiteral (escapeForLiteral v) = v) ∧
      Function.Injective escapeForLiteral ∧
      (∀ v pre post : JSString, escapeForLiteral v = pre ++ dquoteChar :: post →
        ¬ Even (trailingBackslashes pre)) := by
  refine ⟨unescapeLiteral_escapeForLiteral, ?_, ?_⟩
  · exact Function.LeftInverse.injective unescapeLiteral_escapeForLiteral
  · intro v pre post h
    rw [Nat.not_even_iff_odd]
    exact (escapeForLiteral_quotes_guarded v).2 pre post h

/-! ## The test-id branch and the fallback branches -/

theorem firstNonEmpty_eq_orElse (a b c : Option JSString)
    (h : truthy (orElse (orElse a b) c) = true) :
    firstNonEmpty [a, b, c] = orElse (orElse a b) c := by
  rcases a with _ | _ | ⟨x, xs⟩ <;> rcases b with _ | _ | ⟨y, ys⟩ <;>
    rcases c with _ | _ | ⟨z, zs⟩ <;>
    simp_all [orElse, truthy, firstNonEmpty]

/-- C20: when `buildLocatorInfo` chooses DATA_TESTID, the matched value `v` is the first
non-empty one of the attributes `data-testid`, `data-test`, `data-qa`, in that order;
the name is `toFieldName(v, tag)` and the locator value is `[data-testid='v']` with a
backslash before every single quote of `v`: the selector names `data-testid` also
when `v` comes from `data-test` or `data-qa`. -/
theorem buildLocatorInfo_dataTestId (el : Element) (info : LocatorInfo)
    (hinfo : buildLocatorInfo el = some info)
    (h : info.strategy = "DATA_TESTID".toList) :
    ∃ v : JSString,
      firstNonEmpty [el.self.getAttribute "data-testid".toList,
          el.self.getAttribute "data-test".toList, el.self.getAttribute "data-qa".toList] =
        some v ∧
      v ≠ [] ∧
      info.name = toFieldName (some v) (some (elementTag el.self)) ∧
      info.locatorValue = "[data-testid='".toList ++ escapeSingleQuotes v ++ "']".toList := by
  revert h
  refine returns_elim
    (motive := fun i => i.strategy = "DATA_TESTID".toList →
      ∃ v : JSString,
        firstNonEmpty [el.self.getAttribute "data-testid".toList,
            el.self.getAttribute "data-test".toList, el.self.getAttribute "data-qa".toList] =
          some v ∧
        v ≠ [] ∧
        i.name = toFieldName (some v) (some (elementTag el.self)) ∧
        i.locatorValue = "[data-testid='".toList ++ escapeSingleQuotes v ++ "']".toList)
    el info hinfo ?_ ?_ ?_ ?_ ?_ ?_ ?_
  · intro x _ _ h
    dsimp only at h
    exact absurd h (by decide)
  · intro x _ _ h2 _
    obtain ⟨v, hv, hne⟩ := (truthy_eq_true_iff _).mp h2
    refine ⟨v, ?_, hne, ?_, ?_⟩
    · have := firstNonEmpty_eq_orElse (el.self.getAttribute "data-testid".toList)
        (el.self.getAttribute "data-test".toList) (el.self.getAttribute "data-qa".toList) h2
      rw [this]
      exact hv
    · dsimp only
      rw [hv]
    · dsimp only
      rw [hv]
      rfl
  · intro x _ _ _ _ h
    dsimp only at h
    exact absurd h (by decide)
  · intro x _ _ _ _ _ h
    dsimp only at h
    exact absurd h (by decide)
  · intro x classAttr _ _ _ _ _ _ _ h
    dsimp only at h
    exact absurd h (by decide)
  · intro x classAttr _ _ _ _ _ _ _ _ h
    dsimp only at h
    exact absurd h (by decide)
  · intro x classAttr _ _ _ _ _ _ _ _ h
    dsimp only at h
    exact absurd h (by decide)

/-- Witness of C20: `<button data-qa="save">` resolves to `[data-testid='save']`. -/
theorem buildLocatorInfo_dataTestId_witness :
    buildLocatorInfo qaButton = some qaButtonInfo ∧
      qaButtonInfo.strategy = "DATA_TESTID".toList ∧
      ∃ v : JSString,
        firstNonEmpty [qaButton.self.getAttribute "data-testid".toList,
            qaButton.self.getAttribute "data-test".toList,
            qaButton.self.getAttribute "data-qa".toList] = some v ∧
        v ≠ [] ∧
        qaButtonInfo.name = toFieldName (some v) (some (elementTag qaButton.self)) ∧
        qaButtonInfo.locatorValue =
          "[data-testid='".toList ++ escapeSingleQuotes v ++ "']".toList :=
  ⟨by decide, by decide,
    buildLocatorInfo_dataTestId qaButton qaButtonInfo (by decide) (by decide)⟩

theorem cssFallbackLoop_suffix (ancs : List Level) :
    ∀ (cur : ElementData) (path : JSString), path <:+ cssFallbackLoop cur ancs path := by
  induction ancs with
  | nil => intro cur path; exact List.suffix_refl path
  | cons l ls ih =>
    intro cur path
    unfold cssFallbackLoop
    split
    · exact List.suffix_refl path
    · dsimp only
      split
      · exact (List.suffix_append _ path).trans (List.suffix_append _ _)
      · refine List.IsSuffix.trans ?_ (ih l.parent _)
        exact List.suffix_append _ _

/-- For every element node (its tag name, as in the DOM, is not empty)
`buildCssFallback` returns a non-empty string that ends with the lower-cased tag
name. -/
theorem buildCssFallback_ne_nil (el : Element) (htag : el.self.tagName ≠ []) :
    ∃ s : JSString, buildCssFallback (some (.element el)) = some s ∧ s ≠ [] ∧
      toLowerCase el.self.tagName <:+ s := by
  have hlow : toLowerCase el.self.tagName ≠ [] := toLowerCase_ne_nil _ htag
  have hsuf := cssFallbackLoop_suffix el.ancestors el.self (toLowerCase el.self.tagName)
  have hne : cssFallbackLoop el.self el.ancestors (toLowerCase el.self.tagName) ≠ [] := by
    intro hnil
    rw [hnil] at hsuf
    exact hlow (List.suffix_nil.mp hsuf)
  exact ⟨_, rfl, hne, hsuf⟩

/-- The record returned for an element node never has strategy XPATH, and the
record returned for an element without data-automation, test-id, id and name value
and without a class has strategy CSS. -/
theorem never_xpath_of_returns (el : Element) (info : LocatorInfo)
    (htag : el.self.tagName ≠ []) (hinfo : buildLocatorInfo el = some info) :
    info.strategy ≠ "XPATH".toList ∧
      (truthy (el.self.getAttribute "data-automation".toList) = false →
        truthy (dataTestIdOf el.self) = false →
        truthy (el.self.getAttribute "id".toList) = false →
        truthy (el.self.getAttribute "name".toList) = false →
        classesOf ((el.self.getAttribute "class".toList).getD []) = [] →
        info.strategy = "CSS".toList) := by
  obtain ⟨s, hs, hne, _⟩ := buildCssFallback_ne_nil el htag
  have hcss : truthy (buildCssFallback (some (.element el))) = true :=
    (truthy_eq_true_iff _).mpr ⟨s, hs, hne⟩
  refine returns_elim
    (motive := fun i => i.strategy ≠ "XPATH".toList ∧
      (truthy (el.self.getAttribute "data-automation".toList) = false →
        truthy (dataTestIdOf el.self) = false →
        truthy (el.self.getAttribute "id".toList) = false →
        truthy (el.self.getAttribute "name".toList) = false →
        classesOf ((el.self.getAttribute "class".toList).getD []) = [] →
        i.strategy = "CSS".toList))
    el info hinfo ?_ ?_ ?_ ?_ ?_ ?_ ?_
  · intro x _ h1
    refine ⟨by dsimp only; decide, fun g1 _ _ _ _ => ?_⟩
    rw [h1] at g1
    cases g1
  · intro x _ _ h2
    refine ⟨by dsimp only; decide, fun _ g2 _ _ _ => ?_⟩
    rw [h2] at g2
    cases g2
  · intro x _ _ _ h3
    refine ⟨by dsimp only; decide, fun _ _ g3 _ _ => ?_⟩
    rw [h3] at g3
    cases g3
  · intro x _ _ _ _ h4
    refine ⟨by dsimp only; decide, fun _ _ _ g4 _ => ?_⟩
    rw [h4] at g4
    cases g4
  · intro x classAttr _ _ _ _ _ hc h5
    refine ⟨by dsimp only; decide, fun _ _ _ _ g5 => ?_⟩
    rw [← className_eq_attribute _ _ hc] at g5
    exact absurd g5 h5
  · intro x classAttr _ _ _ _ _ _ _ _
    exact ⟨by dsimp only; decide, fun _ _ _ _ _ => rfl⟩
  · intro x classAttr _ _ _ _ _ _ _ h6
    rw [hcss] at h6
    cases h6

/-- C19 (evaluation at the failing input): the element `<svg>` has no attribute at
all and `buildCssFallback` returns the non-empty string `svg:nth-of-type(1) > svg`
for it, but its `className` is an object, `classAttr.split` raises before the CSS
branch, and `buildLocatorInfo` returns no record instead of strategy CSS.  A `div`
without attributes resolves to strategy CSS. -/
theorem attributeless_svg_not_css :
    plainSvg.self.attributes = [] ∧
      buildCssFallback (some (.element plainSvg)) = some "svg:nth-of-type(1) > svg".toList ∧
      plainSvg.self.className = .object "[object SVGAnimatedString]".toList ∧
      buildLocatorInfo plainSvg = none ∧
      (buildLocatorInfo plainDiv).map (fun info => info.strategy) = some "CSS".toList := by
  decide
/-! ## `buildAllLocators` -/

/-- For a text of the basic plane the property `length` is the number of its
characters. -/
theorem jsLength_eq_length (s : JSString) (h : ∀ c ∈ s, c.toNat < 65536) :
    jsLength s = s.length := by
  induction s with
  | nil => rfl
  | cons a t ih =>
    have ha : codeUnits a = 1 := by
      unfold codeUnits
      rw [if_pos (h a (List.mem_cons_self a t))]
    have iht := ih (fun c hc => h c (List.mem_cons_of_mem a hc))
    unfold jsLength at iht ⊢
    rw [List.map_cons, List.sum_cons, ha, iht, List.length_cons, Nat.add_comm]

/-- A returned bundle is the one built from the path that `buildRelativeXPath`
returned and from the string `className`. -/
theorem buildAllLocators_returns (el : Element) (bundle : AllLocators)
    (h : buildAllLocators el = some bundle) :
    buildRelativeXPath (some (.element el)) = some bundle.relativeXPath ∧
      el.self.className = .string bundle.classAttr ∧
      bundle.text = visibleText el.self ∧
      bundle.textXPath =
        if !(visibleText el.self).isEmpty && jsLength (visibleText el.self) ≤ 40 then
          some (".//".toList ++ elementTag el.self ++ "[normalize-space()='".toList ++
            escapeSingleQuotes (visibleText el.self) ++ "']".toList)
        else none := by
  cases hx : buildRelativeXPath (some (.element el)) with
  | none =>
    simp only [buildAllLocators, hx] at h
    cases h
  | some x =>
    cases hc : el.self.className with
    | object text =>
      simp only [buildAllLocators, hx, hc] at h
      cases h
    | string classAttr =>
      simp only [buildAllLocators, hx, hc] at h
      injection h with h
      subst h
      exact ⟨rfl, rfl, rfl, rfl⟩

/-- What a returned bundle holds: the text-based path is emitted exactly when the
trimmed text of the element is non-empty and has at most 40 characters (code units,
as counted by `length`): then it is `.//tag[normalize-space()='text']` with a
backslash before every single quote of the text; when the text is empty or has 41 or
more characters the path is null.  The relative path of the bundle is the result of
`buildRelativeXPath`. -/
theorem textXPath_of_returns (el : Element) (bundle : AllLocators)
    (h : buildAllLocators el = some bundle) :
    (visibleText el.self ≠ [] ∧ jsLength (visibleText el.self) ≤ 40 →
      bundle.textXPath =
        some (".//".toList ++ elementTag el.self ++ "[normalize-space()='".toList ++
          escapeSingleQuotes (visibleText el.self) ++ "']".toList)) ∧
    (visibleText el.self = [] ∨ 41 ≤ jsLength (visibleText el.self) →
      bundle.textXPath = none) ∧
    bundle.text =
      trim ((orElse (orElse el.self.innerText el.self.textContent) (some [])).getD []) ∧
    buildRelativeXPath (some (.element el)) = some bundle.relativeXPath := by
  obtain ⟨hx, _, htext, hpath⟩ := buildAllLocators_returns el bundle h
  refine ⟨?_, ?_, htext, hx⟩
  · rintro ⟨hne, hlen⟩
    have hcond : (!(visibleText el.self).isEmpty && decide (jsLength (visibleText el.self) ≤ 40))
        = true := by
      cases hv : visibleText el.self with
      | nil => exact absurd hv hne
      | cons a t =>
        rw [hv] at hlen
        simp [hlen]
    rw [hpath, if_pos hcond]
  · intro h
    have hcond : (!(visibleText el.self).isEmpty && decide (jsLength (visibleText el.self) ≤ 40))
        = false := by
      rcases h with h | h
      · rw [h]; rfl
      · have : ¬ jsLength (visibleText el.self) ≤ 40 := by omega
        simp [this]
    rw [hpath, hcond]
    rfl

/-- The bundle of a button with the text ` Save `: the text is trimmed and the
text-based path is emitted. -/
theorem buildAllLocators_saveButton :
    (buildAllLocators saveButton).map (fun bundle => bundle.text) = some "Save".toList ∧
      (buildAllLocators saveButton).map (fun bundle => bundle.textXPath) =
        some (some ".//button[normalize-space()='Save']".toList) := by
  decide

/-- C15 (evaluation at the failing inputs): for the element
`<svg class="icon" tabindex="0">` the property `className` is an object and
`classAttr.split` raises; for the control `<input name="q">` of a form with id `login`
that owns a control named `id`, `buildRelativeXPath` raises.  In both cases
`buildAllLocators` returns no bundle, so there is neither a text-based path nor a
relative path.  For the button with the text ` Save ` the bundle holds the path
`.//button[normalize-space()='Save']` and the relative path `//button[1]`. -/
theorem allLocators_missing_bundle :
    svgIcon.self.className = .object "[object SVGAnimatedString]".toList ∧
      buildRelativeXPath (some (.element svgIcon)) = some "//svg[1]".toList ∧
      buildAllLocators svgIcon = none ∧
      buildRelativeXPath (some (.element loginQuery)) = none ∧
      buildAllLocators loginQuery = none ∧
      (buildAllLocators saveButton).map (fun bundle => bundle.textXPath) =
        some (some ".//button[normalize-space()='Save']".toList) ∧
      (buildAllLocators saveButton).map (fun bundle => bundle.relativeXPath) =
        some "//button[1]".toList := by
  decide

/-! ## The class text -/

theorem foldl_appendField (infos : List LocatorInfo) :
    ∀ sb : JSString, infos.foldl appendField sb =
      sb ++ (infos.map fun info =>
        "    ".toList ++ buildFindByAnnotation info ++ newline ++
          ("    private WebElement ".toList ++ info.name ++ ";".toList ++ newline ++ newline)).flatten := by
  induction infos with
  | nil => intro sb; simp
  | cons i is ih =>
    intro sb
    rw [List.foldl_cons, ih]
    simp only [appendField, List.map_cons, List.flatten_cons, List.append_assoc]

theorem foldl_appendAccessor (infos : List LocatorInfo) :
    ∀ sb : JSString, infos.foldl appendAccessor sb =
      sb ++ (infos.map fun info =>
        "    public WebElement ".toList ++
            ("get".toList ++ upperCaseFirstUnit info.name) ++
            "() \x7b".toList ++ newline ++
          ("        return ".toList ++ info.name ++ ";".toList ++ newline) ++
          ("    \x7d".toList ++ newline ++ newline)).flatten := by
  induction infos with
  | nil => intro sb; simp
  | cons i is ih =>
    intro sb
    rw [List.foldl_cons, ih]
    simp only [appendAccessor, List.map_cons, List.flatten_cons, List.append_assoc]

set_option maxRecDepth 100000 in
/-- C16: `generatePageObject` checks no collision of field names.  The class text is a
header followed by one field declaration for every record of `locatorInfos`, then one
accessor for every record, whatever the names are.  The two interactable buttons
`<button id="x">` and `<button name="x">` have the different dedup keys `ID:x` and
`NAME:x` and the same name `btnX`, and the class text generated for them holds the
field declaration `private WebElement btnX;` twice and the accessor
`public WebElement getBtnX()` twice. -/
theorem generatePageObject_name_collision :
    (∀ (packageName : Option JSString) (className : JSString) (raw : List Element),
      ∃ header : JSString,
        generatePageObject packageName className raw =
          header ++
            ((locatorInfos raw).map fun info =>
              "    ".toList ++ buildFindByAnnotation info ++ newline ++
                ("    private WebElement ".toList ++ info.name ++ ";".toList ++ newline ++
                  newline)).flatten ++
            ((locatorInfos raw).map fun info =>
              "    public WebElement ".toList ++
                  ("get".toList ++ upperCaseFirstUnit info.name) ++
                  "() \x7b".toList ++ newline ++
                ("        return ".toList ++ info.name ++ ";".toList ++ newline) ++
                ("    \x7d".toList ++ newline ++ newline)).flatten ++
            ("\x7d".toList ++ newline)) ∧
    (∀ el ∈ twoButtons, isInteractable (some (.element el)) = true) ∧
    (locatorInfos twoButtons).map dedupKey = ["ID:x".toList, "NAME:x".toList] ∧
    (locatorInfos twoButtons).map (fun info => info.name) = ["btnX".toList, "btnX".toList] ∧
    countOccurrences "    private WebElement btnX;".toList
        (generatePageObject (some "com.example.pages".toList) "GeneratedPage".toList twoButtons) =
      2 ∧
    countOccurrences "    public WebElement getBtnX() \x7b".toList
        (generatePageObject (some "com.example.pages".toList) "GeneratedPage".toList twoButtons) =
      2 := by
  refine ⟨?_, by decide, by decide, by decide, by decide, by decide⟩
  intro packageName className raw
  unfold generatePageObject
  dsimp only
  rw [foldl_appendAccessor, foldl_appendField]
  exact ⟨_, rfl⟩

/-! ## `buildCssFallback` -/

/-- C18 (evaluation at the failing input): for the `span` that is the second `span`
child of `<div id="main">`, `buildCssFallback` returns
`#main > span:nth-of-type(2) > span`: the tag of the element stands a second time
after its `nth-of-type` segment, so the result is not `#main > span:nth-of-type(2)`. -/
theorem buildCssFallback_repeats_tag :
    buildCssFallback (some (.element spanInMain)) =
        some "#main > span:nth-of-type(2) > span".toList ∧
      buildCssFallback (some (.element spanInMain)) ≠
        some ("#".toList ++ "main".toList ++ " > ".toList ++ "span".toList ++
          ":nth-of-type(".toList ++ numberToString 2 ++ ")".toList) := by
  decide

/-! ## Sibling indices -/

theorem countSameTagBackwards_eq (cur : ElementData) (siblings : List ElementData) :
    ∀ index : Nat, countSameTagBackwards cur siblings index =
      index + siblings.countP fun sibling => sibling.tagName = cur.tagName := by
  induction siblings with
  | nil => intro index; rfl
  | cons a t ih =>
    intro index
    rw [countSameTagBackwards, ih, List.countP_cons]
    by_cases h : a.tagName = cur.tagName
    · simp [h]; omega
    · simp [h]

/-- The index of `buildRelativeXPath` is one plus the number of preceding siblings
with the tag name of the element. -/
theorem siblingIndex_eq (cur : ElementData) (before : List ElementData) :
    siblingIndex cur before =
      1 + before.countP fun sibling => sibling.tagName = cur.tagName := by
  rw [siblingIndex, countSameTagBackwards_eq, List.countP_reverse]

theorem xpathSegment_eq_stated (cur : ElementData) (before : List ElementData) :
    xpathSegment cur before = statedSegment (cur, before) := by
  rw [xpathSegment, statedSegment, siblingIndex_eq]

theorem findIdx?_flag (A B : List (ElementData × Bool)) (x : ElementData × Bool)
    (hA : ∀ a ∈ A, a.2 = false) (hx : x.2 = true) :
    (A ++ x :: B).findIdx? (fun c => c.2) = some A.length := by
  induction A with
  | nil => simp [List.findIdx?_cons, hx]
  | cons a t ih =>
    have ha : a.2 = false := hA a (List.mem_cons_self a t)
    have iht := ih (fun b hb => hA b (List.mem_cons_of_mem a hb))
    rw [List.cons_append, List.findIdx?_cons, ha]
    simp only [Bool.false_eq_true, if_false]
    rw [List.findIdx?_succ, iht]
    rfl

/-- The index found by `buildCssFallback` is the number of preceding siblings with
the tag name of the element. -/
theorem sameTagIndex_eq (cur : ElementData) (l : Level) :
    sameTagIndex cur l =
      some (l.before.countP fun sibling => sibling.tagName = cur.tagName) := by
  unfold sameTagIndex
  dsimp only
  rw [List.filter_append, List.filter_append]
  have hcur : List.filter (fun c : ElementData × Bool => decide (c.1.tagName = cur.tagName))
      [(cur, true)] = [(cur, true)] := by simp
  rw [hcur, List.append_assoc, List.singleton_append, findIdx?_flag]
  · rw [List.filter_map, List.length_map, List.countP_eq_length_filter]
    rfl
  · intro a ha
    obtain ⟨ha, _⟩ := List.mem_filter.mp ha
    obtain ⟨c, _, rfl⟩ := List.mem_map.mp ha
    rfl
  · rfl

/-- The result of `buildCssFallback` for an element whose parent has a truthy `id`:
the anchor, the segment of the element, and the tag of the element once more. -/
theorem buildCssFallback_of_parent_id (e : ElementData) (l : Level) (ls : List Level)
    (hbody : e.isBody = false) (hroot : e.isDocumentElement = false)
    (hid : l.parent.id.truthy = true) :
    buildCssFallback (some (.element ⟨e, l :: ls⟩)) =
      some ("#".toList ++ l.parent.id.toText ++ " > ".toList ++
        (toLowerCase e.tagName ++
          (":nth-of-type(".toList ++
            numberToString ((l.before.countP fun sibling => sibling.tagName = e.tagName) + 1) ++
            ")".toList) ++
          " > ".toList ++ toLowerCase e.tagName)) := by
  simp only [buildCssFallback, cssFallbackLoop, hbody, hroot, sameTagIndex_eq, hid,
    Bool.or_self, Bool.false_eq_true, if_false, if_true]
/-! ## The path anchored at an ancestor -/

theorem id_eq_nil_of_no_attribute (d : ElementData) (h : d.hasAttribute "id".toList = false)
    (hplain : d.idObject = none) : d.id = .string [] := by
  unfold ElementData.hasAttribute at h
  unfold ElementData.id
  rw [hplain]
  cases hg : d.getAttribute "id".toList with
  | none => rfl
  | some v => rw [hg] at h; cases h

theorem closestWithIdFrom_self (cur : ElementData) (ancs : List Level)
    (h : cur.hasAttribute "id".toList = true) :
    closestWithIdFrom cur ancs = some ⟨cur, ancs⟩ := by
  cases ancs <;> simp only [closestWithIdFrom, h, if_true]

theorem closestWithIdFrom_below (below : List Level) (top : Level) (above : List Level) :
    ∀ e : ElementData, e.hasAttribute "id".toList = false →
      (∀ l ∈ below, l.parent.hasAttribute "id".toList = false) →
      top.parent.hasAttribute "id".toList = true →
      closestWithIdFrom e (below ++ top :: above) = some ⟨top.parent, above⟩ := by
  induction below with
  | nil =>
    intro e he _ htop
    simp only [List.nil_append, closestWithIdFrom, he, Bool.false_eq_true, if_false]
    exact closestWithIdFrom_self top.parent above htop
  | cons l ls ih =>
    intro e he hbelow htop
    rw [List.cons_append]
    simp only [closestWithIdFrom, he, Bool.false_eq_true, if_false]
    exact ih l.parent (hbelow l (List.mem_cons_self l ls))
      (fun l' hl' => hbelow l' (List.mem_cons_of_mem l hl')) htop

theorem xpathParts_stop (stop : Element → Bool) (cur : ElementData) (ancs : List Level)
    (parts : List JSString) (h : stop ⟨cur, ancs⟩ = true) :
    xpathParts stop cur ancs parts = parts := by
  cases ancs <;> simp [xpathParts, h]

theorem xpathParts_below (anchor : ElementData) (below : List Level) (top : Level)
    (above : List Level) :
    ∀ (e : ElementData) (parts : List JSString),
      xpathParts (fun current => current.sameNode ⟨anchor, above⟩) e (below ++ top :: above) parts =
        ((chainBelow e (below ++ [top])).reverse.map statedSegment) ++ parts := by
  induction below with
  | nil =>
    intro e parts
    have hstop : Element.sameNode ⟨e, top :: above⟩ ⟨anchor, above⟩ = false := by
      simp [Element.sameNode]
    simp only [List.nil_append, xpathParts, hstop, Bool.false_eq_true, if_false]
    rw [xpathParts_stop _ _ _ _ (by simp [Element.sameNode]), xpathSegment_eq_stated]
    rfl
  | cons l ls ih =>
    intro e parts
    have hstop : Element.sameNode ⟨e, l :: (ls ++ top :: above)⟩ ⟨anchor, above⟩ = false := by
      simp [Element.sameNode]
      omega
    rw [List.cons_append]
    simp only [xpathParts, hstop, Bool.false_eq_true, if_false]
    rw [ih, xpathSegment_eq_stated]
    simp [chainBelow]

theorem length_chainBelow (levels : List Level) :
    ∀ e : ElementData, (chainBelow e levels).length = levels.length := by
  induction levels with
  | nil => intro e; rfl
  | cons l ls ih => intro e; simp [chainBelow, ih]

/-- The path anchored at an ancestor: for every element `e` without an id whose
nearest ancestor carrying an `id` attribute is `A`, when the property `id` of `A` is
the string `a`, `buildRelativeXPath(e)` is `.//*[@id='a']//` (with a backslash before
every single quote of `a`) followed by the segments of the elements below `A`, from
the child of `A` down to `e`, joined by `/`; the segment of an element is its
lower-cased tag and, between brackets, one plus the number of its preceding siblings
with the same tag name.  There is exactly one segment for each element strictly
below `A` down to `e`. -/
theorem relativeXPath_below_string_anchor (e : ElementData) (below : List Level) (top : Level)
    (above : List Level) (a : JSString)
    (he : e.hasAttribute "id".toList = false) (hplain : e.idObject = none)
    (hbelow : ∀ l ∈ below, l.parent.hasAttribute "id".toList = false)
    (htop : top.parent.hasAttribute "id".toList = true)
    (hanchor : top.parent.id = .string a) :
    buildRelativeXPath (some (.element ⟨e, below ++ top :: above⟩)) =
        some (".//*[@id='".toList ++ escapeSingleQuotes a ++ "']//".toList ++
          "/".toList.intercalate
            ((chainBelow e (below ++ [top])).reverse.map statedSegment)) ∧
      ((chainBelow e (below ++ [top])).reverse.map statedSegment).length = below.length + 1 := by
  have hlen : ((chainBelow e (below ++ [top])).reverse.map statedSegment).length =
      below.length + 1 := by
    rw [List.length_map, List.length_reverse, length_chainBelow, List.length_append]
    rfl
  refine ⟨?_, hlen⟩
  · have hid : e.id = .string [] := id_eq_nil_of_no_attribute e he hplain
    have hne : ¬ ((chainBelow e (below ++ [top])).reverse.map statedSegment).length = 0 := by
      rw [hlen]; omega
    simp only [buildRelativeXPath, elementXPath, hid, PropertyValue.truthy, List.isEmpty_nil,
      Bool.not_true, Bool.false_eq_true, if_false, Element.closestWithId,
      closestWithIdFrom_below below top above e he hbelow htop, hanchor,
      PropertyValue.escapeSingleQuotes, xpathParts_below, List.append_nil, hne, join]

/-- When the property `id` of the nearest ancestor carrying an `id` attribute is an
object, `ancestorWithId.id.replace` raises. -/
theorem relativeXPath_below_object_anchor (e : ElementData) (below : List Level) (top : Level)
    (above : List Level) (text : JSString)
    (he : e.hasAttribute "id".toList = false) (hplain : e.idObject = none)
    (hbelow : ∀ l ∈ below, l.parent.hasAttribute "id".toList = false)
    (htop : top.parent.hasAttribute "id".toList = true)
    (hanchor : top.parent.id = .object text) :
    buildRelativeXPath (some (.element ⟨e, below ++ top :: above⟩)) = none := by
  have hid : e.id = .string [] := id_eq_nil_of_no_attribute e he hplain
  simp only [buildRelativeXPath, elementXPath, hid, PropertyValue.truthy, List.isEmpty_nil,
    Bool.not_true, Bool.false_eq_true, if_false, Element.closestWithId,
    closestWithIdFrom_below below top above e he hbelow htop, hanchor,
    PropertyValue.escapeSingleQuotes]

/-- C13 (evaluation at the failing input): the control `<input name="q">` has no id
and its nearest ancestor with an `id` attribute is the form with id `login`, one
level up; the one segment below the form is `input[2]`, so the claim gives
`.//*[@id='login']//input[2]`.  The form owns a control named `id`, its property `id`
is that control, `ancestorWithId.id.replace` raises and `buildRelativeXPath` returns
nothing.  For the link in the second item of the list inside `<div id="main">` the
path is the one of the claim. -/
theorem anchored_path_raises_on_shadowed_anchor :
    loginQuery.self.hasAttribute "id".toList = false ∧
      loginQuery.closestWithId.map (fun a => a.self) = some loginFormData ∧
      loginFormData.getAttribute "id".toList = some "login".toList ∧
      loginFormData.id = .object "[object HTMLInputElement]".toList ∧
      (chainBelow queryControl [⟨loginFormData, [idControl], [goControl]⟩]).reverse.map
        statedSegment = ["input[2]".toList] ∧
      buildRelativeXPath (some (.element loginQuery)) = none ∧
      buildRelativeXPath (some (.element linkInMain)) =
        some ".//*[@id='main']//ul[1]/li[2]/a[1]".toList := by
  decide
/-! ## Stability of the sibling index -/

/-- The path of an element reads, of the level of its parent, the data of the parent
and the segment of the element: with the same parent data, two sibling lists that
give the same segment give the same result. -/
theorem elementXPath_congr_level (e parent : ElementData) (ls : List Level)
    (before before' after after' : List ElementData)
    (hseg : xpathSegment e before = xpathSegment e before') :
    elementXPath ⟨e, ⟨parent, before, after⟩ :: ls⟩ =
      elementXPath ⟨e, ⟨parent, before', after'⟩ :: ls⟩ := by
  unfold elementXPath
  dsimp only
  split
  · rfl
  · cases hattr : e.hasAttribute "id".toList with
    | true =>
      simp only [Element.closestWithId, closestWithIdFrom, hattr, if_true, xpathParts,
        Element.sameNode, beq_self_eq_true]
    | false =>
      simp only [Element.closestWithId, closestWithIdFrom, hattr, Bool.false_eq_true, if_false]
      cases closestWithIdFrom parent ls with
      | none => simp only [xpathParts, hseg]
      | some anchor =>
        simp only [xpathParts, Element.sameNode, List.length_cons, hseg]

/-- The sibling index of `buildRelativeXPath` counts the siblings with the tag name
of the element only: a sibling with another tag name, at any place before the
element, does not change the segment `tag[index]`, and when the data of the parent
(its `id` property among them) is the same with and without the sibling, the result
of `buildRelativeXPath` is the same; a sibling with the tag name of the element at
any place before it raises the index by one. -/
theorem siblingIndex_counts_same_tag (e parent sibling : ElementData) (ls : List Level)
    (b1 b2 a1 a2 : List ElementData) :
    (sibling.tagName ≠ e.tagName →
      xpathSegment e (b1 ++ sibling :: b2) = xpathSegment e (b1 ++ b2) ∧
        buildRelativeXPath (some (.element ⟨e, ⟨parent, b1 ++ sibling :: b2, a1 ++ a2⟩ :: ls⟩)) =
          buildRelativeXPath (some (.element ⟨e, ⟨parent, b1 ++ b2, a1 ++ a2⟩ :: ls⟩)) ∧
        buildRelativeXPath (some (.element ⟨e, ⟨parent, b1 ++ b2, a1 ++ sibling :: a2⟩ :: ls⟩)) =
          buildRelativeXPath (some (.element ⟨e, ⟨parent, b1 ++ b2, a1 ++ a2⟩ :: ls⟩))) ∧
    (sibling.tagName = e.tagName →
      siblingIndex e (b1 ++ sibling :: b2) = siblingIndex e (b1 ++ b2) + 1) := by
  refine ⟨?_, ?_⟩
  · intro hne
    have hseg : xpathSegment e (b1 ++ sibling :: b2) = xpathSegment e (b1 ++ b2) := by
      unfold xpathSegment
      rw [siblingIndex_eq, siblingIndex_eq, List.countP_append, List.countP_append,
        List.countP_cons]
      simp [hne]
    exact ⟨hseg, elementXPath_congr_level e parent ls _ _ _ _ hseg,
      elementXPath_congr_level e parent ls _ _ _ _ rfl⟩
  · intro heq
    rw [siblingIndex_eq, siblingIndex_eq, List.countP_append, List.countP_append,
      List.countP_cons]
    simp [heq]
    omega

/-- C14 (evaluation at the failing input): the button of
`<form id="f"><button></button></form>` has the path `.//*[@id='f']//button[1]`.
Inserting the sibling `<input name="id">`, whose tag name differs from the one of the
button, leaves the segment `button[1]` as it is, but the new control shadows the
property `id` of the form: `ancestorWithId.id.replace` raises and
`buildRelativeXPath` returns nothing, so the path is not unchanged. -/
theorem sibling_insertion_breaks_path :
    idControl.tagName ≠ formButton.self.tagName ∧
      formButtonWithControl.self = formButton.self ∧
      xpathSegment formButton.self [] = "button[1]".toList ∧
      buildRelativeXPath (some (.element formButton)) =
        some ".//*[@id='f']//button[1]".toList ∧
      buildRelativeXPath (some (.element formButtonWithControl)) = none ∧
      buildRelativeXPath (some (.element formButtonWithControl)) ≠
        buildRelativeXPath (some (.element formButton)) := by
  decide
/-! ## The two sibling indices -/

/-- C21: the two sibling indices agree: for every element with a parent, the number of
`nth-of-type` computed by `buildCssFallback` (one plus the position of the element
among the children of the parent with its tag name) is the index computed by
`buildRelativeXPath` (one plus the number of preceding siblings with its tag name). -/
theorem sibling_indices_agree (cur : ElementData) (l : Level) (ls : List Level)
    (path : JSString) :
    ∃ index : Nat,
      sameTagIndex cur l = some index ∧
      ((l.before ++ cur :: l.after).filter fun c => c.tagName = cur.tagName)[index]? =
        some cur ∧
      index + 1 = siblingIndex cur l.before ∧
      xpathSegment cur l.before =
        toLowerCase cur.tagName ++ "[".toList ++ numberToString (index + 1) ++ "]".toList ∧
      (cur.isBody = false → cur.isDocumentElement = false →
        cssFallbackLoop cur (l :: ls) path =
          if l.parent.id.truthy then
            "#".toList ++ l.parent.id.toText ++ " > ".toList ++
              (toLowerCase cur.tagName ++
                (":nth-of-type(".toList ++ numberToString (siblingIndex cur l.before) ++
                  ")".toList) ++ " > ".toList ++ path)
          else
            cssFallbackLoop l.parent ls
              (toLowerCase cur.tagName ++
                (":nth-of-type(".toList ++ numberToString (siblingIndex cur l.before) ++
                  ")".toList) ++ " > ".toList ++ path)) := by
  have hidx : siblingIndex cur l.before =
      (l.before.countP fun sibling => sibling.tagName = cur.tagName) + 1 := by
    rw [siblingIndex_eq, Nat.add_comm]
  refine ⟨l.before.countP fun sibling => sibling.tagName = cur.tagName, sameTagIndex_eq cur l,
    ?_, hidx.symm, ?_, ?_⟩
  · have hcur : List.filter (fun c : ElementData => decide (c.tagName = cur.tagName))
        (cur :: l.after) =
        cur :: List.filter (fun c : ElementData => decide (c.tagName = cur.tagName)) l.after := by
      simp
    rw [List.filter_append, hcur, List.countP_eq_length_filter,
      List.getElem?_append_right (Nat.le_refl _), Nat.sub_self]
    simp
  · rw [xpathSegment, hidx]
  · intro hbody hroot
    simp only [cssFallbackLoop, hbody, hroot, sameTagIndex_eq, hidx, Bool.or_self,
      Bool.false_eq_true, if_false]

/-! ## The dedup key -/

theorem append_colon_inj (s1 : JSString) :
    ∀ (s2 v1 v2 : JSString), ':' ∉ s1 → ':' ∉ s2 →
      s1 ++ ':' :: v1 = s2 ++ ':' :: v2 → s1 = s2 ∧ v1 = v2 := by
  induction s1 with
  | nil =>
    intro s2 v1 v2 _ h2 h
    cases s2 with
    | nil =>
      simp only [List.nil_append, List.cons.injEq, true_and] at h
      exact ⟨rfl, h⟩
    | cons b t =>
      simp only [List.nil_append, List.cons_append, List.cons.injEq] at h
      exact absurd (h.1 ▸ List.mem_cons_self b t) h2
  | cons a t ih =>
    intro s2 v1 v2 h1 h2 h
    cases s2 with
    | nil =>
      simp only [List.nil_append, List.cons_append, List.cons.injEq] at h
      exact absurd (h.1 ▸ List.mem_cons_self a t) h1
    | cons b u =>
      simp only [List.cons_append, List.cons.injEq] at h
      obtain ⟨hab, hrest⟩ := h
      have := ih u v1 v2 (fun hm => h1 (List.mem_cons_of_mem a hm))
        (fun hm => h2 (List.mem_cons_of_mem b hm)) hrest
      exact ⟨by rw [hab, this.1], this.2⟩

theorem strategy_mem_strategyNames (el : Element) (info : LocatorInfo)
    (h : buildLocatorInfo el = some info) : info.strategy ∈ strategyNames := by
  refine returns_elim (motive := fun i => i.strategy ∈ strategyNames) el info h
    ?_ ?_ ?_ ?_ ?_ ?_ ?_ <;> intros <;> dsimp only <;> decide

/-- C22: the dedup key is injective on pairs of a strategy and a value: for strategies
`s1`, `s2` of the closed enumeration and all strings `v1`, `v2`, the keys `s1:v1` and
`s2:v2` are equal exactly when `s1 = s2` and `v1 = v2`, also when the values hold
colons.  Every strategy returned by `buildLocatorInfo` is in the enumeration, so two
records have the same key exactly when they have the same strategy and the same value,
and `generatePageObject` never merges two locators that differ in one of them. -/
theorem dedupKey_injective :
    (∀ s1 ∈ strategyNames, ∀ s2 ∈ strategyNames, ∀ v1 v2 : JSString,
      (s1 ++ ":".toList ++ v1 = s2 ++ ":".toList ++ v2 ↔ s1 = s2 ∧ v1 = v2)) ∧
    (∀ (el : Element) (info : LocatorInfo), buildLocatorInfo el = some info →
      info.strategy ∈ strategyNames) ∧
    (∀ (el1 el2 : Element) (info1 info2 : LocatorInfo),
      buildLocatorInfo el1 = some info1 → buildLocatorInfo el2 = some info2 →
      (dedupKey info1 = dedupKey info2 ↔
        info1.strategy = info2.strategy ∧ info1.locatorValue = info2.locatorValue)) := by
  have hcolon : ∀ s ∈ strategyNames, ':' ∉ s := by decide
  have hinj : ∀ s1 ∈ strategyNames, ∀ s2 ∈ strategyNames, ∀ v1 v2 : JSString,
      (s1 ++ ":".toList ++ v1 = s2 ++ ":".toList ++ v2 ↔ s1 = s2 ∧ v1 = v2) := by
    intro s1 h1 s2 h2 v1 v2
    constructor
    · intro h
      have h' : s1 ++ ':' :: v1 = s2 ++ ':' :: v2 := by
        simpa [List.append_assoc] using h
      exact append_colon_inj s1 s2 v1 v2 (hcolon s1 h1) (hcolon s2 h2) h'
    · rintro ⟨rfl, rfl⟩
      rfl
  refine ⟨hinj, strategy_mem_strategyNames, ?_⟩
  intro el1 el2 info1 info2 h1 h2
  exact hinj _ (strategy_mem_strategyNames el1 info1 h1) _
    (strategy_mem_strategyNames el2 info2 h2) _ _
end LocatorGen
